import Mathlib

/-!
# Hafak Surgicals backend: catalogue routes

A shallow embedding of the request handlers in `routes/equipment.js` and
`routes/categories.js`, the slug hook of `models/Equipment.js`, and the
pieces of the document store they call.

Conventions.
* A JavaScript string is a Lean `String`; functions work on its `data`.
* A JavaScript number holding an integer is an `Int`. The two agree on the
  safe integers (`IsSafeInteger`, absolute value below `2^53`); the theorems
  that compute with a parsed `page` or `limit` assume that range.
* Library behaviour that the repository does not define (`toLowerCase`,
  ObjectId casting, `$text` matching) is a field of `Runtime`, so every
  theorem holds for every such behaviour.
-/

namespace Hafak

/-! ## Strings -/

/-- Membership in the character class `[a-z0-9]` used by the slug hook
(code points 97 to 122 and 48 to 57). -/
def isSlugAlnum (c : Char) : Bool :=
  (decide (97 ≤ c.toNat) && decide (c.toNat ≤ 122)) ||
    (decide (48 ≤ c.toNat) && decide (c.toNat ≤ 57))

/-- The replacement `.replace(/[^a-z0-9]+/g, '-')`: scanning left to right,
every maximal run of characters outside `[a-z0-9]` becomes one hyphen. The
flag records that the scan is inside such a run (its hyphen is already
written). -/
def replaceRuns : Bool → List Char → List Char
  | _, [] => []
  | inRun, c :: cs =>
    if isSlugAlnum c then c :: replaceRuns false cs
    else if inRun then replaceRuns true cs
    else '-' :: replaceRuns true cs

/-- The replacement `.replace(/(^-|-$)/g, '')`: a hyphen at index 0 is removed,
and then a hyphen that is the last character is removed. -/
def stripEdgeHyphens (s : List Char) : List Char :=
  let s1 := if s.head? = some '-' then s.tail else s
  if s1.getLast? = some '-' then s1.dropLast else s1

/-- The slug expression of the `pre('save')` hook (Equipment.js 125-128,
Product.js 61-64): `name.toLowerCase().replace(/[^a-z0-9]+/g, '-')
.replace(/(^-|-$)/g, '')`, for a given `toLowerCase`. -/
def deriveSlug (toLowerCase : String → String) (name : String) : String :=
  String.mk (stripEdgeHyphens (replaceRuns false (toLowerCase name).data))

/-- Lower-casing of the letters `A`-`Z` only; `toLowerCase` agrees with it on
ASCII input. Used to evaluate the model on concrete names. -/
def asciiLower (s : String) : String := String.mk (s.data.map Char.toLower)

/-- Characters allowed in a slug: `[a-z0-9-]`. -/
def isSlugChar (c : Char) : Bool := isSlugAlnum c || c == '-'


/-- No two neighbouring characters are both hyphens. -/
def NoDoubleHyphen (l : List Char) : Prop :=
  List.Chain' (fun a b => a ≠ '-' ∨ b ≠ '-') l

/-- The white space and line terminator code points that `parseInt` and
`String.prototype.trim` strip (ECMAScript `StrWhiteSpaceChar`). -/
def isJsWhiteSpace (c : Char) : Bool :=
  let n := c.toNat
  n == 9 || n == 10 || n == 11 || n == 12 || n == 13 || n == 32 || n == 160 ||
    n == 5760 || (decide (8192 ≤ n) && decide (n ≤ 8202)) || n == 8232 || n == 8233 ||
    n == 8239 || n == 8287 || n == 12288 || n == 65279

/-- Value of a character as a digit, letters counting from ten in either case. -/
def digitValue (c : Char) : Option Nat :=
  let n := c.toNat
  if 48 ≤ n ∧ n ≤ 57 then some (n - 48)
  else if 97 ≤ n ∧ n ≤ 122 then some (n - 87)
  else if 65 ≤ n ∧ n ≤ 90 then some (n - 55)
  else none

/-- Reads the longest run of digits of the radix at the head of the input;
`none` while no digit has been read. -/
def readDigits (radix : Nat) : List Char → Option Nat → Option Nat
  | [], acc => acc
  | c :: cs, acc =>
    match digitValue c with
    | some d => if d < radix then readDigits radix cs (some (acc.getD 0 * radix + d)) else acc
    | none => acc

/-- The global `parseInt(string)` with no radix argument: leading white space
is skipped, then an optional sign, then an optional `0x`/`0X` marker selecting
radix 16, then the longest run of digits. `none` stands for `NaN`. The
result is the integer the digits denote; the double that JavaScript returns
equals it whenever it is a safe integer (absolute value below `2^53`). -/
def parseInt (s : String) : Option Int :=
  let t := s.data.dropWhile isJsWhiteSpace
  let neg := t.head? = some '-'
  let t := if t.head? = some '-' ∨ t.head? = some '+' then t.tail else t
  let hex := t.take 2 = ['0', 'x'] ∨ t.take 2 = ['0', 'X']
  let radix := if hex then 16 else 10
  let t := if hex then t.drop 2 else t
  match readDigits radix t none with
  | none => none
  | some n => some (if neg then -(n : Int) else (n : Int))

/-- `parseInt` of a query parameter: an absent parameter is `undefined`, which
parses to `NaN`. -/
def parseIntParam (raw : Option String) : Option Int := raw.bind parseInt

/-- The idiom `parseInt(x) || d`: `NaN` and `0` are falsy and yield `d`. -/
def orDefault (v : Option Int) (d : Int) : Int :=
  match v with
  | some n => if n = 0 then d else n
  | none => d

/-- The idiom `req.query.x || ''`: absent and empty both give the empty string. -/
def strOr (raw : Option String) : String := raw.getD ""

/-- `Math.ceil(a / b)` on integers, by floor division with a positive divisor
(`b = 0` does not occur: `orDefault` never returns 0 for a non-zero default). -/
def ceilDiv (a b : Int) : Int :=
  if 0 < b then -((-a) / b) else if b < 0 then -(a / (-b)) else 0

/-! ## Documents -/

/-- A MongoDB ObjectId, as the number its 24 hexadecimal digits denote. -/
abbrev ObjectId := Nat

/-- Modelled from the spec: the Category document (`models/Category.js` is not
among the sources). Spec section 3: name (unique), description, icon, sortOrder,
isActive (soft-delete flag), slug (derived), timestamps. -/
structure Category where
  _id : ObjectId
  name : String
  description : String := ""
  icon : String := ""
  sortOrder : Int := 0
  isActive : Bool := true
  slug : String := ""
  createdAt : Nat := 0
  updatedAt : Nat := 0
  deriving DecidableEq, Repr

/-- The Equipment document of `models/Equipment.js`, with the schema defaults.
`price` and `rating` are kept as rationals. -/
structure Equipment where
  _id : ObjectId
  name : String
  description : String
  categoryId : ObjectId
  image : String := ""
  price : Option Rat := none
  availability : String := "In Stock"
  specifications : List String := []
  features : List String := []
  brand : Option String := none
  model : Option String := none
  condition : String := "New"
  warranty : Option String := none
  stockQuantity : Int := 1
  minStockLevel : Int := 1
  isPublic : Bool := true
  isFeatured : Bool := false
  rating : Option Rat := none
  reviewCount : Int := 0
  sortOrder : Int := 0
  isActive : Bool := true
  tags : List String := []
  slug : String := ""
  createdAt : Nat := 0
  updatedAt : Nat := 0
  deriving DecidableEq, Repr

/-- The two collections of the document store, each in insertion order. -/
structure Store where
  categories : List Category := []
  equipment : List Equipment := []
  deriving DecidableEq, Repr

/-- Behaviour of the libraries underneath the routes, left open: the string
method `toLowerCase`, Mongoose's cast of a string to an ObjectId (`none` when
the cast fails), MongoDB's `$text` match and relevance rank, and the number
of documents in the first batch of a cursor (MongoDB's default is 101). -/
structure Runtime where
  toLowerCase : String → String
  castObjectId : String → Option ObjectId
  textMatch : String → Equipment → Bool
  textScore : String → Equipment → Nat
  firstBatch : Nat

/-- What a failed store call throws, as the `catch` blocks tell the kinds
apart: `error.name === 'ValidationError'` with its per-field messages,
`error.code === 11000`, and anything else. -/
inductive StoreError where
  | validation (errors : List (String × String))
  | duplicateKey
  | other (message : String)
  deriving DecidableEq, Repr

/-! ## Query filters -/

/-- The value a filter object holds under one key. -/
inductive Cond where
  | bool (b : Bool)
  | str (s : String)
  | oid (o : ObjectId)
  | text (search : String)
  deriving DecidableEq, Repr

/-- A filter object: its keys in insertion order, each with its value. -/
abbrev Filter := List (String × Cond)

/-- The assignment `query[k] = v`: an existing key keeps its place and takes the
new value, a new key is added at the end. -/
def Filter.set (q : Filter) (k : String) (v : Cond) : Filter :=
  if q.any (fun p => p.1 == k) then q.map (fun p => if p.1 == k then (k, v) else p)
  else q ++ [(k, v)]

/-- The keys of a filter object. -/
def Filter.keys (q : Filter) : List String := q.map Prod.fst

/-- Whether an Equipment document meets one filter entry. A string under
`categoryId` is cast to an ObjectId by the schema. -/
def Equipment.satisfies (rt : Runtime) (e : Equipment) (entry : String × Cond) : Bool :=
  match entry with
  | (k, .bool b) =>
    if k = "isActive" then e.isActive == b
    else if k = "isPublic" then e.isPublic == b
    else if k = "isFeatured" then e.isFeatured == b
    else false
  | (k, .oid o) => if k = "categoryId" then e.categoryId == o else false
  | (k, .str s) =>
    if k = "categoryId" then rt.castObjectId s == some e.categoryId
    else if k = "availability" then e.availability == s
    else false
  | (k, .text s) => if k = "$text" then rt.textMatch s e else false

/-- Whether an Equipment document meets every entry of a filter. -/
def Equipment.matchesFilter (rt : Runtime) (q : Filter) (e : Equipment) : Bool :=
  q.all (e.satisfies rt)

/-- Whether Mongoose can cast the filter to the Equipment schema: a string
under `categoryId` must cast to an ObjectId, otherwise the query throws a
`CastError`. -/
def Filter.castable (rt : Runtime) (q : Filter) : Bool :=
  q.all fun entry =>
    match entry with
    | (k, .str s) => if k = "categoryId" then (rt.castObjectId s).isSome else true
    | _ => true

/-- The cursor options `.limit(limit).skip(skip)` as MongoDB applies them:
skip first, then limit. A negative skip is rejected; a zero limit is no
limit; a negative limit asks for its absolute value in a single batch, so at
most `firstBatch` documents come back. -/
def skipLimit {α : Type} (firstBatch : Nat) (limit skip : Int) (xs : List α) :
    Except StoreError (List α) :=
  if skip < 0 then .error (.other "Skip value must be non-negative")
  else
    let rest := xs.drop skip.toNat
    .ok (if limit = 0 then rest
      else if limit < 0 then rest.take (min limit.natAbs firstBatch)
      else rest.take limit.toNat)

/-- The documents a filter selects, in the order of a sort specification given
as its "comes no later than" test (ties keep the collection order). -/
def Equipment.selected (rt : Runtime) (st : Store) (q : Filter)
    (le : Equipment → Equipment → Bool) : List Equipment :=
  (st.equipment.filter (Equipment.matchesFilter rt q)).insertionSort (fun a b => le a b = true)

/-- The call `Equipment.find(q).sort(..).limit(limit).skip(skip)`. -/
def Equipment.find (rt : Runtime) (st : Store) (q : Filter)
    (le : Equipment → Equipment → Bool) (limit skip : Int) :
    Except StoreError (List Equipment) :=
  if q.castable rt then skipLimit rt.firstBatch limit skip (Equipment.selected rt st q le)
  else .error (.other "Cast to ObjectId failed")

/-- The call `Equipment.countDocuments(q)`. -/
def Equipment.countDocuments (rt : Runtime) (st : Store) (q : Filter) :
    Except StoreError Nat :=
  if q.castable rt then .ok (st.equipment.filter (Equipment.matchesFilter rt q)).length
  else .error (.other "Cast to ObjectId failed")

/-- The call `Category.findById(id)`: the id is cast first. -/
def Category.findById (rt : Runtime) (st : Store) (id : String) :
    Except StoreError (Option Category) :=
  match rt.castObjectId id with
  | none => .error (.other "Cast to ObjectId failed")
  | some o => .ok (st.categories.find? (fun c => c._id == o))

/-- The call `Category.findOne({ name })`: the first category with exactly
that name. -/
def Category.findOneByName (st : Store) (name : String) : Option Category :=
  st.categories.find? (fun c => c.name == name)

/-- The sort `{ sortOrder: 1, createdAt: -1 }`. -/
def bySortOrderThenNewest (a b : Equipment) : Bool :=
  decide (a.sortOrder < b.sortOrder) ||
    (decide (a.sortOrder = b.sortOrder) && decide (b.createdAt ≤ a.createdAt))

/-- The sort `{ createdAt: -1 }`. -/
def byNewest (a b : Equipment) : Bool := decide (b.createdAt ≤ a.createdAt)

/-- The sort `{ score: { $meta: 'textScore' } }`: best match first. -/
def byTextScore (rt : Runtime) (search : String) (a b : Equipment) : Bool :=
  decide (rt.textScore search b ≤ rt.textScore search a)

/-- What `populate('categoryId', ..)` puts in place of the reference. -/
structure CategoryRef where
  _id : ObjectId
  name : String
  description : Option String := none
  deriving DecidableEq, Repr

/-- An Equipment document as a response carries it: the document, and its
category reference populated (`null` when no such category exists). -/
structure EquipmentView where
  doc : Equipment
  category : Option CategoryRef
  deriving DecidableEq, Repr

/-- The call `.populate('categoryId', 'name')`. -/
def populateName (st : Store) (e : Equipment) : EquipmentView :=
  { doc := e
    category := (st.categories.find? (fun c => c._id == e.categoryId)).map
      (fun c => { _id := c._id, name := c.name }) }

/-! ## Responses -/

/-- The `pagination` object of a list response. -/
structure Pagination where
  page : Int
  limit : Int
  total : Int
  pages : Int
  deriving DecidableEq, Repr

/-- An HTTP response: the status code and the keys of the JSON body; a key
that the body does not have is `none`. -/
structure Response (α : Type) where
  status : Nat := 200
  success : Option Bool := none
  message : Option String := none
  errors : Option (List (String × String)) := none
  error : Option String := none
  count : Option Nat := none
  pagination : Option Pagination := none
  data : Option α := none
  deriving DecidableEq, Repr

/-- The string-valued query parameters the routes read. -/
structure Query where
  page : Option String := none
  limit : Option String := none
  search : Option String := none
  category : Option String := none
  categoryId : Option String := none
  availability : Option String := none
  q : Option String := none
  deriving DecidableEq, Repr

/-- The body `{ message: 'Server error' }` with status 500, sent by the `catch`
block of the read-only routes. -/
def serverError {α : Type} : Response α := { status := 500, message := some "Server error" }

/-! ## Listing routes -/

/-- The constant `page` of a listing route: `parseInt(req.query.page) || 1`. -/
def pageOf (req : Query) : Int := orDefault (parseIntParam req.page) 1

/-- The constant `limit` of a route: `parseInt(req.query.limit) || d`. -/
def limitOf (req : Query) (d : Int) : Int := orDefault (parseIntParam req.limit) d

/-- The filter object that `GET /api/equipment/public` builds
(equipment.js 24-37). -/
def publicQuery (st : Store) (search category : String) : Filter :=
  let query : Filter := [("isActive", .bool true), ("isPublic", .bool true)]
  let query := if search ≠ "" then query.set "$text" (.text search) else query
  if category ≠ "" then
    match Category.findOneByName st category with
    | some categoryDoc => query.set "categoryId" (.oid categoryDoc._id)
    | none => query
  else query

/-- The success body of the two paginated equipment lists (equipment.js 49-59,
232-242). -/
def listResponse (page limit : Int) (equipment : List EquipmentView) (total : Nat) :
    Response (List EquipmentView) :=
  { success := some true
    count := some equipment.length
    pagination := some { page := page, limit := limit, total := total, pages := ceilDiv total limit }
    data := some equipment }

/-- The route `GET /api/equipment/public` (equipment.js 17-64). -/
def getPublic (rt : Runtime) (st : Store) (req : Query) : Response (List EquipmentView) :=
  let page := pageOf req
  let limit := limitOf req 12
  let search := strOr req.search
  let category := strOr req.category
  let query := publicQuery st search category
  match Equipment.find rt st query bySortOrderThenNewest limit ((page - 1) * limit) with
  | .error _ => serverError
  | .ok equipment =>
    match Equipment.countDocuments rt st query with
    | .error _ => serverError
    | .ok total => listResponse page limit (equipment.map (populateName st)) total

/-- The route `GET /api/equipment/featured` (equipment.js 69-90). -/
def getFeatured (rt : Runtime) (st : Store) (req : Query) : Response (List EquipmentView) :=
  let limit := limitOf req 6
  match Equipment.find rt st
      [("isActive", .bool true), ("isPublic", .bool true), ("isFeatured", .bool true)]
      bySortOrderThenNewest limit 0 with
  | .error _ => serverError
  | .ok featuredEquipment =>
    { success := some true, data := some (featuredEquipment.map (populateName st)) }

/-- The route `GET /api/equipment/search` (equipment.js 120-146). -/
def getSearch (rt : Runtime) (st : Store) (req : Query) : Response (List EquipmentView) :=
  let query := strOr req.q
  let limit := limitOf req 20
  if query = "" then { status := 400, message := some "Search query is required" }
  else
    match Equipment.find rt st
        [("isActive", .bool true), ("isPublic", .bool true), ("$text", .text query)]
        (byTextScore rt query) limit 0 with
    | .error _ => serverError
    | .ok searchResults =>
      { success := some true, data := some (searchResults.map (populateName st)) }

/-- The filter object that the admin list `GET /api/equipment` builds
(equipment.js 207-220). -/
def adminQuery (search categoryId availability : String) : Filter :=
  let query : Filter := [("isActive", .bool true)]
  let query := if search ≠ "" then query.set "$text" (.text search) else query
  let query := if categoryId ≠ "" then query.set "categoryId" (.str categoryId) else query
  if availability ≠ "" then query.set "availability" (.str availability) else query

/-- The route `GET /api/equipment` (equipment.js 199-247). -/
def getEquipmentList (rt : Runtime) (st : Store) (req : Query) :
    Response (List EquipmentView) :=
  let page := pageOf req
  let limit := limitOf req 10
  let search := strOr req.search
  let categoryId := strOr req.categoryId
  let availability := strOr req.availability
  let query := adminQuery search categoryId availability
  match Equipment.find rt st query byNewest limit ((page - 1) * limit) with
  | .error _ => serverError
  | .ok equipment =>
    match Equipment.countDocuments rt st query with
    | .error _ => serverError
    | .ok total => listResponse page limit (equipment.map (populateName st)) total

/-- The `data` object of `GET /api/categories/:id/equipment`. -/
structure CategoryEquipment where
  category : Category
  count : Nat
  pagination : Pagination
  items : List Equipment
  deriving DecidableEq, Repr

/-- The route `GET /api/categories/:id/equipment` (categories.js 187-230), for a
request that passed the `protect` middleware. -/
def getCategoryEquipment (rt : Runtime) (st : Store) (id : String) (req : Query) :
    Response CategoryEquipment :=
  let page := pageOf req
  let limit := limitOf req 10
  match Category.findById rt st id with
  | .error _ => serverError
  | .ok none => { status := 404, message := some "Category not found" }
  | .ok (some category) =>
    let query : Filter := [("categoryId", .str id), ("isActive", .bool true)]
    match Equipment.find rt st query byNewest limit ((page - 1) * limit) with
    | .error _ => serverError
    | .ok equipment =>
      match Equipment.countDocuments rt st query with
      | .error _ => serverError
      | .ok total =>
        { success := some true
          data := some
            { category := category
              count := equipment.length
              pagination :=
                { page := page, limit := limit, total := total, pages := ceilDiv total limit }
              items := equipment } }

/-! ## Category deletion -/

/-- Replaces the first element that meets the test. -/
def updateFirst {α : Type} (p : α → Bool) (f : α → α) : List α → List α
  | [] => []
  | x :: xs => if p x then f x :: xs else x :: updateFirst p f xs

/-- The call `Category.findByIdAndUpdate(id, { isActive: false }, { new: true })`:
the updated document (`null` when no category has the id) and the store after
it. The schema's timestamps set `updatedAt`. -/
def Category.deactivateById (rt : Runtime) (now : Nat) (st : Store) (id : String) :
    Except StoreError (Option Category × Store) :=
  match rt.castObjectId id with
  | none => .error (.other "Cast to ObjectId failed")
  | some o =>
    let upd : Category → Category := fun c => { c with isActive := false, updatedAt := now }
    match st.categories.find? (fun c => c._id == o) with
    | none => .ok (none, st)
    | some c =>
      .ok (some (upd c),
        { st with categories := updateFirst (fun c => c._id == o) upd st.categories })

/-- The route `DELETE /api/categories/:id` (categories.js 150-182): the
response and the store after the request. -/
def deleteCategory (rt : Runtime) (now : Nat) (st : Store) (id : String) :
    Response Unit × Store :=
  match Equipment.countDocuments rt st [("categoryId", .str id), ("isActive", .bool true)] with
  | .error _ => (serverError, st)
  | .ok equipmentCount =>
    if equipmentCount > 0 then
      ({ status := 400
         message := some ("Cannot delete category. It has " ++ toString equipmentCount ++
           " active equipment items.") }, st)
    else
      match Category.deactivateById rt now st id with
      | .error _ => (serverError, st)
      | .ok (none, st1) => ({ status := 404, message := some "Category not found" }, st1)
      | .ok (some _, st1) =>
        ({ success := some true, message := some "Category deleted successfully" }, st1)

/-! ## Pagination contract -/

/-- The records of page `page` when pages hold `limit` records: skip
`(page - 1) * limit` records of the list, then keep at most `limit`. -/
def pageWindow {α : Type} (page limit : Int) (xs : List α) : List α :=
  (xs.drop ((page - 1) * limit).toNat).take limit.toNat

/-- What a paginated response must report for page `page` of size `limit` over
the filtered, ordered list `full`: the items of that window, their number as
`count` and at most `limit`, and `page`, `limit`, `total = |full|`,
`pages = ⌈total / limit⌉` in the pagination object. -/
def PageContract {α : Type} (page limit : Int) (full items : List α) (count : Nat)
    (pg : Pagination) : Prop :=
  items = pageWindow page limit full ∧ count = items.length ∧ (items.length : Int) ≤ limit ∧
    pg.page = page ∧ pg.limit = limit ∧ pg.total = (full.length : Int) ∧
    pg.pages = ⌈((full.length : ℚ) / (limit : ℚ))⌉

/-- The integers that a JavaScript number holds exactly and on which its
arithmetic is exact (`Number.isSafeInteger`): absolute value at most
`2^53 - 1 = 9007199254740991`. Outside this range `parseInt` and the products
of the code round to a double, which the `Int` of this model does not. -/
abbrev IsSafeInteger (n : Int) : Prop :=
  -9007199254740991 ≤ n ∧ n ≤ 9007199254740991

/-- The page arithmetic of a listing route stays within the safe integers:
`page`, `limit`, the skip `(page - 1) * limit` and the number of equipment
documents (which bounds every `total`). On such a request the `Int` values of
the model are the numbers the code computes. -/
abbrev ExactPaging (st : Store) (page limit : Int) : Prop :=
  IsSafeInteger page ∧ IsSafeInteger limit ∧ IsSafeInteger ((page - 1) * limit) ∧
    IsSafeInteger st.equipment.length

/-! ## Equipment writes -/

/-- The method `String.prototype.trim`, which the schema option `trim: true`
applies. -/
def jsTrim (s : String) : String :=
  String.mk ((s.data.dropWhile isJsWhiteSpace).reverse.dropWhile isJsWhiteSpace).reverse

/-- The `length` of a JavaScript string: UTF-16 code units, two for a code
point above `0xFFFF`. -/
def jsLength (s : String) : Nat :=
  (s.data.map fun c => if c.toNat < 65536 then 1 else 2).sum

/-- The fields of a request body that the Equipment schema knows; a field the
body does not carry is `none`. -/
structure EquipmentBody where
  name : Option String := none
  description : Option String := none
  categoryId : Option String := none
  image : Option String := none
  price : Option Rat := none
  availability : Option String := none
  specifications : Option (List String) := none
  features : Option (List String) := none
  brand : Option String := none
  model : Option String := none
  condition : Option String := none
  warranty : Option String := none
  stockQuantity : Option Int := none
  minStockLevel : Option Int := none
  isPublic : Option Bool := none
  isFeatured : Option Bool := none
  rating : Option Rat := none
  reviewCount : Option Int := none
  sortOrder : Option Int := none
  isActive : Option Bool := none
  tags : Option (List String) := none
  slug : Option String := none
  deriving DecidableEq, Repr

/-- One validator outcome: the error entry when the test fails. -/
def failIf (bad : Bool) (path message : String) : List (String × String) :=
  if bad then [(path, message)] else []

/-- Mongoose's message for a value outside an `enum`. -/
def enumMessage (value path : String) : String :=
  "`" ++ value ++ "` is not a valid enum value for path `" ++ path ++ "`."

/-- The schema validators of Equipment.js on the fields a body carries, after
the `trim` setters: `required` on a present but empty string, `maxlength`,
`enum`, `min` and `max`. -/
def EquipmentBody.fieldErrors (b : EquipmentBody) : List (String × String) :=
  (match b.name with
    | none => []
    | some v =>
      if jsTrim v = "" then [("name", "Equipment name is required")]
      else failIf (decide (200 < jsLength (jsTrim v))) "name"
        "Equipment name cannot exceed 200 characters") ++
  (match b.description with
    | none => []
    | some v =>
      if jsTrim v = "" then [("description", "Equipment description is required")]
      else failIf (decide (1000 < jsLength (jsTrim v))) "description"
        "Description cannot exceed 1000 characters") ++
  (match b.price with
    | none => []
    | some v => failIf (decide (v < 0)) "price" "Price cannot be negative") ++
  (match b.availability with
    | none => []
    | some v => failIf (!(["In Stock", "Out of Stock", "Low Stock"].contains v))
        "availability" (enumMessage v "availability")) ++
  (match b.specifications with
    | none => []
    | some vs => failIf (vs.any fun v => decide (200 < jsLength (jsTrim v))) "specifications"
        "Specification cannot exceed 200 characters") ++
  (match b.features with
    | none => []
    | some vs => failIf (vs.any fun v => decide (200 < jsLength (jsTrim v))) "features"
        "Feature cannot exceed 200 characters") ++
  (match b.brand with
    | none => []
    | some v => failIf (decide (100 < jsLength (jsTrim v))) "brand"
        "Brand cannot exceed 100 characters") ++
  (match b.model with
    | none => []
    | some v => failIf (decide (100 < jsLength (jsTrim v))) "model"
        "Model cannot exceed 100 characters") ++
  (match b.condition with
    | none => []
    | some v => failIf (!(["New", "Used", "Refurbished"].contains v))
        "condition" (enumMessage v "condition")) ++
  (match b.warranty with
    | none => []
    | some v => failIf (decide (100 < jsLength (jsTrim v))) "warranty"
        "Warranty cannot exceed 100 characters") ++
  (match b.stockQuantity with
    | none => []
    | some v => failIf (decide (v < 0)) "stockQuantity" "Stock quantity cannot be negative") ++
  (match b.minStockLevel with
    | none => []
    | some v => failIf (decide (v < 0)) "minStockLevel"
        "Minimum stock level cannot be negative") ++
  (match b.rating with
    | none => []
    | some v =>
      if v < 0 then [("rating", "Rating cannot be negative")]
      else failIf (decide (5 < v)) "rating" "Rating cannot exceed 5") ++
  (match b.reviewCount with
    | none => []
    | some v => failIf (decide (v < 0)) "reviewCount" "Review count cannot be negative")

/-- The `required` validators on the fields a new document lacks. -/
def EquipmentBody.missingErrors (b : EquipmentBody) : List (String × String) :=
  failIf b.name.isNone "name" "Equipment name is required" ++
  failIf b.description.isNone "description" "Equipment description is required" ++
  failIf b.categoryId.isNone "categoryId" "Category is required"

/-- The fields of a body written onto a document as Mongoose casts them: the
`trim` and `lowercase` setters of the schema run, `categoryId` is the ObjectId
the string was cast to. No hook runs here. -/
def Equipment.assign (rt : Runtime) (e : Equipment) (b : EquipmentBody)
    (categoryId : Option ObjectId) : Equipment :=
  { e with
    name := (b.name.map jsTrim).getD e.name
    description := (b.description.map jsTrim).getD e.description
    categoryId := categoryId.getD e.categoryId
    image := b.image.getD e.image
    price := if b.price.isSome then b.price else e.price
    availability := b.availability.getD e.availability
    specifications := (b.specifications.map (List.map jsTrim)).getD e.specifications
    features := (b.features.map (List.map jsTrim)).getD e.features
    brand := if b.brand.isSome then b.brand.map jsTrim else e.brand
    model := if b.model.isSome then b.model.map jsTrim else e.model
    condition := b.condition.getD e.condition
    warranty := if b.warranty.isSome then b.warranty.map jsTrim else e.warranty
    stockQuantity := b.stockQuantity.getD e.stockQuantity
    minStockLevel := b.minStockLevel.getD e.minStockLevel
    isPublic := b.isPublic.getD e.isPublic
    isFeatured := b.isFeatured.getD e.isFeatured
    rating := if b.rating.isSome then b.rating else e.rating
    reviewCount := b.reviewCount.getD e.reviewCount
    sortOrder := b.sortOrder.getD e.sortOrder
    isActive := b.isActive.getD e.isActive
    tags := (b.tags.map (List.map fun t => rt.toLowerCase (jsTrim t))).getD e.tags
    slug := (b.slug.map rt.toLowerCase).getD e.slug }

/-- The hook `equipmentSchema.pre('save')` (Equipment.js 122-131): when `name`
was modified, `slug` is assigned the slug expression of the name (the
assignment runs the `lowercase` setter of the `slug` path). -/
def Equipment.preSave (rt : Runtime) (nameModified : Bool) (e : Equipment) : Equipment :=
  if !nameModified then e
  else { e with slug := rt.toLowerCase (deriveSlug rt.toLowerCase e.name) }

/-- The call `Equipment.create(body)`: a document with a fresh `_id` is built
from the schema defaults and the body, validated, passed through the
`pre('save')` hook (its name is new, hence modified), checked against the
unique index on `slug`, and inserted. -/
def Equipment.create (rt : Runtime) (newId : ObjectId) (now : Nat) (st : Store)
    (b : EquipmentBody) : Except StoreError (Equipment × Store) :=
  let castErrors := match b.categoryId with
    | none => []
    | some c => failIf (rt.castObjectId c).isNone "categoryId" "Cast to ObjectId failed"
  let errors := b.missingErrors ++ b.fieldErrors ++ castErrors
  if errors ≠ [] then .error (.validation errors)
  else
    let blank : Equipment :=
      { _id := newId, name := "", description := "", categoryId := 0,
        createdAt := now, updatedAt := now }
    let doc := Equipment.assign rt blank b (b.categoryId.bind rt.castObjectId)
    let doc := doc.preSave rt true
    if st.equipment.any (fun e => e.slug == doc.slug || e._id == doc._id) then
      .error .duplicateKey
    else .ok (doc, { st with equipment := st.equipment ++ [doc] })

/-- The call `Equipment.findByIdAndUpdate(id, body, { new: true, runValidators:
true })`: the id and the body are cast, the validators run on the fields of
the body, the first document with the id takes the fields, and the unique
index on `slug` is checked when the body writes `slug`. It is an update
operation: the `pre('save')` hook does not run. The result is the updated document, or `null` when no document
has the id. -/
def Equipment.findByIdAndUpdate (rt : Runtime) (now : Nat) (st : Store) (id : String)
    (b : EquipmentBody) : Except StoreError (Option Equipment × Store) :=
  match rt.castObjectId id with
  | none => .error (.other "Cast to ObjectId failed")
  | some o =>
    if (b.categoryId.map fun c => (rt.castObjectId c).isNone) = some true then
      .error (.other "Cast to ObjectId failed")
    else if b.fieldErrors ≠ [] then .error (.validation b.fieldErrors)
    else
      match st.equipment.find? (fun e => e._id == o) with
      | none => .ok (none, st)
      | some old =>
        let assigned := Equipment.assign rt old b (b.categoryId.bind rt.castObjectId)
        let doc := { assigned with updatedAt := now }
        if b.slug.isSome && st.equipment.any (fun e => e._id != o && e.slug == doc.slug) then
          .error .duplicateKey
        else
          let equipment := updateFirst (fun e => e._id == o) (fun _ => doc) st.equipment
          .ok (some doc, { st with equipment := equipment })

/-- The `catch` block shared by the equipment write routes (equipment.js
384-414, 463-493). -/
def equipmentWriteError {α : Type} : StoreError → Response α
  | .validation errors =>
    { status := 400, success := some false, message := some "Validation failed",
      errors := some errors }
  | .duplicateKey =>
    { status := 400, success := some false,
      message := some "Equipment with this name already exists",
      errors := some [("name", "Equipment name must be unique")] }
  | .other _ => { status := 500, success := some false, message := some "Server error" }

/-- The handler of `PUT /api/equipment/:id` (equipment.js 430-494), for a
request that passed the `protect`, `authorize` and upload middleware (an
uploaded image is already in `body.image`): the response and the store after
the request. -/
def putEquipment (rt : Runtime) (now : Nat) (st : Store) (id : String)
    (equipmentData : EquipmentBody) : Response EquipmentView × Store :=
  let categoryCheck : Except StoreError Bool :=
    match equipmentData.categoryId with
    | none => .ok true
    | some c =>
      if c = "" then .ok true
      else (Category.findById rt st c).map Option.isSome
  match categoryCheck with
  | .error err => (equipmentWriteError err, st)
  | .ok false =>
    ({ status := 400, success := some false, message := some "Invalid category",
       errors := some [("categoryId", "Selected category does not exist")] }, st)
  | .ok true =>
    match Equipment.findByIdAndUpdate rt now st id equipmentData with
    | .error err => (equipmentWriteError err, st)
    | .ok (none, st1) =>
      ({ status := 404, success := some false, message := some "Equipment not found" }, st1)
    | .ok (some equipment, st1) =>
      ({ success := some true, data := some (populateName st1 equipment) }, st1)

/-- The slug invariant of the data model: every stored equipment document has
the slug derived from its stored name. -/
def Store.slugsDerived (rt : Runtime) (st : Store) : Bool :=
  st.equipment.all fun e => e.slug == deriveSlug rt.toLowerCase e.name

/-! ## Sample data -/

/-- A cast of 24 hexadecimal digits to the ObjectId they denote, as one
possible `castObjectId`. -/
def hexObjectId (s : String) : Option ObjectId :=
  if s.data.length = 24 then
    s.data.foldl (fun acc c => acc.bind fun n =>
      (digitValue c).bind fun d => if d < 16 then some (n * 16 + d) else none) (some 0)
  else none

/-- A runtime for evaluating the model: ASCII lower-casing, hexadecimal
ObjectIds, and a text search that matches on the lower-cased name. -/
def sampleRuntime : Runtime :=
  { toLowerCase := asciiLower
    castObjectId := hexObjectId
    textMatch := fun s e => asciiLower s == asciiLower e.name
    textScore := fun _ _ => 0
    firstBatch := 101 }

/-- A store with two categories and five equipment documents, after the seed
script's names. -/
def sampleStore : Store :=
  { categories :=
      [ { _id := 1, name := "Surgical Instruments", sortOrder := 1, slug := "surgical-instruments" },
        { _id := 2, name := "Diagnostic Equipment", sortOrder := 2, slug := "diagnostic-equipment" } ]
    equipment :=
      [ { _id := 16, name := "Surgical Scalpel Set", description := "Scalpel set",
          categoryId := 1, slug := "surgical-scalpel-set", createdAt := 1 },
        { _id := 17, name := "Digital Stethoscope", description := "Stethoscope",
          categoryId := 2, slug := "digital-stethoscope", createdAt := 2 },
        { _id := 18, name := "Forceps", description := "Forceps", categoryId := 1,
          slug := "forceps", createdAt := 3, availability := "Low Stock" },
        { _id := 19, name := "Otoscope", description := "Otoscope", categoryId := 2,
          slug := "otoscope", createdAt := 4, isPublic := false },
        { _id := 20, name := "Retractor", description := "Retractor", categoryId := 1,
          slug := "retractor", createdAt := 5, isActive := false } ] }

/-- The route parameter naming the first sample category. -/
def sampleCategoryId : String := "000000000000000000000001"

/-! ## Uploads -/

/-- The method `String.prototype.startsWith`. -/
def startsWith (s start : String) : Bool := start.data.isPrefixOf s.data

/-- A file of a multipart request as multer presents it. -/
structure UploadedFile where
  fieldname : String
  originalname : String := ""
  mimetype : String
  size : Nat := 0
  buffer : List Nat := []
  deriving DecidableEq, Repr

/-- The `fileFilter` of `middleware/upload.js` (lines 10-17): a file is kept
when its mime type starts with `image/`, otherwise the callback gets the
error. -/
def fileFilter (file : UploadedFile) : Except String Bool :=
  if startsWith file.mimetype "image/" then .ok true
  else .error "Only image files are allowed!"

/-- The `limits.fileSize` of `middleware/upload.js`: 5 MB. -/
def fileSizeLimit : Nat := 5 * 1024 * 1024

/-- How multer rejects a request: with the error of the file filter, with
`LIMIT_FILE_SIZE`, or with `LIMIT_UNEXPECTED_FILE` for a field it was not told
to read. -/
inductive UploadError where
  | filter (message : String)
  | limitFileSize
  | unexpectedFile
  deriving DecidableEq, Repr

/-- The middleware `upload.any()`: every file of the request, in order, goes
through the file filter and then the size limit; the first failure rejects the
request, otherwise the files become `req.files`. -/
def uploadAny : List UploadedFile → Except UploadError (List UploadedFile)
  | [] => .ok []
  | file :: more =>
    match fileFilter file with
    | .error message => .error (.filter message)
    | .ok keep =>
      if fileSizeLimit < file.size then .error .limitFileSize
      else
        match uploadAny more with
        | .error err => .error err
        | .ok rest => .ok (if keep then file :: rest else rest)

/-- One call of `cloudinary.uploader.upload`: the file sent as a data URI and
the destination folder (the call also fixes the 800x600 `limit` crop and
automatic quality). -/
structure UploadCall where
  file : UploadedFile
  folder : String
  deriving DecidableEq, Repr

/-- The media host: for an upload call either the `secure_url` of the stored
image or the error it throws. -/
abbrev MediaHost := UploadCall → Except String String

/-! ## Equipment creation -/

/-- A request to `POST /api/equipment` as the handler sees it, after
`upload.any()`: `files` is `req.files` (absent on a JSON request) and `body` is
`req.body`, its text fields already read as the schema types them.
`imageNotString` says that the body holds under `image` a truthy value that is
not a string (a number, an array of repeated fields, an object); `body.image`
is then `none`. -/
structure CreateRequest where
  files : Option (List UploadedFile) := none
  body : EquipmentBody := {}
  imageNotString : Bool := false
  deriving DecidableEq, Repr

/-- The `.populate('categoryId', 'name')` of a document just written. -/
def createdResponse (st : Store) (equipment : Equipment) : Response EquipmentView :=
  { status := 201, success := some true, data := some (populateName st equipment) }

/-- The step `if (imageUrl) equipmentData.image = imageUrl` (equipment.js
357-359): a truthy URL replaces the image of the data. -/
def withImage (equipmentData : EquipmentBody) (imageUrl : Option String) : EquipmentBody :=
  match imageUrl with
  | some url => if url ≠ "" then { equipmentData with image := some url } else equipmentData
  | none => equipmentData

/-- The step "Validate category exists" of the equipment write handlers
(equipment.js 364-373, 435-444): a truthy `categoryId` is looked up with
`Category.findById`; `false` when no category has the id. -/
def categoryCheck (rt : Runtime) (st : Store) (equipmentData : EquipmentBody) :
    Except StoreError Bool :=
  match equipmentData.categoryId with
  | none => .ok true
  | some c =>
    if c = "" then .ok true
    else (Category.findById rt st c).map Option.isSome

/-- The body sent when the category check finds nothing. -/
def invalidCategory {α : Type} : Response α :=
  { status := 400, success := some false, message := some "Invalid category",
    errors := some [("categoryId", "Selected category does not exist")] }

/-- The error shaping in the words of the spec (section 4.4): a schema
validation failure gives 400 with every violated field mapped to its message;
otherwise a uniqueness conflict gives 400 with the fixed message and the one
entry `errors.name`; otherwise 500 with the generic message. -/
def shapedError {α : Type} (fixedMessage nameMessage : String) (err : StoreError) :
    Response α :=
  match err with
  | .validation errors =>
    { status := 400, success := some false, message := some "Validation failed",
      errors := some errors }
  | .duplicateKey =>
    { status := 400, success := some false, message := some fixedMessage,
      errors := some [("name", nameMessage)] }
  | .other _ => { status := 500, success := some false, message := some "Server error" }

/-- The inner function `createEquipment` of the POST handler (equipment.js
326-415) with its own `try`/`catch`: the image URL is written into the data,
a truthy `categoryId` must name an existing category, and the document is
created. The response and the store after it. -/
def createEquipment (rt : Runtime) (newId : ObjectId) (now : Nat) (st : Store)
    (equipmentData : EquipmentBody) (imageUrl : Option String) :
    Response EquipmentView × Store :=
  let equipmentData := withImage equipmentData imageUrl
  match categoryCheck rt st equipmentData with
  | .error err => (equipmentWriteError err, st)
  | .ok false => (invalidCategory, st)
  | .ok true =>
    match Equipment.create rt newId now st equipmentData with
    | .error err => (equipmentWriteError err, st)
    | .ok (equipment, st1) => (createdResponse st1 equipment, st1)

/-- The upload step of the POST handler (equipment.js 283-315): when the
request has files, the first one whose mime type starts with `image/` is sent
to the media host; an error is caught and logged. The image URL (`null` when
nothing was uploaded) and the upload calls made. -/
def uploadFirstImage (host : MediaHost) (files : Option (List UploadedFile)) :
    Option String × List UploadCall :=
  match files with
  | none => (none, [])
  | some files =>
    match files.find? (fun file => startsWith file.mimetype "image/") with
    | none => (none, [])
    | some imageFile =>
      let call : UploadCall := { file := imageFile, folder := "hafak-surgicals" }
      match host call with
      | .ok secureUrl => (some secureUrl, [call])
      | .error _ => (none, [call])

/-- The body of the outer `catch` of the POST handler (equipment.js 417-424). -/
def requestFailed {α : Type} (errorMessage : String) : Response α :=
  { status := 500, success := some false, message := some "Request failed",
    error := some errorMessage }

/-- The handler of `POST /api/equipment` (equipment.js 274-425): the response,
the store after the request, and the upload calls made. Calling `startsWith`
on an `image` value that is not a string throws a `TypeError` outside
`createEquipment`, which the outer `catch` answers. -/
def postEquipment (rt : Runtime) (host : MediaHost) (newId : ObjectId) (now : Nat)
    (st : Store) (req : CreateRequest) :
    Response EquipmentView × Store × List UploadCall :=
  let equipmentData := req.body
  let (imageUrl, calls) := uploadFirstImage host req.files
  let uploaded := match imageUrl with
    | some url => decide (url ≠ "")
    | none => false
  if !uploaded && req.imageNotString then
    (requestFailed "equipmentData.image.startsWith is not a function", st, calls)
  else
    let imageUrl :=
      if uploaded then imageUrl
      else
        match equipmentData.image with
        | some image => if image ≠ "" && startsWith image "http" then some image else imageUrl
        | none => imageUrl
    let (response, st1) := createEquipment rt newId now st equipmentData imageUrl
    (response, st1, calls)

/-- The route `POST /api/equipment` with its `upload.any()` middleware: a
request that multer rejects never reaches the handler (the error goes to the
application's error handling, outside the router). -/
def postEquipmentRoute (rt : Runtime) (host : MediaHost) (newId : ObjectId) (now : Nat)
    (st : Store) (incoming : Option (List UploadedFile)) (body : EquipmentBody)
    (imageNotString : Bool) :
    Except UploadError (Response EquipmentView × Store × List UploadCall) :=
  match incoming with
  | none => .ok (postEquipment rt host newId now st
      { files := none, body := body, imageNotString := imageNotString })
  | some incoming =>
    match uploadAny incoming with
    | .error err => .error err
    | .ok files => .ok (postEquipment rt host newId now st
        { files := some files, body := body, imageNotString := imageNotString })

/-! ## Single documents -/

/-- The call `.populate('categoryId', 'name description')`. -/
def populateNameDescription (st : Store) (e : Equipment) : EquipmentView :=
  { doc := e
    category := (st.categories.find? (fun c => c._id == e.categoryId)).map
      (fun c => { _id := c._id, name := c.name, description := some c.description }) }

/-- The body `{ message }` with a status, as the read and delete routes send
it on failure. -/
def plainMessage {α : Type} (status : Nat) (message : String) : Response α :=
  { status := status, message := some message }

/-- The route `GET /api/equipment/public/:id` (equipment.js 95-115): the lookup
`findOne({ _id, isActive: true, isPublic: true })`. -/
def getPublicById (rt : Runtime) (st : Store) (id : String) : Response EquipmentView :=
  match rt.castObjectId id with
  | none => serverError
  | some o =>
    match st.equipment.find? (fun e => e._id == o && e.isActive && e.isPublic) with
    | none => plainMessage 404 "Equipment not found"
    | some equipment =>
      { success := some true, data := some (populateNameDescription st equipment) }

/-- The route `GET /api/equipment/:id` (equipment.js 252-269): the lookup
`findById(id)`. -/
def getEquipmentById (rt : Runtime) (st : Store) (id : String) : Response EquipmentView :=
  match rt.castObjectId id with
  | none => serverError
  | some o =>
    match st.equipment.find? (fun e => e._id == o) with
    | none => plainMessage 404 "Equipment not found"
    | some equipment =>
      { success := some true, data := some (populateNameDescription st equipment) }

/-- The route `DELETE /api/equipment/:id` (equipment.js 499-519), for a request
that passed `protect` and `authorize`: the soft delete
`findByIdAndUpdate(id, { isActive: false }, { new: true })`. -/
def deleteEquipment (rt : Runtime) (now : Nat) (st : Store) (id : String) :
    Response Unit × Store :=
  match Equipment.findByIdAndUpdate rt now st id { isActive := some false } with
  | .error _ => (serverError, st)
  | .ok (none, st1) => (plainMessage 404 "Equipment not found", st1)
  | .ok (some _, st1) =>
    ({ success := some true, message := some "Equipment deleted successfully" }, st1)

/-! ## Category routes -/

/-- MongoDB's order on strings under the default collation: by code point,
a proper start of a string before the string. -/
def strLe : List Char → List Char → Bool
  | [], _ => true
  | _ :: _, [] => false
  | a :: as, b :: bs =>
    if a.toNat < b.toNat then true
    else if b.toNat < a.toNat then false
    else strLe as bs

/-- The sort `{ sortOrder: 1, name: 1 }` on two documents, given what each
holds under `sortOrder` (`none` when the document has no such field: a missing
value sorts before every number) and under `name`. -/
def bySortOrderThenName (ka : Option Int) (na : String) (kb : Option Int) (nb : String) :
    Bool :=
  match ka, kb with
  | none, none => strLe na.data nb.data
  | none, some _ => true
  | some _, none => false
  | some x, some y => decide (x < y) || (decide (x = y) && strLe na.data nb.data)

/-- The route `GET /api/categories` (categories.js 11-25). -/
def getCategoryList (st : Store) : Response (List Category) :=
  let categories := (st.categories.filter (fun c => c.isActive)).insertionSort
    (fun a b => bySortOrderThenName (some a.sortOrder) a.name (some b.sortOrder) b.name = true)
  { success := some true, count := some categories.length, data := some categories }

/-- The route `GET /api/categories/:id` (categories.js 30-46). -/
def getCategoryById (rt : Runtime) (st : Store) (id : String) : Response Category :=
  match Category.findById rt st id with
  | .error _ => serverError
  | .ok none => plainMessage 404 "Category not found"
  | .ok (some category) => { success := some true, data := some category }

/-- The fields of a request body that the Category document knows. -/
structure CategoryBody where
  name : Option String := none
  description : Option String := none
  icon : Option String := none
  sortOrder : Option Int := none
  isActive : Option Bool := none
  slug : Option String := none
  deriving DecidableEq, Repr

/-- Modelled from the spec: the validators of the Category schema
(`models/Category.js` is not among the sources), left open: for a new document
(`true`) or an update (`false`) and a body, the violated fields with their
messages. -/
abbrev CategoryValidators := Bool → CategoryBody → List (String × String)

/-- The fields of a body written onto a category. -/
def Category.assign (c : Category) (b : CategoryBody) : Category :=
  { c with
    name := b.name.getD c.name
    description := b.description.getD c.description
    icon := b.icon.getD c.icon
    sortOrder := b.sortOrder.getD c.sortOrder
    isActive := b.isActive.getD c.isActive
    slug := b.slug.getD c.slug }

/-- Modelled from the spec: the call `Category.create(body)` on the absent
Category model. Spec section 3: `name` is unique, `slug` is unique and derived
from `name` as for Equipment, timestamps are kept. -/
def Category.create (rt : Runtime) (validators : CategoryValidators) (newId : ObjectId)
    (now : Nat) (st : Store) (b : CategoryBody) : Except StoreError (Category × Store) :=
  if validators true b ≠ [] then .error (.validation (validators true b))
  else
    let blank : Category := { _id := newId, name := "", createdAt := now, updatedAt := now }
    let assigned := Category.assign blank b
    let doc := { assigned with slug := deriveSlug rt.toLowerCase assigned.name }
    if st.categories.any
        (fun c => c.name == doc.name || c.slug == doc.slug || c._id == doc._id) then
      .error .duplicateKey
    else .ok (doc, { st with categories := st.categories ++ [doc] })

/-- Modelled from the spec: the call `Category.findByIdAndUpdate(id, body,
{ new: true, runValidators: true })` on the absent Category model: the
validators run on the body, the first category with the id takes the fields,
and the unique indexes on `name` and `slug` are checked for the fields
written. -/
def Category.findByIdAndUpdate (rt : Runtime) (validators : CategoryValidators) (now : Nat)
    (st : Store) (id : String) (b : CategoryBody) :
    Except StoreError (Option Category × Store) :=
  match rt.castObjectId id with
  | none => .error (.other "Cast to ObjectId failed")
  | some o =>
    if validators false b ≠ [] then .error (.validation (validators false b))
    else
      match st.categories.find? (fun c => c._id == o) with
      | none => .ok (none, st)
      | some old =>
        let assigned := Category.assign old b
        let doc := { assigned with updatedAt := now }
        if st.categories.any (fun c => c._id != o &&
            ((b.name.isSome && c.name == doc.name) || (b.slug.isSome && c.slug == doc.slug)))
        then .error .duplicateKey
        else
          let categories := updateFirst (fun c => c._id == o) (fun _ => doc) st.categories
          .ok (some doc, { st with categories := categories })

/-- The `catch` block shared by the category write routes (categories.js
59-89, 114-144). -/
def categoryWriteError {α : Type} : StoreError → Response α
  | .validation errors =>
    { status := 400, success := some false, message := some "Validation failed",
      errors := some errors }
  | .duplicateKey =>
    { status := 400, success := some false,
      message := some "Category with this name already exists",
      errors := some [("name", "Category name must be unique")] }
  | .other _ => { status := 500, success := some false, message := some "Server error" }

/-- The route `POST /api/categories` (categories.js 51-90). -/
def postCategory (rt : Runtime) (validators : CategoryValidators) (newId : ObjectId)
    (now : Nat) (st : Store) (body : CategoryBody) : Response Category × Store :=
  match Category.create rt validators newId now st body with
  | .error err => (categoryWriteError err, st)
  | .ok (category, st1) => ({ status := 201, success := some true, data := some category }, st1)

/-- The route `PUT /api/categories/:id` (categories.js 95-145). -/
def putCategory (rt : Runtime) (validators : CategoryValidators) (now : Nat) (st : Store)
    (id : String) (body : CategoryBody) : Response Category × Store :=
  match Category.findByIdAndUpdate rt validators now st id body with
  | .error err => (categoryWriteError err, st)
  | .ok (none, st1) =>
    ({ status := 404, success := some false, message := some "Category not found" }, st1)
  | .ok (some category, st1) => ({ success := some true, data := some category }, st1)

/-! ## Aggregations -/

/-- The stage `$lookup` from `equipment` on `categoryId`: the equipment
documents that reference the category, whatever their flags. -/
def equipmentOf (st : Store) (c : Category) : List Equipment :=
  st.equipment.filter (fun e => e.categoryId == c._id)

/-- A document of `GET /api/equipment/categories` after `$project`. -/
structure PublicCategory where
  _id : ObjectId
  name : String
  description : String
  icon : String
  equipmentCount : Nat
  deriving DecidableEq, Repr

/-- The stage `$match: { 'equipment.isPublic': true, 'equipment.isActive': true }`
on a joined array: each condition holds when some element of the array has the
value (the two need not be the same element). -/
def matchesPublicActive (equipment : List Equipment) : Bool :=
  equipment.any (fun e => e.isPublic) && equipment.any (fun e => e.isActive)

/-- The route `GET /api/equipment/categories` (equipment.js 151-190): the
pipeline `$lookup`, `$match`, `$project` (with `equipmentCount` the `$size` of
the joined array), `$sort` by name. -/
def getCategories (st : Store) : Response (List PublicCategory) :=
  let joined := st.categories.map (fun c => (c, equipmentOf st c))
  let matched := joined.filter (fun p => matchesPublicActive p.2)
  let projected : List PublicCategory := matched.map (fun p =>
    { _id := p.1._id, name := p.1.name, description := p.1.description, icon := p.1.icon,
      equipmentCount := p.2.length })
  let categories := projected.insertionSort (fun a b => strLe a.name.data b.name.data = true)
  { success := some true, data := some categories }

/-- A document of `GET /api/categories/stats/overview` after `$project`: it
has no `sortOrder`. -/
structure CategoryOverview where
  _id : ObjectId
  name : String
  description : String
  icon : String
  equipmentCount : Nat
  createdAt : Nat
  updatedAt : Nat
  deriving DecidableEq, Repr

/-- The route `GET /api/categories/stats/overview` (categories.js 235-269), for
a request that passed `protect`: `$match` active categories, `$lookup` their
equipment, `$project`, then `$sort: { sortOrder: 1, name: 1 }` on the projected
documents. -/
def getCategoryStats (st : Store) : Response (List CategoryOverview) :=
  let matched := st.categories.filter (fun c => c.isActive)
  let projected : List CategoryOverview := matched.map (fun c =>
    { _id := c._id, name := c.name, description := c.description, icon := c.icon,
      equipmentCount := (equipmentOf st c).length
      createdAt := c.createdAt, updatedAt := c.updatedAt })
  let categories := projected.insertionSort
    (fun a b => bySortOrderThenName none a.name none b.name = true)
  { success := some true, count := some categories.length, data := some categories }

/-- The values of a list, each once, in the order of first appearance. -/
def distinctIds : List ObjectId → List ObjectId
  | [] => []
  | x :: xs => x :: (distinctIds xs).filter (fun y => y != x)

/-- An entry of `categoryStats`: a group of `$group` by `categoryId` with its
count, and the name of the category with that id (absent when there is none). -/
structure CategoryStat where
  _id : ObjectId
  count : Nat
  categoryName : Option String
  deriving DecidableEq, Repr

/-- The `data` object of `GET /api/equipment/stats/overview`. -/
structure EquipmentStats where
  totalEquipment : Nat
  inStock : Nat
  outOfStock : Nat
  lowStock : Nat
  categoryStats : List CategoryStat
  deriving DecidableEq, Repr

/-- The route `GET /api/equipment/stats/overview` (equipment.js 524-570), for a
request that passed `protect`: four counts, and the pipeline `$match` active,
`$group` by `categoryId`, `$lookup` the category, `$project` its name. -/
def getEquipmentStats (rt : Runtime) (st : Store) : Response EquipmentStats :=
  let counts : Except StoreError (Nat × Nat × Nat × Nat) := do
    let totalEquipment ← Equipment.countDocuments rt st [("isActive", .bool true)]
    let inStock ← Equipment.countDocuments rt st
      [("isActive", .bool true), ("availability", .str "In Stock")]
    let outOfStock ← Equipment.countDocuments rt st
      [("isActive", .bool true), ("availability", .str "Out of Stock")]
    let lowStock ← Equipment.countDocuments rt st
      [("isActive", .bool true), ("availability", .str "Low Stock")]
    pure (totalEquipment, inStock, outOfStock, lowStock)
  match counts with
  | .error _ => serverError
  | .ok (totalEquipment, inStock, outOfStock, lowStock) =>
    let active := st.equipment.filter (fun e => e.isActive)
    let categoryStats : List CategoryStat :=
      (distinctIds (active.map (fun e => e.categoryId))).map (fun id =>
        { _id := id
          count := (active.filter (fun e => e.categoryId == id)).length
          categoryName := (st.categories.find? (fun c => c._id == id)).map (fun c => c.name) })
    { success := some true
      data := some { totalEquipment := totalEquipment, inStock := inStock
                     outOfStock := outOfStock, lowStock := lowStock
                     categoryStats := categoryStats } }

/-! ## Upload routes -/

/-- The route `POST /api/equipment/test-upload` (equipment.js 575-637), after
`upload.any()`: the response (its `data` reduced to the URL) and the upload
calls made. -/
def postTestUpload (host : MediaHost) (files : Option (List UploadedFile)) :
    Response String × List UploadCall :=
  match files with
  | none => ({ status := 400, success := some false, message := some "No image file provided" }, [])
  | some [] =>
    ({ status := 400, success := some false, message := some "No image file provided" }, [])
  | some (file :: _) =>
    if !startsWith file.mimetype "image/" then
      ({ status := 400, success := some false, message := some "File must be an image" }, [])
    else
      let call : UploadCall := { file := file, folder := "hafak-surgicals" }
      match host call with
      | .ok secureUrl =>
        ({ success := some true, message := some "Image uploaded successfully",
           data := some secureUrl }, [call])
      | .error errorMessage => (requestFailed errorMessage, [call])

/-- The middleware `upload.single('image')`: at most one file, in the field
`image`, that passes the file filter and the size limit becomes `req.file`. -/
def uploadSingle (incoming : List UploadedFile) : Except UploadError (Option UploadedFile) :=
  match incoming with
  | [] => .ok none
  | file :: more =>
    if file.fieldname ≠ "image" then .error .unexpectedFile
    else
      match fileFilter file with
      | .error message => .error (.filter message)
      | .ok keep =>
        if fileSizeLimit < file.size then .error .limitFileSize
        else if more ≠ [] then .error .unexpectedFile
        else .ok (if keep then some file else none)

/-- The middleware `handleUploadError` of `middleware/upload.js` (lines
52-62). -/
def handleUploadError {α : Type} : UploadError → Response α
  | .limitFileSize => plainMessage 400 "File too large. Maximum size is 5MB."
  | .unexpectedFile => plainMessage 400 "Unexpected field"
  | .filter message => plainMessage 400 message

/-- The route `PUT /api/equipment/:id` with its middleware, for a request that
passed `protect` and `authorize`: `upload.single('image')`, then
`uploadToCloudinary` (upload.js 21-49: the file, when there is one, is sent to
the media host and its URL written to `body.image`; a failure answers 500),
then the handler; an error of the upload goes to `handleUploadError`. The
response, the store after the request, and the upload calls made. -/
def putEquipmentRoute (rt : Runtime) (host : MediaHost) (now : Nat) (st : Store)
    (id : String) (incoming : List UploadedFile) (body : EquipmentBody) :
    Response EquipmentView × Store × List UploadCall :=
  match uploadSingle incoming with
  | .error err => (handleUploadError err, st, [])
  | .ok none =>
    let (response, st1) := putEquipment rt now st id body
    (response, st1, [])
  | .ok (some file) =>
    let call : UploadCall := { file := file, folder := "medical-equipment" }
    match host call with
    | .error _ => (plainMessage 500 "Image upload failed", st, [call])
    | .ok secureUrl =>
      let (response, st1) := putEquipment rt now st id { body with image := some secureUrl }
      (response, st1, [call])

/-- A media host for evaluating the model: it stores any file but the one
named "broken.png". -/
def sampleHost : MediaHost := fun call =>
  if call.file.originalname = "broken.png" then .error "upload failed"
  else .ok ("https://media.example/" ++ call.folder ++ "/" ++ call.file.originalname)

/-- A store whose only category is referenced by inactive equipment alone. -/
def retiredStore : Store :=
  { categories := [ { _id := 3, name := "Dental", sortOrder := 3, slug := "dental" } ]
    equipment :=
      [ { _id := 32, name := "Dental Mirror", description := "Mirror", categoryId := 3,
          slug := "dental-mirror", createdAt := 1, isActive := false } ] }

/-- Category validators for evaluating the model: a new category needs a
name, and a name may not be empty. -/
def sampleValidators : CategoryValidators := fun isNew b =>
  failIf (isNew && b.name.isNone) "name" "Category name is required" ++
  failIf (b.name == some "") "name" "Category name is required"

/-- A well-formed body for a new equipment document of the first sample
category. -/
def sampleBody : EquipmentBody :=
  { name := some "X-Ray Viewer", description := some "Film viewer",
    categoryId := some sampleCategoryId }

/-- An image file that the sample media host stores. -/
def sampleImage : UploadedFile :=
  { fieldname := "image", originalname := "viewer.png", mimetype := "image/png", size := 2048 }

/-- An image file that the sample media host fails on. -/
def brokenImage : UploadedFile :=
  { fieldname := "image", originalname := "broken.png", mimetype := "image/png", size := 2048 }

/-- A file that is not an image. -/
def sampleText : UploadedFile :=
  { fieldname := "notes", originalname := "notes.txt", mimetype := "text/plain", size := 64 }

/-! ## Response envelopes -/

/-- A response in the style of the read and delete routes: `success: true` on
status 200 or 201, and on any other status a body without a `success` field. -/
def PlainFailures {α : Type} (r : Response α) : Prop :=
  r.success = if r.status = 200 ∨ r.status = 201 then some true else none

/-- A response in the style of the create and update handlers: `success: true`
on status 200 or 201 and `success: false` on any other status. -/
def FlaggedFailures {α : Type} (r : Response α) : Prop :=
  r.success = some (decide (r.status = 200 ∨ r.status = 201))

/-- A store whose only category has one public but inactive and one active
but non-public equipment document. -/
def mixedStore : Store :=
  { categories := [ { _id := 4, name := "Imaging", sortOrder := 4, slug := "imaging" } ]
    equipment :=
      [ { _id := 48, name := "Film Viewer", description := "Viewer", categoryId := 4,
          slug := "film-viewer", createdAt := 1, isPublic := true, isActive := false },
        { _id := 49, name := "Lead Apron", description := "Apron", categoryId := 4,
          slug := "lead-apron", createdAt := 2, isPublic := false, isActive := true } ] }

/-- A store whose first sample category holds 25 public, active, featured
equipment documents named "Probe", created at the times 0 to 24. -/
def catalogStore : Store :=
  { categories := sampleStore.categories
    equipment := (List.range 25).map fun i =>
      { _id := 100 + i, name := "Probe", description := "Probe", categoryId := 1,
        isFeatured := true, createdAt := i } }

/-! ## Slug lemmas -/

theorem isSlugAlnum_ne_hyphen {c : Char} (h : isSlugAlnum c = true) : c ≠ '-' := by
  rintro rfl
  revert h
  decide

theorem char_val_le_iff (a b : Char) : a.val ≤ b.val ↔ a.toNat ≤ b.toNat := by
  rw [UInt32.le_def, BitVec.le_def]
  rfl

theorem isSlugChar_caseless {c : Char} (h : isSlugChar c = true) :
    c.isUpper = false ∧ c.toLower = c := by
  simp only [isSlugChar, isSlugAlnum, Bool.or_eq_true, Bool.and_eq_true,
    decide_eq_true_eq, beq_iff_eq] at h
  have hnu : ¬ (c.toNat ≥ 65 ∧ c.toNat ≤ 90) := by
    rcases h with (h | h) | rfl
    · omega
    · omega
    · decide
  constructor
  · have h1 : (c.val ≥ 65) ↔ c.toNat ≥ 65 := char_val_le_iff (Char.ofNat 65) c
    have h2 : (c.val ≤ 90) ↔ c.toNat ≤ 90 := char_val_le_iff c (Char.ofNat 90)
    simp only [Char.isUpper, Bool.and_eq_false_imp, decide_eq_true_eq,
      decide_eq_false_iff_not]
    intro h3
    rw [h2]
    rw [h1] at h3
    omega
  · simp only [Char.toLower]
    rw [if_neg hnu]

theorem replaceRuns_chars (b : Bool) (s : List Char) :
    ∀ c ∈ replaceRuns b s, isSlugChar c = true := by
  induction s generalizing b with
  | nil => intro c hc; simp [replaceRuns] at hc
  | cons a t ih =>
    intro c hc
    unfold replaceRuns at hc
    split at hc
    · rename_i ha
      rcases List.mem_cons.mp hc with rfl | h
      · simp [isSlugChar, ha]
      · exact ih false c h
    · split at hc
      · exact ih true c hc
      · rcases List.mem_cons.mp hc with rfl | h
        · simp [isSlugChar]
        · exact ih true c h

theorem replaceRuns_shape (b : Bool) (s : List Char) :
    NoDoubleHyphen (replaceRuns b s) ∧
      (b = true → (replaceRuns b s).head? ≠ some '-') := by
  induction s generalizing b with
  | nil => simp [replaceRuns, NoDoubleHyphen]
  | cons a t ih =>
    unfold replaceRuns
    split
    · rename_i ha
      have hne := isSlugAlnum_ne_hyphen ha
      refine ⟨?_, fun _ => by simpa using hne⟩
      unfold NoDoubleHyphen
      rw [List.chain'_cons']
      exact ⟨fun y _ => Or.inl hne, (ih false).1⟩
    · split
      · rename_i hb
        exact ⟨(ih true).1, fun _ => (ih true).2 rfl⟩
      · rename_i hb
        refine ⟨?_, fun h => absurd h hb⟩
        unfold NoDoubleHyphen
        rw [List.chain'_cons']
        refine ⟨fun y hy => Or.inr ?_, (ih true).1⟩
        rintro rfl
        exact (ih true).2 rfl (by simpa using hy)

theorem head?_dropLast_ne (l : List Char) (h : l.head? ≠ some '-') :
    l.dropLast.head? ≠ some '-' := by
  match l, h with
  | [], _ => simp
  | [_], _ => simp
  | a :: b :: t, h => simpa using h

theorem getLast?_dropLast_ne (l : List Char) (hc : NoDoubleHyphen l)
    (h : l.getLast? = some '-') : l.dropLast.getLast? ≠ some '-' := by
  have hl : l = l.dropLast ++ ['-'] := by
    have := List.dropLast_append_getLast? '-' (by simpa using h)
    exact this.symm
  intro hd
  rw [hl] at hc
  unfold NoDoubleHyphen at hc
  rw [List.chain'_append] at hc
  have := hc.2.2 '-' (by simpa using hd) '-' (by simp)
  simp at this

theorem stripEdgeHyphens_spec (s : List Char) (hc : NoDoubleHyphen s) :
    (∀ c ∈ stripEdgeHyphens s, c ∈ s) ∧
      (stripEdgeHyphens s).head? ≠ some '-' ∧
      (stripEdgeHyphens s).getLast? ≠ some '-' := by
  have key : ∀ s1 : List Char, NoDoubleHyphen s1 → s1.head? ≠ some '-' →
      (∀ c ∈ s1, c ∈ s) →
      (∀ c ∈ (if s1.getLast? = some '-' then s1.dropLast else s1), c ∈ s) ∧
      (if s1.getLast? = some '-' then s1.dropLast else s1).head? ≠ some '-' ∧
      (if s1.getLast? = some '-' then s1.dropLast else s1).getLast? ≠ some '-' := by
    intro s1 h1 h2 h3
    by_cases hl : s1.getLast? = some '-'
    · simp only [hl, if_true]
      exact ⟨fun c hcm => h3 c (List.mem_of_mem_dropLast hcm),
        head?_dropLast_ne s1 h2, getLast?_dropLast_ne s1 h1 hl⟩
    · simp only [hl, if_false]
      exact ⟨h3, h2, hl⟩
  unfold stripEdgeHyphens
  by_cases hh : s.head? = some '-'
  · simp only [hh, if_true]
    refine key s.tail (List.Chain'.tail hc) ?_ (fun c hcm => List.mem_of_mem_tail hcm)
    match s, hc, hh with
    | a :: t, hc, hh =>
      have ha : a = '-' := by simpa using hh
      subst ha
      intro ht
      unfold NoDoubleHyphen at hc
      rw [List.chain'_cons'] at hc
      have := hc.1 '-' (by simpa using ht)
      simp at this
  · simp only [hh, if_false]
    exact key s hc hh (fun c hcm => hcm)

theorem deriveSlug_chars (toLowerCase : String → String) (name : String) :
    ∀ c ∈ (deriveSlug toLowerCase name).data, isSlugChar c = true := by
  have hshape := replaceRuns_shape false (toLowerCase name).data
  have hstrip := stripEdgeHyphens_spec _ hshape.1
  exact fun c hc => replaceRuns_chars false _ c (hstrip.1 c hc)

theorem deriveSlug_edges (toLowerCase : String → String) (name : String) :
    (deriveSlug toLowerCase name).data.head? ≠ some '-' ∧
    (deriveSlug toLowerCase name).data.getLast? ≠ some '-' := by
  have hshape := replaceRuns_shape false (toLowerCase name).data
  exact (stripEdgeHyphens_spec _ hshape.1).2

/-- **C1.** For every name (in particular every valid equipment name: non-empty,
trimmed, at most 200 characters) and every lower-casing function, the slug
derived by the pre-save hook consists only of characters in `[a-z0-9-]`, is
lowercase (it has no upper-case letter and is unchanged by lower-casing), and
neither starts nor ends with a hyphen. -/
theorem deriveSlug_wellformed (toLowerCase : String → String) (name : String) :
    (∀ c ∈ (deriveSlug toLowerCase name).data, isSlugChar c = true) ∧
    (∀ c ∈ (deriveSlug toLowerCase name).data, c.isUpper = false) ∧
    asciiLower (deriveSlug toLowerCase name) = deriveSlug toLowerCase name ∧
    (deriveSlug toLowerCase name).data.head? ≠ some '-' ∧
    (deriveSlug toLowerCase name).data.getLast? ≠ some '-' := by
  have hchars := deriveSlug_chars toLowerCase name
  have hedge := deriveSlug_edges toLowerCase name
  refine ⟨hchars, fun c hc => (isSlugChar_caseless (hchars c hc)).1, ?_, hedge.1, hedge.2⟩
  show String.mk (List.map Char.toLower (deriveSlug toLowerCase name).data) =
    String.mk (deriveSlug toLowerCase name).data
  have hmap := List.map_congr_left (l := (deriveSlug toLowerCase name).data)
    (f := Char.toLower) (g := id) (fun c hc => (isSlugChar_caseless (hchars c hc)).2)
  rw [hmap, List.map_id]

/-! ## The slug on create and on update -/

theorem create_slug_derived (rt : Runtime) (newId : ObjectId) (now : Nat) (st st1 : Store)
    (b : EquipmentBody) (doc : Equipment)
    (hfix : ∀ s : String, (∀ c ∈ s.data, isSlugChar c = true) → rt.toLowerCase s = s)
    (h : Equipment.create rt newId now st b = .ok (doc, st1)) :
    doc.slug = deriveSlug rt.toLowerCase doc.name ∧
      st1.equipment = st.equipment ++ [doc] ∧
      (st.slugsDerived rt = true → st1.slugsDerived rt = true) := by
  unfold Equipment.create at h
  simp only at h
  split at h
  · cases h
  · split at h
    · cases h
    · simp only [Except.ok.injEq, Prod.mk.injEq] at h
      obtain ⟨hdoc, hst⟩ := h
      have hslug : doc.slug = deriveSlug rt.toLowerCase doc.name := by
        rw [← hdoc]
        simp only [Equipment.preSave, Bool.not_true, Bool.false_eq_true, if_false]
        exact hfix _ (deriveSlug_chars _ _)
      have hequip : st1.equipment = st.equipment ++ [doc] := by
        rw [← hst, ← hdoc]
      refine ⟨hslug, hequip, fun hinv => ?_⟩
      unfold Store.slugsDerived at hinv ⊢
      rw [hequip, List.all_append, hinv]
      simp [hslug]

theorem asciiLower_fixes_slug (s : String) (h : ∀ c ∈ s.data, isSlugChar c = true) :
    asciiLower s = s := by
  show String.mk (List.map Char.toLower s.data) = String.mk s.data
  have hmap := List.map_congr_left (l := s.data) (f := Char.toLower) (g := id)
    (fun c hc => (isSlugChar_caseless (h c hc)).2)
  rw [hmap, List.map_id]

theorem create_slug_derived_sample :
    (Equipment.create sampleRuntime 33 9 sampleStore
        { name := some "  X-Ray Viewer (LED) ", description := some "Film viewer",
          categoryId := some sampleCategoryId }).toOption.map
      (fun r => (r.1.name, r.1.slug, r.2.slugsDerived sampleRuntime)) =
      some ("X-Ray Viewer (LED)", "x-ray-viewer-led", true) := by
  decide

/-- **C2.** The slug/name invariant fails on update: on the sample store, whose
slugs are all derived from the names, `PUT /api/equipment/:id` with the body
`{ name: "Clamp" }` for the document named "Forceps" succeeds and stores the
name "Clamp" with the old slug "forceps", while the slug derived from "Clamp"
is "clamp". (Creation does regenerate the slug: `create_slug_derived`.) -/
theorem putEquipment_keeps_stale_slug :
    sampleStore.slugsDerived sampleRuntime = true ∧
    (putEquipment sampleRuntime 9 sampleStore "000000000000000000000012"
      { name := some "Clamp" }).1.status = 200 ∧
    (putEquipment sampleRuntime 9 sampleStore "000000000000000000000012"
      { name := some "Clamp" }).1.success = some true ∧
    (putEquipment sampleRuntime 9 sampleStore "000000000000000000000012"
      { name := some "Clamp" }).1.data.map (fun v => (v.doc.name, v.doc.slug)) =
        some ("Clamp", "forceps") ∧
    deriveSlug sampleRuntime.toLowerCase "Clamp" = "clamp" ∧
    (putEquipment sampleRuntime 9 sampleStore "000000000000000000000012"
      { name := some "Clamp" }).2.slugsDerived sampleRuntime = false := by
  decide

/-! ## Filters: lemmas -/

theorem publicQuery_shape (st : Store) (search category : String) :
    ∃ rest : Filter, publicQuery st search category =
        ("isActive", Cond.bool true) :: ("isPublic", Cond.bool true) :: rest ∧
      ∀ entry ∈ rest, ∀ s, entry ≠ ("categoryId", Cond.str s) := by
  unfold publicQuery
  by_cases hs : search = "" <;> by_cases hc : category = "" <;>
    cases hf : Category.findOneByName st category <;>
    simp [hs, hc, Filter.set]
  rintro a b (⟨rfl, rfl⟩ | ⟨rfl, rfl⟩) s h
  · exact absurd h (by decide)
  · simp

theorem publicQuery_castable (rt : Runtime) (st : Store) (search category : String) :
    (publicQuery st search category).castable rt = true := by
  obtain ⟨rest, hq, hrest⟩ := publicQuery_shape st search category
  rw [hq]
  simp only [Filter.castable, List.all_cons, Bool.and_eq_true, List.all_eq_true]
  refine ⟨trivial, trivial, ?_⟩
  rintro ⟨k, c⟩ hmem
  cases c with
  | str s =>
    by_cases hk : k = "categoryId"
    · subst hk
      exact absurd rfl (hrest _ hmem s)
    · simp [hk]
  | bool b => rfl
  | oid o => rfl
  | text t => rfl

theorem mem_skipLimit {α : Type} {firstBatch : Nat} {limit skip : Int} {xs ys : List α}
    (h : skipLimit firstBatch limit skip xs = .ok ys) : ∀ y ∈ ys, y ∈ xs := by
  unfold skipLimit at h
  split at h
  · cases h
  · injection h with h
    subst h
    intro y hy
    split at hy
    · exact List.mem_of_mem_drop hy
    · split at hy
      · exact List.mem_of_mem_drop (List.mem_of_mem_take hy)
      · exact List.mem_of_mem_drop (List.mem_of_mem_take hy)

theorem mem_selected {rt : Runtime} {st : Store} {q : Filter}
    {le : Equipment → Equipment → Bool} {e : Equipment} :
    e ∈ Equipment.selected rt st q le ↔ e ∈ st.equipment ∧ e.matchesFilter rt q = true := by
  unfold Equipment.selected
  rw [(List.perm_insertionSort _ _).mem_iff, List.mem_filter]

theorem length_selected (rt : Runtime) (st : Store) (q : Filter)
    (le : Equipment → Equipment → Bool) :
    (Equipment.selected rt st q le).length =
      (st.equipment.filter (Equipment.matchesFilter rt q)).length := by
  unfold Equipment.selected
  exact (List.perm_insertionSort _ _).length_eq

theorem mem_find {rt : Runtime} {st : Store} {q : Filter}
    {le : Equipment → Equipment → Bool} {limit skip : Int} {ys : List Equipment}
    (h : Equipment.find rt st q le limit skip = .ok ys) :
    ∀ e ∈ ys, e ∈ st.equipment ∧ e.matchesFilter rt q = true := by
  unfold Equipment.find at h
  split at h
  · exact fun e he => mem_selected.mp (mem_skipLimit h e he)
  · cases h

/-- **C3.** For every store and every query of `GET /api/equipment/public`, the
filter given to both `find` and `countDocuments` has `isActive: true` and
`isPublic: true` whatever the search and category parameters are, every item
of the response is public and active, and the reported total counts only
public, active documents. -/
theorem getPublic_only_public_active (rt : Runtime) (st : Store) (req : Query) :
    (∀ search category : String,
      List.lookup "isActive" (publicQuery st search category) = some (Cond.bool true) ∧
      List.lookup "isPublic" (publicQuery st search category) = some (Cond.bool true)) ∧
    (∀ items, (getPublic rt st req).data = some items →
      ∀ v ∈ items, v.doc.isPublic = true ∧ v.doc.isActive = true ∧ v.doc ∈ st.equipment) ∧
    (∀ pg, (getPublic rt st req).pagination = some pg →
      pg.total = ((st.equipment.filter (Equipment.matchesFilter rt
        (publicQuery st (strOr req.search) (strOr req.category)))).length : Int) ∧
      pg.total ≤ ((st.equipment.filter
        (fun e => e.isPublic && e.isActive)).length : Int)) := by
  have hmatch : ∀ (search category : String) (e : Equipment),
      e.matchesFilter rt (publicQuery st search category) = true →
      e.isPublic = true ∧ e.isActive = true := by
    intro search category e he
    obtain ⟨rest, hq, _⟩ := publicQuery_shape st search category
    rw [hq] at he
    simp only [Equipment.matchesFilter, List.all_cons, Bool.and_eq_true] at he
    obtain ⟨h1, h2, _⟩ := he
    simp [Equipment.satisfies] at h1 h2
    exact ⟨h2, h1⟩
  refine ⟨?_, ?_, ?_⟩
  · intro search category
    obtain ⟨rest, hq, _⟩ := publicQuery_shape st search category
    rw [hq]
    exact ⟨rfl, rfl⟩
  · intro items hitems v hv
    unfold getPublic at hitems
    simp only at hitems
    split at hitems
    · cases hitems
    · rename_i equipment hfind
      split at hitems
      · cases hitems
      · simp only [listResponse, Option.some.injEq] at hitems
        subst hitems
        obtain ⟨e, he, rfl⟩ := List.mem_map.mp hv
        have := mem_find hfind e he
        have hm := hmatch _ _ e this.2
        exact ⟨hm.1, hm.2, this.1⟩
  · intro pg hpg
    unfold getPublic at hpg
    simp only at hpg
    split at hpg
    · cases hpg
    · split at hpg
      · cases hpg
      · rename_i total hcount
        simp only [listResponse, Option.some.injEq] at hpg
        subst hpg
        simp only [Equipment.countDocuments, publicQuery_castable, if_true,
          Except.ok.injEq] at hcount
        subst hcount
        refine ⟨rfl, ?_⟩
        simp only [Nat.cast_le]
        apply List.Sublist.length_le
        apply List.monotone_filter_right
        intro e he
        have hm := hmatch _ _ e he
        simp [hm.1, hm.2]

/-! ## The category parameter of the public list -/

/-- **C4.** For a non-empty `category` parameter of the public list: if some
category has exactly that name, the filter is the filter of the same request
without `category` plus `categoryId` set to the id of the (first) category of
that name; if none has, the filter is the filter of the same request without
`category`, and the response is the response to that request (no error is
raised for the unknown name). -/
theorem publicQuery_category (st : Store) (search category : String)
    (hcat : category ≠ "") :
    ((∃ c ∈ st.categories, c.name = category) →
      ∃ d ∈ st.categories, d.name = category ∧
        Category.findOneByName st category = some d ∧
        publicQuery st search category =
          (publicQuery st search "").set "categoryId" (Cond.oid d._id) ∧
        publicQuery st search category =
          publicQuery st search "" ++ [("categoryId", Cond.oid d._id)] ∧
        List.lookup "categoryId" (publicQuery st search category) = some (Cond.oid d._id)) ∧
    ((∀ c ∈ st.categories, c.name ≠ category) →
      publicQuery st search category = publicQuery st search "" ∧
      List.lookup "categoryId" (publicQuery st search category) = none ∧
      ∀ (rt : Runtime) (req : Query), strOr req.search = search →
        req.category = some category →
        getPublic rt st req = getPublic rt st { req with category := none }) := by
  constructor
  · rintro ⟨c, hc, hname⟩
    have hsome : (Category.findOneByName st category).isSome = true := by
      unfold Category.findOneByName
      rw [List.find?_isSome]
      exact ⟨c, hc, by simpa using hname⟩
    obtain ⟨d, hd⟩ := Option.isSome_iff_exists.mp hsome
    have hdm : d ∈ st.categories := List.mem_of_find?_eq_some hd
    have hdn : d.name = category := by
      have := List.find?_some hd
      simpa using this
    refine ⟨d, hdm, hdn, hd, ?_, ?_, ?_⟩ <;>
      unfold publicQuery <;> by_cases hs : search = "" <;>
      simp [hs, hcat, hd, Filter.set, List.lookup]
  · intro hnone
    have hf : Category.findOneByName st category = none := by
      unfold Category.findOneByName
      rw [List.find?_eq_none]
      intro c hc
      simpa using hnone c hc
    have hq : publicQuery st search category = publicQuery st search "" := by
      unfold publicQuery
      simp [hcat, hf]
    refine ⟨hq, ?_, ?_⟩
    · rw [hq]
      unfold publicQuery
      by_cases hs : search = "" <;> simp [hs, Filter.set, List.lookup]
    · intro rt req hsearch hreq
      have h1 : strOr req.category = category := by rw [hreq]; rfl
      unfold getPublic
      simp only [h1, hsearch, hq]
      rfl

/-- Witness for C4: on the sample store, the category name
"Diagnostic Equipment" resolves to id 2, and the unknown name "Dental" leaves
the filter and the response as without the parameter. -/
theorem publicQuery_category_witness :
    (∃ d ∈ sampleStore.categories, d.name = "Diagnostic Equipment" ∧
        Category.findOneByName sampleStore "Diagnostic Equipment" = some d ∧
        publicQuery sampleStore "" "Diagnostic Equipment" =
          (publicQuery sampleStore "" "").set "categoryId" (Cond.oid d._id) ∧
        publicQuery sampleStore "" "Diagnostic Equipment" =
          publicQuery sampleStore "" "" ++ [("categoryId", Cond.oid d._id)] ∧
        List.lookup "categoryId" (publicQuery sampleStore "" "Diagnostic Equipment") =
          some (Cond.oid d._id)) ∧
    getPublic sampleRuntime sampleStore { category := some "Dental" } =
      getPublic sampleRuntime sampleStore {} :=
  ⟨(publicQuery_category sampleStore "" "Diagnostic Equipment" (by decide)).1
      ⟨{ _id := 2, name := "Diagnostic Equipment", sortOrder := 2,
         slug := "diagnostic-equipment" }, by decide, rfl⟩,
   ((publicQuery_category sampleStore "" "Dental" (by decide)).2 (by decide)).2.2
      sampleRuntime { category := some "Dental" } rfl rfl⟩

/-- **C5.** The filter of the admin list `GET /api/equipment` is exactly
`isActive: true`, then `$text` iff `search` is non-empty, then `categoryId`
holding the supplied string iff it is non-empty (the store is not consulted),
then `availability` holding the supplied string iff it is non-empty, and no
other key; a document meets it exactly when it meets each of these. -/
theorem adminQuery_exact (search categoryId availability : String) :
    adminQuery search categoryId availability =
      [("isActive", Cond.bool true)] ++
        (if search ≠ "" then [("$text", Cond.text search)] else []) ++
        (if categoryId ≠ "" then [("categoryId", Cond.str categoryId)] else []) ++
        (if availability ≠ "" then [("availability", Cond.str availability)] else []) ∧
    (adminQuery search categoryId availability).keys =
      ["isActive"] ++ (if search ≠ "" then ["$text"] else []) ++
        (if categoryId ≠ "" then ["categoryId"] else []) ++
        (if availability ≠ "" then ["availability"] else []) ∧
    (∀ (rt : Runtime) (e : Equipment),
      e.matchesFilter rt (adminQuery search categoryId availability) =
        (e.isActive && (decide (search = "") || rt.textMatch search e) &&
          (decide (categoryId = "") || rt.castObjectId categoryId == some e.categoryId) &&
          (decide (availability = "") || e.availability == availability))) := by
  refine ⟨?_, ?_, ?_⟩
  · unfold adminQuery
    by_cases hs : search = "" <;> by_cases hc : categoryId = "" <;>
      by_cases ha : availability = "" <;> simp [hs, hc, ha, Filter.set]
  · unfold adminQuery Filter.keys
    by_cases hs : search = "" <;> by_cases hc : categoryId = "" <;>
      by_cases ha : availability = "" <;> simp [hs, hc, ha, Filter.set]
  · intro rt e
    unfold adminQuery
    by_cases hs : search = "" <;> by_cases hc : categoryId = "" <;>
      by_cases ha : availability = "" <;>
      simp [hs, hc, ha, Filter.set, Equipment.matchesFilter, Equipment.satisfies,
        Bool.and_assoc]

/-! ## Pagination: lemmas -/

theorem floor_div_pos (a b : Int) (hb : 0 < b) : ⌊((a : ℚ) / (b : ℚ))⌋ = a / b := by
  have h := Rat.floor_intCast_div_natCast a b.toNat
  have hb2 : ((b.toNat : ℤ)) = b := Int.toNat_of_nonneg hb.le
  have hb3 : ((b.toNat : ℕ) : ℚ) = (b : ℚ) := by
    rw [← Int.cast_natCast, hb2]
  rw [hb3, hb2] at h
  exact h

theorem ceilDiv_eq_ceil (a b : Int) (hb : b ≠ 0) :
    ceilDiv a b = ⌈((a : ℚ) / (b : ℚ))⌉ := by
  unfold ceilDiv
  rcases lt_or_gt_of_ne hb with h | h
  · have h1 : ¬ (0 < b) := not_lt.mpr h.le
    rw [if_neg h1, if_pos h]
    have : ((a : ℚ) / (b : ℚ)) = -(((a : ℚ)) / ((-b : ℤ) : ℚ)) := by
      push_cast
      rw [div_neg, neg_neg]
    rw [this, Int.ceil_neg, floor_div_pos a (-b) (by omega)]
  · rw [if_pos h]
    have : ((a : ℚ) / (b : ℚ)) = -((((-a : ℤ)) : ℚ) / (b : ℚ)) := by
      push_cast
      rw [neg_div, neg_neg]
    rw [this, Int.ceil_neg, floor_div_pos (-a) b h]

theorem skipLimit_window {α : Type} (firstBatch : Nat) (page limit : Int) (hp : 1 ≤ page)
    (hl : 1 ≤ limit) (xs : List α) :
    skipLimit firstBatch limit ((page - 1) * limit) xs = .ok (pageWindow page limit xs) := by
  have hs : ¬ ((page - 1) * limit < 0) := by
    have : 0 ≤ (page - 1) * limit := Int.mul_nonneg (by omega) (by omega)
    omega
  have h0 : limit ≠ 0 := by omega
  have ha : ¬ (limit < 0) := by omega
  simp only [skipLimit, hs, if_false, h0, ha, pageWindow]

theorem pageWindow_map {α β : Type} (f : α → β) (page limit : Int) (xs : List α) :
    pageWindow page limit (xs.map f) = (pageWindow page limit xs).map f := by
  simp [pageWindow, List.map_take, List.map_drop]

theorem pageContract_window {α : Type} (page limit : Int) (hl : 1 ≤ limit)
    (full : List α) :
    PageContract page limit full (pageWindow page limit full)
      (pageWindow page limit full).length
      { page := page, limit := limit, total := full.length,
        pages := ceilDiv full.length limit } := by
  refine ⟨rfl, rfl, ?_, rfl, rfl, rfl, ?_⟩
  · have : (pageWindow page limit full).length ≤ limit.toNat := by
      unfold pageWindow
      exact List.length_take_le _ _
    omega
  · have := ceilDiv_eq_ceil (full.length : Int) limit (by omega)
    simpa using this

theorem getPublic_page (rt : Runtime) (st : Store) (req : Query)
    (hp : 1 ≤ pageOf req) (hl : 1 ≤ limitOf req 12) :
    getPublic rt st req = listResponse (pageOf req) (limitOf req 12)
      (pageWindow (pageOf req) (limitOf req 12)
        ((Equipment.selected rt st (publicQuery st (strOr req.search) (strOr req.category))
          bySortOrderThenNewest).map (populateName st)))
      (Equipment.selected rt st (publicQuery st (strOr req.search) (strOr req.category))
          bySortOrderThenNewest).length := by
  simp only [getPublic, Equipment.find, Equipment.countDocuments, publicQuery_castable,
    if_true, skipLimit_window _ _ _ hp hl, pageWindow_map, length_selected]

theorem getEquipmentList_page (rt : Runtime) (st : Store) (req : Query)
    (hp : 1 ≤ pageOf req) (hl : 1 ≤ limitOf req 10)
    (hc : (adminQuery (strOr req.search) (strOr req.categoryId)
      (strOr req.availability)).castable rt = true) :
    getEquipmentList rt st req = listResponse (pageOf req) (limitOf req 10)
      (pageWindow (pageOf req) (limitOf req 10)
        ((Equipment.selected rt st (adminQuery (strOr req.search) (strOr req.categoryId)
          (strOr req.availability)) byNewest).map (populateName st)))
      (Equipment.selected rt st (adminQuery (strOr req.search) (strOr req.categoryId)
          (strOr req.availability)) byNewest).length := by
  simp only [getEquipmentList, Equipment.find, Equipment.countDocuments, hc,
    if_true, skipLimit_window _ _ _ hp hl, pageWindow_map, length_selected]

theorem getCategoryEquipment_page (rt : Runtime) (st : Store) (id : String) (req : Query)
    (o : ObjectId) (category : Category)
    (hp : 1 ≤ pageOf req) (hl : 1 ≤ limitOf req 10)
    (hid : rt.castObjectId id = some o)
    (hcat : st.categories.find? (fun c => c._id == o) = some category) :
    getCategoryEquipment rt st id req =
      { success := some true
        data := some
          { category := category
            count := (pageWindow (pageOf req) (limitOf req 10) (Equipment.selected rt st
              [("categoryId", Cond.str id), ("isActive", Cond.bool true)] byNewest)).length
            pagination :=
              { page := pageOf req, limit := limitOf req 10
                total := (Equipment.selected rt st
                  [("categoryId", Cond.str id), ("isActive", Cond.bool true)] byNewest).length
                pages := ceilDiv (Equipment.selected rt st
                  [("categoryId", Cond.str id), ("isActive", Cond.bool true)] byNewest).length
                  (limitOf req 10) }
            items := pageWindow (pageOf req) (limitOf req 10) (Equipment.selected rt st
              [("categoryId", Cond.str id), ("isActive", Cond.bool true)] byNewest) } } := by
  have hc : Filter.castable rt [("categoryId", Cond.str id), ("isActive", Cond.bool true)]
      = true := by
    simp [Filter.castable, hid]
  simp only [getCategoryEquipment, Category.findById, hid, hcat, Equipment.find,
    Equipment.countDocuments, hc, if_true, skipLimit_window _ _ _ hp hl, length_selected]

/-- **C6.** For the public list, the admin list and the category-scoped list:
whenever `page ≥ 1` and `limit ≥ 1`, with `page`, `limit`, the skip
`(page - 1) * limit` and the size of the collection safe integers (below
`2^53`, where the code's double arithmetic is exact), and the request reaches
the query (an admin `categoryId` that casts, an existing category), the
response is a success whose items are the window that skips
`(page - 1) * limit` records of the filtered, ordered list, with `count` the
number of items and at most `limit`, `total` the size of the filtered list
(which does not mention page or limit) and `pages = ⌈total / limit⌉`. -/
theorem pagination_contract (rt : Runtime) (st : Store) (req : Query) :
    (1 ≤ pageOf req → 1 ≤ limitOf req 12 →
      ExactPaging st (pageOf req) (limitOf req 12) →
      ∃ items count pg,
        getPublic rt st req = { success := some true, count := some count,
                                pagination := some pg, data := some items } ∧
        PageContract (pageOf req) (limitOf req 12)
          ((Equipment.selected rt st (publicQuery st (strOr req.search) (strOr req.category))
            bySortOrderThenNewest).map (populateName st)) items count pg) ∧
    (1 ≤ pageOf req → 1 ≤ limitOf req 10 →
      ExactPaging st (pageOf req) (limitOf req 10) →
      (adminQuery (strOr req.search) (strOr req.categoryId)
        (strOr req.availability)).castable rt = true →
      ∃ items count pg,
        getEquipmentList rt st req = { success := some true, count := some count,
                                       pagination := some pg, data := some items } ∧
        PageContract (pageOf req) (limitOf req 10)
          ((Equipment.selected rt st (adminQuery (strOr req.search) (strOr req.categoryId)
            (strOr req.availability)) byNewest).map (populateName st)) items count pg) ∧
    (∀ (id : String) (o : ObjectId) (category : Category),
      1 ≤ pageOf req → 1 ≤ limitOf req 10 →
      ExactPaging st (pageOf req) (limitOf req 10) →
      rt.castObjectId id = some o →
      st.categories.find? (fun c => c._id == o) = some category →
      ∃ items count pg,
        getCategoryEquipment rt st id req =
          { success := some true
            data := some { category := category, count := count, pagination := pg,
                           items := items } } ∧
        PageContract (pageOf req) (limitOf req 10)
          (Equipment.selected rt st
            [("categoryId", Cond.str id), ("isActive", Cond.bool true)] byNewest)
          items count pg) := by
  refine ⟨fun hp hl _ => ?_, fun hp hl _ hc => ?_,
    fun id o category hp hl _ hid hcat => ?_⟩
  · refine ⟨_, _, _, ?_, pageContract_window (pageOf req) (limitOf req 12) hl _⟩
    rw [getPublic_page rt st req hp hl]
    simp [listResponse]
  · refine ⟨_, _, _, ?_, pageContract_window (pageOf req) (limitOf req 10) hl _⟩
    rw [getEquipmentList_page rt st req hp hl hc]
    simp [listResponse]
  · exact ⟨_, _, _, getCategoryEquipment_page rt st id req o category hp hl hid hcat,
      pageContract_window (pageOf req) (limitOf req 10) hl _⟩

/-- Witness for C6: page 2 of size 2 over the sample store, on each of the
three lists. -/
theorem pagination_contract_witness :
    (∃ items count pg,
        getPublic sampleRuntime sampleStore { page := some "2", limit := some "2" } =
          { success := some true, count := some count,
            pagination := some pg, data := some items } ∧
        PageContract 2 2
          ((Equipment.selected sampleRuntime sampleStore (publicQuery sampleStore "" "")
            bySortOrderThenNewest).map (populateName sampleStore)) items count pg) ∧
    (∃ items count pg,
        getEquipmentList sampleRuntime sampleStore { page := some "2", limit := some "2" } =
          { success := some true, count := some count,
            pagination := some pg, data := some items } ∧
        PageContract 2 2
          ((Equipment.selected sampleRuntime sampleStore (adminQuery "" "" "")
            byNewest).map (populateName sampleStore)) items count pg) ∧
    (∃ items count pg,
        getCategoryEquipment sampleRuntime sampleStore sampleCategoryId
            { page := some "2", limit := some "1" } =
          { success := some true
            data := some { category := { _id := 1, name := "Surgical Instruments",
                                         sortOrder := 1, slug := "surgical-instruments" },
                           count := count, pagination := pg, items := items } } ∧
        PageContract 2 1
          (Equipment.selected sampleRuntime sampleStore
            [("categoryId", Cond.str sampleCategoryId), ("isActive", Cond.bool true)] byNewest)
          items count pg) :=
  ⟨(pagination_contract sampleRuntime sampleStore
      { page := some "2", limit := some "2" }).1 (by decide) (by decide) (by decide),
   (pagination_contract sampleRuntime sampleStore
      { page := some "2", limit := some "2" }).2.1 (by decide) (by decide) (by decide)
      (by decide),
   (pagination_contract sampleRuntime sampleStore
      { page := some "2", limit := some "1" }).2.2 sampleCategoryId 1 _
      (by decide) (by decide) (by decide) (by decide) (by decide)⟩

theorem flatMap_chunks {α : Type} (l : Nat) (xs : List α) (n : Nat) :
    (List.range n).flatMap (fun i => (xs.drop (i * l)).take l) = xs.take (n * l) := by
  induction n with
  | zero => simp
  | succ n ih =>
    rw [List.range_succ, List.flatMap_append, ih, List.flatMap_singleton, Nat.succ_mul,
      List.take_add]

theorem pageWindow_succ {α : Type} (i : Nat) (limit : Int) (hl : 1 ≤ limit) (xs : List α) :
    pageWindow ((i : Int) + 1) limit xs = (xs.drop (i * limit.toNat)).take limit.toNat := by
  unfold pageWindow
  have : (((i : Int) + 1 - 1) * limit).toNat = i * limit.toNat := by
    have h1 : ((i : Int) + 1 - 1) = (i : Int) := by omega
    rw [h1]
    have h2 : limit = (limit.toNat : Int) := (Int.toNat_of_nonneg (by omega)).symm
    rw [h2]
    rw [← Nat.cast_mul, Int.toNat_natCast, Int.toNat_natCast]
  rw [this]

theorem flatMap_pageWindow {α : Type} (limit : Int) (hl : 1 ≤ limit) (xs : List α) :
    (List.range (ceilDiv xs.length limit).toNat).flatMap
      (fun i => pageWindow ((i : Int) + 1) limit xs) = xs := by
  have hfun : (fun i : Nat => pageWindow ((i : Int) + 1) limit xs) =
      fun i => (xs.drop (i * limit.toNat)).take limit.toNat := by
    funext i
    exact pageWindow_succ i limit hl xs
  rw [hfun, flatMap_chunks]
  apply List.take_of_length_le
  have hpos : 0 < limit := by omega
  have hle : (-(xs.length : Int)) / limit * limit ≤ -(xs.length : Int) :=
    Int.ediv_mul_le _ (by omega)
  have hc : ceilDiv xs.length limit = -((-(xs.length : Int)) / limit) := by
    simp [ceilDiv, hpos]
  have hnn : 0 ≤ ceilDiv xs.length limit := by
    rw [hc]
    have h0 : (-(xs.length : Int)) ≤ 0 := by omega
    have : (-(xs.length : Int)) / limit ≤ 0 := by
      have := Int.ediv_le_ediv hpos h0
      simpa using this
    omega
  have hcast : (((ceilDiv xs.length limit).toNat * limit.toNat : Nat) : Int) =
      ceilDiv xs.length limit * limit := by
    rw [Nat.cast_mul, Int.toNat_of_nonneg hnn, Int.toNat_of_nonneg (by omega)]
  have key : (xs.length : Int) ≤ ceilDiv xs.length limit * limit := by
    rw [hc, neg_mul]
    omega
  have : (xs.length : Int) ≤ (((ceilDiv xs.length limit).toNat * limit.toNat : Nat) : Int) := by
    rw [hcast]
    exact key
  exact_mod_cast this

theorem pageOf_with_page (req : Query) (raw : String) (n : Int) (hn : n ≠ 0)
    (h : parseInt raw = some n) : pageOf { req with page := some raw } = n := by
  simp [pageOf, parseIntParam, h, orDefault, hn]

/-- **C7.** For the public list and the admin list, every `limit ≥ 1` and every
family of `page` parameters that parse to 1, 2, ..., `pages = ⌈T / limit⌉`:
the items of the responses for these pages, concatenated in page order, are
exactly the filtered, ordered list (as a list: each record once, in order,
none missing). -/
theorem pages_reconstruct (rt : Runtime) (st : Store) (req : Query)
    (pageParam : Nat → String) :
    (1 ≤ limitOf req 12 →
      (∀ i, i < (ceilDiv (Equipment.selected rt st
          (publicQuery st (strOr req.search) (strOr req.category))
          bySortOrderThenNewest).length (limitOf req 12)).toNat →
        parseInt (pageParam i) = some ((i : Int) + 1)) →
      (List.range (ceilDiv (Equipment.selected rt st
          (publicQuery st (strOr req.search) (strOr req.category))
          bySortOrderThenNewest).length (limitOf req 12)).toNat).flatMap
        (fun i => ((getPublic rt st { req with page := some (pageParam i) }).data).getD []) =
      (Equipment.selected rt st (publicQuery st (strOr req.search) (strOr req.category))
        bySortOrderThenNewest).map (populateName st)) ∧
    (1 ≤ limitOf req 10 →
      (adminQuery (strOr req.search) (strOr req.categoryId)
        (strOr req.availability)).castable rt = true →
      (∀ i, i < (ceilDiv (Equipment.selected rt st
          (adminQuery (strOr req.search) (strOr req.categoryId) (strOr req.availability))
          byNewest).length (limitOf req 10)).toNat →
        parseInt (pageParam i) = some ((i : Int) + 1)) →
      (List.range (ceilDiv (Equipment.selected rt st
          (adminQuery (strOr req.search) (strOr req.categoryId) (strOr req.availability))
          byNewest).length (limitOf req 10)).toNat).flatMap
        (fun i => ((getEquipmentList rt st
          { req with page := some (pageParam i) }).data).getD []) =
      (Equipment.selected rt st
        (adminQuery (strOr req.search) (strOr req.categoryId) (strOr req.availability))
        byNewest).map (populateName st)) := by
  constructor
  · intro hl hparse
    have hlen := List.length_map
      (Equipment.selected rt st (publicQuery st (strOr req.search) (strOr req.category))
        bySortOrderThenNewest) (populateName st)
    rw [← hlen]
    rw [← hlen] at hparse
    refine Eq.trans (List.flatMap_congr ?_) (flatMap_pageWindow (limitOf req 12) hl _)
    intro i hi
    have hp : pageOf { req with page := some (pageParam i) } = (i : Int) + 1 :=
      pageOf_with_page req _ _ (by omega) (hparse i (List.mem_range.mp hi))
    have hl2 : 1 ≤ limitOf { req with page := some (pageParam i) } 12 := hl
    rw [getPublic_page rt st _ (by rw [hp]; omega) hl2, hp]
    rfl
  · intro hl hc hparse
    have hlen := List.length_map
      (Equipment.selected rt st
        (adminQuery (strOr req.search) (strOr req.categoryId) (strOr req.availability))
        byNewest) (populateName st)
    rw [← hlen]
    rw [← hlen] at hparse
    refine Eq.trans (List.flatMap_congr ?_) (flatMap_pageWindow (limitOf req 10) hl _)
    intro i hi
    have hp : pageOf { req with page := some (pageParam i) } = (i : Int) + 1 :=
      pageOf_with_page req _ _ (by omega) (hparse i (List.mem_range.mp hi))
    have hl2 : 1 ≤ limitOf { req with page := some (pageParam i) } 10 := hl
    rw [getEquipmentList_page rt st _ (by rw [hp]; omega) hl2 hc, hp]
    rfl

/-- Witness for C7: the sample store read two records a page, with the page
parameters "1", "2", "3". -/
theorem pages_reconstruct_witness :
    (List.range 2).flatMap
        (fun i => ((getPublic sampleRuntime sampleStore
          { limit := some "2", page := some (["1", "2", "3"].getD i "") }).data).getD []) =
      (Equipment.selected sampleRuntime sampleStore (publicQuery sampleStore "" "")
        bySortOrderThenNewest).map (populateName sampleStore) ∧
    (List.range 2).flatMap
        (fun i => ((getEquipmentList sampleRuntime sampleStore
          { limit := some "2", page := some (["1", "2", "3"].getD i "") }).data).getD []) =
      (Equipment.selected sampleRuntime sampleStore (adminQuery "" "" "")
        byNewest).map (populateName sampleStore) :=
  ⟨(pages_reconstruct sampleRuntime sampleStore { limit := some "2" }
      (fun i => ["1", "2", "3"].getD i "")).1 (by decide) (by decide),
   (pages_reconstruct sampleRuntime sampleStore { limit := some "2" }
      (fun i => ["1", "2", "3"].getD i "")).2 (by decide) (by decide) (by decide)⟩

/-! ## Defaults and unclamped values -/

theorem orDefault_none (d : Int) : orDefault none d = d := rfl

theorem orDefault_zero (d : Int) : orDefault (some 0) d = d := rfl

theorem orDefault_neg (n d : Int) (hn : n < 0) : orDefault (some n) d = n := by
  have : n ≠ 0 := by omega
  simp [orDefault, this]

theorem pageWindow_first {α : Type} (limit : Int) (xs : List α) :
    pageWindow 1 limit xs = xs.take limit.toNat := by
  simp [pageWindow]

theorem getFeatured_first (rt : Runtime) (st : Store) (req : Query)
    (hl : 1 ≤ limitOf req 6) :
    getFeatured rt st req =
      { success := some true
        data := some (((Equipment.selected rt st
          [("isActive", Cond.bool true), ("isPublic", Cond.bool true),
            ("isFeatured", Cond.bool true)]
          bySortOrderThenNewest).take (limitOf req 6).toNat).map (populateName st)) } := by
  have hc : Filter.castable rt [("isActive", Cond.bool true), ("isPublic", Cond.bool true),
      ("isFeatured", Cond.bool true)] = true := by
    simp [Filter.castable]
  have h := skipLimit_window rt.firstBatch 1 (limitOf req 6) (le_refl 1) hl
    (Equipment.selected rt st
      [("isActive", Cond.bool true), ("isPublic", Cond.bool true),
        ("isFeatured", Cond.bool true)] bySortOrderThenNewest)
  simp only [sub_self, zero_mul, pageWindow_first] at h
  simp only [getFeatured, Equipment.find, hc, if_true, h]

theorem getSearch_first (rt : Runtime) (st : Store) (req : Query)
    (hq : strOr req.q ≠ "") (hl : 1 ≤ limitOf req 20) :
    getSearch rt st req =
      { success := some true
        data := some (((Equipment.selected rt st
          [("isActive", Cond.bool true), ("isPublic", Cond.bool true),
            ("$text", Cond.text (strOr req.q))]
          (byTextScore rt (strOr req.q))).take (limitOf req 20).toNat).map
            (populateName st)) } := by
  have hc : Filter.castable rt [("isActive", Cond.bool true), ("isPublic", Cond.bool true),
      ("$text", Cond.text (strOr req.q))] = true := by
    simp [Filter.castable]
  have h := skipLimit_window rt.firstBatch 1 (limitOf req 20) (le_refl 1) hl
    (Equipment.selected rt st
      [("isActive", Cond.bool true), ("isPublic", Cond.bool true),
        ("$text", Cond.text (strOr req.q))] (byTextScore rt (strOr req.q)))
  simp only [sub_self, zero_mul, pageWindow_first] at h
  simp only [getSearch, hq, if_false, Equipment.find, hc, if_true, h]

/-- **C8.** When the `page` parameter is absent or parses to no integer, the
public, admin and category-scoped lists use `page = 1`: they answer exactly as
for `page=1`, and (for a `limit ≥ 1` in the safe integers) with the first
`limit` records of the filtered, ordered list and `page: 1` in the metadata;
the featured and search routes never read `page`. When `limit` is absent or
parses to no integer, each route uses its default and answers exactly as for
that value: the featured route returns the first 6 records of its filtered,
ordered list, the search route (given a non-empty `q`) the first 20, and the
public, admin and category-scoped lists (for a `page ≥ 1` in the safe
integers) the page window of size 12, 10 and 10 with that limit in the
metadata. -/
theorem defaults_when_unparsed (rt : Runtime) (st : Store) (req : Query) (id : String) :
    (parseIntParam none = none) ∧
    (parseIntParam req.page = none →
      pageOf req = 1 ∧
      getPublic rt st req = getPublic rt st { req with page := some "1" } ∧
      getEquipmentList rt st req = getEquipmentList rt st { req with page := some "1" } ∧
      getCategoryEquipment rt st id req =
        getCategoryEquipment rt st id { req with page := some "1" } ∧
      (1 ≤ limitOf req 12 → ExactPaging st 1 (limitOf req 12) →
        getPublic rt st req = listResponse 1 (limitOf req 12)
          (((Equipment.selected rt st
            (publicQuery st (strOr req.search) (strOr req.category))
            bySortOrderThenNewest).take (limitOf req 12).toNat).map (populateName st))
          (Equipment.selected rt st (publicQuery st (strOr req.search) (strOr req.category))
            bySortOrderThenNewest).length) ∧
      (1 ≤ limitOf req 10 → ExactPaging st 1 (limitOf req 10) →
        (adminQuery (strOr req.search) (strOr req.categoryId)
          (strOr req.availability)).castable rt = true →
        getEquipmentList rt st req = listResponse 1 (limitOf req 10)
          (((Equipment.selected rt st (adminQuery (strOr req.search) (strOr req.categoryId)
            (strOr req.availability)) byNewest).take (limitOf req 10).toNat).map
              (populateName st))
          (Equipment.selected rt st (adminQuery (strOr req.search) (strOr req.categoryId)
            (strOr req.availability)) byNewest).length) ∧
      (∀ (o : ObjectId) (category : Category),
        1 ≤ limitOf req 10 → ExactPaging st 1 (limitOf req 10) →
        rt.castObjectId id = some o →
        st.categories.find? (fun c => c._id == o) = some category →
        getCategoryEquipment rt st id req =
          { success := some true
            data := some
              { category := category
                count := ((Equipment.selected rt st
                  [("categoryId", Cond.str id), ("isActive", Cond.bool true)] byNewest).take
                    (limitOf req 10).toNat).length
                pagination :=
                  { page := 1, limit := limitOf req 10
                    total := (Equipment.selected rt st
                      [("categoryId", Cond.str id), ("isActive", Cond.bool true)]
                      byNewest).length
                    pages := ceilDiv (Equipment.selected rt st
                      [("categoryId", Cond.str id), ("isActive", Cond.bool true)]
                      byNewest).length (limitOf req 10) }
                items := (Equipment.selected rt st
                  [("categoryId", Cond.str id), ("isActive", Cond.bool true)] byNewest).take
                    (limitOf req 10).toNat } })) ∧
    (∀ p, getFeatured rt st { req with page := p } = getFeatured rt st req ∧
      getSearch rt st { req with page := p } = getSearch rt st req) ∧
    (parseIntParam req.limit = none →
      limitOf req 12 = 12 ∧ limitOf req 10 = 10 ∧ limitOf req 20 = 20 ∧ limitOf req 6 = 6 ∧
      getPublic rt st req = getPublic rt st { req with limit := some "12" } ∧
      getEquipmentList rt st req = getEquipmentList rt st { req with limit := some "10" } ∧
      getCategoryEquipment rt st id req =
        getCategoryEquipment rt st id { req with limit := some "10" } ∧
      getSearch rt st req = getSearch rt st { req with limit := some "20" } ∧
      getFeatured rt st req = getFeatured rt st { req with limit := some "6" } ∧
      getFeatured rt st req =
        { success := some true
          data := some (((Equipment.selected rt st
            [("isActive", Cond.bool true), ("isPublic", Cond.bool true),
              ("isFeatured", Cond.bool true)]
            bySortOrderThenNewest).take 6).map (populateName st)) } ∧
      (strOr req.q ≠ "" →
        getSearch rt st req =
          { success := some true
            data := some (((Equipment.selected rt st
              [("isActive", Cond.bool true), ("isPublic", Cond.bool true),
                ("$text", Cond.text (strOr req.q))]
              (byTextScore rt (strOr req.q))).take 20).map (populateName st)) }) ∧
      (1 ≤ pageOf req → ExactPaging st (pageOf req) 12 →
        getPublic rt st req = listResponse (pageOf req) 12
          (pageWindow (pageOf req) 12
            ((Equipment.selected rt st
              (publicQuery st (strOr req.search) (strOr req.category))
              bySortOrderThenNewest).map (populateName st)))
          (Equipment.selected rt st (publicQuery st (strOr req.search) (strOr req.category))
            bySortOrderThenNewest).length) ∧
      (1 ≤ pageOf req → ExactPaging st (pageOf req) 10 →
        (adminQuery (strOr req.search) (strOr req.categoryId)
          (strOr req.availability)).castable rt = true →
        getEquipmentList rt st req = listResponse (pageOf req) 10
          (pageWindow (pageOf req) 10
            ((Equipment.selected rt st (adminQuery (strOr req.search) (strOr req.categoryId)
              (strOr req.availability)) byNewest).map (populateName st)))
          (Equipment.selected rt st (adminQuery (strOr req.search) (strOr req.categoryId)
            (strOr req.availability)) byNewest).length) ∧
      (∀ (o : ObjectId) (category : Category),
        1 ≤ pageOf req → ExactPaging st (pageOf req) 10 →
        rt.castObjectId id = some o →
        st.categories.find? (fun c => c._id == o) = some category →
        getCategoryEquipment rt st id req =
          { success := some true
            data := some
              { category := category
                count := (pageWindow (pageOf req) 10 (Equipment.selected rt st
                  [("categoryId", Cond.str id), ("isActive", Cond.bool true)]
                  byNewest)).length
                pagination :=
                  { page := pageOf req, limit := 10
                    total := (Equipment.selected rt st
                      [("categoryId", Cond.str id), ("isActive", Cond.bool true)]
                      byNewest).length
                    pages := ceilDiv (Equipment.selected rt st
                      [("categoryId", Cond.str id), ("isActive", Cond.bool true)]
                      byNewest).length 10 }
                items := pageWindow (pageOf req) 10 (Equipment.selected rt st
                  [("categoryId", Cond.str id), ("isActive", Cond.bool true)]
                  byNewest) } })) := by
  refine ⟨rfl, fun hp => ?_, fun p => ⟨rfl, rfl⟩, fun hl => ?_⟩
  · have e1 : pageOf req = 1 := by simp [pageOf, hp, orDefault]
    have e2 : pageOf { req with page := some "1" } = 1 := by
      show orDefault (parseIntParam (some "1")) 1 = 1
      decide
    have h1 : 1 ≤ pageOf req := by omega
    refine ⟨e1, ?_, ?_, ?_, ?_, ?_, ?_⟩
    · unfold getPublic
      simp only [e1, e2]
      rfl
    · unfold getEquipmentList
      simp only [e1, e2]
      rfl
    · unfold getCategoryEquipment
      simp only [e1, e2]
      rfl
    · intro hl _
      rw [getPublic_page rt st req h1 hl, e1, pageWindow_first, List.map_take]
    · intro hl _ hc
      rw [getEquipmentList_page rt st req h1 hl hc, e1, pageWindow_first, List.map_take]
    · intro o category hl _ hid hcat
      rw [getCategoryEquipment_page rt st id req o category h1 hl hid hcat, e1,
        pageWindow_first]
  · have e1 : ∀ d, limitOf req d = d := fun d => by simp [limitOf, hl, orDefault]
    have e12 : limitOf { req with limit := some "12" } 12 = 12 := by
      show orDefault (parseIntParam (some "12")) 12 = 12
      decide
    have e10 : limitOf { req with limit := some "10" } 10 = 10 := by
      show orDefault (parseIntParam (some "10")) 10 = 10
      decide
    have e20 : limitOf { req with limit := some "20" } 20 = 20 := by
      show orDefault (parseIntParam (some "20")) 20 = 20
      decide
    have e6 : limitOf { req with limit := some "6" } 6 = 6 := by
      show orDefault (parseIntParam (some "6")) 6 = 6
      decide
    refine ⟨e1 12, e1 10, e1 20, e1 6, ?_, ?_, ?_, ?_, ?_, ?_, ?_, ?_, ?_, ?_⟩
    · unfold getPublic
      simp only [e1, e12]
      rfl
    · unfold getEquipmentList
      simp only [e1, e10]
      rfl
    · unfold getCategoryEquipment
      simp only [e1, e10]
      rfl
    · unfold getSearch
      simp only [e1, e20]
    · unfold getFeatured
      simp only [e1, e6]
    · have h := getFeatured_first rt st req (by rw [e1]; decide)
      rw [e1] at h
      exact h
    · intro hq
      have h := getSearch_first rt st req hq (by rw [e1]; decide)
      rw [e1] at h
      exact h
    · intro hp _
      have h := getPublic_page rt st req hp (by rw [e1]; decide)
      rw [e1] at h
      exact h
    · intro hp _ hc
      have h := getEquipmentList_page rt st req hp (by rw [e1]; decide) hc
      rw [e1] at h
      exact h
    · intro o category hp _ hid hcat
      have h := getCategoryEquipment_page rt st id req o category hp (by rw [e1]; decide)
        hid hcat
      rw [e1] at h
      exact h

/-- Witness for C8: the non-numeric `limit=abc` with no `page`, on a store of
25 public, active, featured items named "Probe": the public list reports page
1 and limit 12 and returns 12 items, the featured route returns the 6 newest,
the search for `probe` returns 20 of the 25 matches. -/
theorem defaults_when_unparsed_witness :
    pageOf { limit := some "abc", q := some "probe" } = 1 ∧
    limitOf { limit := some "abc", q := some "probe" } 12 = 12 ∧
    (getPublic sampleRuntime catalogStore { limit := some "abc", q := some "probe" }
      ).pagination = some { page := 1, limit := 12, total := 25, pages := 3 } ∧
    (getPublic sampleRuntime catalogStore { limit := some "abc", q := some "probe" }
      ).count = some 12 ∧
    (getFeatured sampleRuntime catalogStore { limit := some "abc", q := some "probe" }
      ).data.map (List.map fun v => v.doc._id) = some [124, 123, 122, 121, 120, 119] ∧
    (getSearch sampleRuntime catalogStore { limit := some "abc", q := some "probe" }
      ).data.map (List.map fun v => v.doc._id) =
        some [100, 101, 102, 103, 104, 105, 106, 107, 108, 109,
              110, 111, 112, 113, 114, 115, 116, 117, 118, 119] :=
  have h := defaults_when_unparsed sampleRuntime catalogStore
    { limit := some "abc", q := some "probe" } sampleCategoryId
  ⟨(h.2.1 (by decide)).1, (h.2.2.2 (by decide)).1,
   (congrArg (fun r => r.pagination)
      ((h.2.2.2 (by decide)).2.2.2.2.2.2.2.2.2.2.2.1 (by decide) (by decide))).trans
      (by decide),
   (congrArg (fun r => r.count)
      ((h.2.2.2 (by decide)).2.2.2.2.2.2.2.2.2.2.2.1 (by decide) (by decide))).trans
      (by decide),
   (congrArg (fun r => r.data.map (List.map fun v => v.doc._id))
      (h.2.2.2 (by decide)).2.2.2.2.2.2.2.2.2.1).trans (by decide),
   (congrArg (fun r => r.data.map (List.map fun v => v.doc._id))
      ((h.2.2.2 (by decide)).2.2.2.2.2.2.2.2.2.2.1 (by decide))).trans (by decide)⟩

/-- Counterexample to C9 as stated: `page=0&limit=0` is a zero page and a zero
limit "supplied in the query", yet the public list computes with page 1 and
limit 12 and reports those, not the zeros. -/
theorem zero_page_limit_replaced :
    parseIntParam (some "0") = some 0 ∧
    pageOf { page := some "0", limit := some "0" } = 1 ∧
    limitOf { page := some "0", limit := some "0" } 12 = 12 ∧
    (getPublic sampleRuntime sampleStore { page := some "0", limit := some "0" }).pagination =
      some { page := 1, limit := 12, total := 3, pages := 1 } ∧
    (getPublic sampleRuntime sampleStore { page := some "0", limit := some "0" }).pagination ≠
      some { page := 0, limit := 0, total := 3, pages := 1 } := by
  decide

/-- **C9 (amended).** A negative `page` or `limit` is not clamped: within the
safe integers (absolute value below `2^53`, where the code's doubles are
exact) the value parsed from the query is the route's `page` (resp. `limit`),
it is what the `find` call receives as `limit` and inside
`skip = (page - 1) * limit`, and whenever the list answers with pagination
metadata that metadata reports it. A zero `page` or `limit` is replaced by the
default. Stated for the public, admin and category-scoped lists. -/
theorem negative_not_clamped (rt : Runtime) (st : Store) (req : Query) (id : String) :
    (∀ n, parseIntParam req.page = some n → n < 0 → IsSafeInteger n → pageOf req = n) ∧
    (∀ n d, parseIntParam req.limit = some n → n < 0 → IsSafeInteger n →
      limitOf req d = n) ∧
    (parseIntParam req.page = some 0 → pageOf req = 1) ∧
    (∀ d, parseIntParam req.limit = some 0 → limitOf req d = d) ∧
    (ExactPaging st (pageOf req) (limitOf req 12) →
      (getPublic rt st req = serverError ∨
        ∃ items total,
          Equipment.find rt st (publicQuery st (strOr req.search) (strOr req.category))
            bySortOrderThenNewest (limitOf req 12) ((pageOf req - 1) * limitOf req 12) =
              .ok items ∧
          Equipment.countDocuments rt st
            (publicQuery st (strOr req.search) (strOr req.category)) = .ok total ∧
          getPublic rt st req =
            listResponse (pageOf req) (limitOf req 12) (items.map (populateName st)) total) ∧
      (∀ pg, (getPublic rt st req).pagination = some pg →
        pg.page = pageOf req ∧ pg.limit = limitOf req 12)) ∧
    (ExactPaging st (pageOf req) (limitOf req 10) →
      (getEquipmentList rt st req = serverError ∨
        ∃ items total,
          Equipment.find rt st
            (adminQuery (strOr req.search) (strOr req.categoryId) (strOr req.availability))
            byNewest (limitOf req 10) ((pageOf req - 1) * limitOf req 10) = .ok items ∧
          Equipment.countDocuments rt st
            (adminQuery (strOr req.search) (strOr req.categoryId) (strOr req.availability)) =
              .ok total ∧
          getEquipmentList rt st req =
            listResponse (pageOf req) (limitOf req 10) (items.map (populateName st)) total) ∧
      (∀ pg, (getEquipmentList rt st req).pagination = some pg →
        pg.page = pageOf req ∧ pg.limit = limitOf req 10) ∧
      (∀ d, (getCategoryEquipment rt st id req).data = some d →
        d.pagination.page = pageOf req ∧ d.pagination.limit = limitOf req 10 ∧
        Equipment.find rt st [("categoryId", Cond.str id), ("isActive", Cond.bool true)]
          byNewest (limitOf req 10) ((pageOf req - 1) * limitOf req 10) = .ok d.items)) := by
  have hpub : getPublic rt st req = serverError ∨
      ∃ items total,
        Equipment.find rt st (publicQuery st (strOr req.search) (strOr req.category))
          bySortOrderThenNewest (limitOf req 12) ((pageOf req - 1) * limitOf req 12) =
            .ok items ∧
        Equipment.countDocuments rt st
          (publicQuery st (strOr req.search) (strOr req.category)) = .ok total ∧
        getPublic rt st req =
          listResponse (pageOf req) (limitOf req 12) (items.map (populateName st)) total := by
    unfold getPublic
    simp only
    split
    · exact Or.inl rfl
    · rename_i items hfind
      split
      · exact Or.inl rfl
      · rename_i total hcount
        exact Or.inr ⟨items, total, hfind, hcount, rfl⟩
  have hadm : getEquipmentList rt st req = serverError ∨
      ∃ items total,
        Equipment.find rt st
          (adminQuery (strOr req.search) (strOr req.categoryId) (strOr req.availability))
          byNewest (limitOf req 10) ((pageOf req - 1) * limitOf req 10) = .ok items ∧
        Equipment.countDocuments rt st
          (adminQuery (strOr req.search) (strOr req.categoryId) (strOr req.availability)) =
            .ok total ∧
        getEquipmentList rt st req =
          listResponse (pageOf req) (limitOf req 10) (items.map (populateName st)) total := by
    unfold getEquipmentList
    simp only
    split
    · exact Or.inl rfl
    · rename_i items hfind
      split
      · exact Or.inl rfl
      · rename_i total hcount
        exact Or.inr ⟨items, total, hfind, hcount, rfl⟩
  refine ⟨?_, ?_, ?_, ?_, fun _ => ⟨hpub, ?_⟩, fun _ => ⟨hadm, ?_, ?_⟩⟩
  · intro n h hn _
    rw [pageOf, h, orDefault_neg n 1 hn]
  · intro n d h hn _
    rw [limitOf, h, orDefault_neg n d hn]
  · intro h
    rw [pageOf, h, orDefault_zero]
  · intro d h
    rw [limitOf, h, orDefault_zero]
  · intro pg hpg
    rcases hpub with h | ⟨items, total, _, _, h⟩
    · rw [h] at hpg
      cases hpg
    · rw [h] at hpg
      simp only [listResponse, Option.some.injEq] at hpg
      subst hpg
      exact ⟨rfl, rfl⟩
  · intro pg hpg
    rcases hadm with h | ⟨items, total, _, _, h⟩
    · rw [h] at hpg
      cases hpg
    · rw [h] at hpg
      simp only [listResponse, Option.some.injEq] at hpg
      subst hpg
      exact ⟨rfl, rfl⟩
  · intro d hd
    unfold getCategoryEquipment at hd
    simp only at hd
    split at hd
    · cases hd
    · cases hd
    · split at hd
      · cases hd
      · rename_i items hfind
        split at hd
        · cases hd
        · simp only [Option.some.injEq] at hd
          subst hd
          exact ⟨rfl, rfl, hfind⟩

/-- Witness for C9 (amended): `page=-1&limit=-2` on the sample store: both
values are safe integers and pass through, the skip is `(-1 - 1) * (-2) = 4`,
and the metadata of the admin list reports `-1` and `-2`. -/
theorem negative_not_clamped_witness :
    pageOf { page := some "-1", limit := some "-2" } = -1 ∧
    limitOf { page := some "-1", limit := some "-2" } 10 = -2 ∧
    ((-1 : Int) - 1) * (-2) = 4 ∧
    (getEquipmentList sampleRuntime sampleStore { page := some "-1", limit := some "-2" }
      ).pagination = some { page := -1, limit := -2, total := 4, pages := -2 } ∧
    (({ page := -1, limit := -2, total := 4, pages := -2 } : Pagination).page =
        pageOf { page := some "-1", limit := some "-2" } ∧
      ({ page := -1, limit := -2, total := 4, pages := -2 } : Pagination).limit =
        limitOf { page := some "-1", limit := some "-2" } 10) :=
  have h := negative_not_clamped sampleRuntime sampleStore
    { page := some "-1", limit := some "-2" } sampleCategoryId
  ⟨h.1 (-1) (by decide) (by decide) (by decide),
   h.2.1 (-2) 10 (by decide) (by decide) (by decide),
   by decide, by decide,
   (h.2.2.2.2.2 (by decide)).2.1 { page := -1, limit := -2, total := 4, pages := -2 }
     (by decide)⟩

/-! ## Category deletion: the equipment-count guard -/

/-- **C10.** If `N > 0` active equipment documents reference the category id of
`DELETE /api/categories/:id`, the response has status 400, its message names
`N`, and the store after the request is the store before it. -/
theorem deleteCategory_blocked (rt : Runtime) (now : Nat) (st : Store) (id : String)
    (N : Nat)
    (hN : (st.equipment.filter
      (fun e => rt.castObjectId id == some e.categoryId && e.isActive)).length = N)
    (hpos : 0 < N) :
    deleteCategory rt now st id =
      ({ status := 400
         message := some ("Cannot delete category. It has " ++ toString N ++
           " active equipment items.") }, st) := by
  have hex : ∃ e, e ∈ st.equipment.filter
      (fun e => rt.castObjectId id == some e.categoryId && e.isActive) := by
    apply List.exists_mem_of_length_pos
    omega
  obtain ⟨e, he⟩ := hex
  have hcast : (rt.castObjectId id).isSome = true := by
    have := (List.mem_filter.mp he).2
    simp only [Bool.and_eq_true, beq_iff_eq] at this
    rw [this.1]
    rfl
  have hc : Filter.castable rt [("categoryId", Cond.str id), ("isActive", Cond.bool true)]
      = true := by
    simp [Filter.castable, hcast]
  have hfun : Equipment.matchesFilter rt
      [("categoryId", Cond.str id), ("isActive", Cond.bool true)] =
      fun e => rt.castObjectId id == some e.categoryId && e.isActive := by
    funext e
    simp [Equipment.matchesFilter, Equipment.satisfies]
  have hcount : Equipment.countDocuments rt st
      [("categoryId", Cond.str id), ("isActive", Cond.bool true)] = .ok N := by
    simp only [Equipment.countDocuments, hc, if_true, hfun, hN]
  simp only [deleteCategory, hcount, gt_iff_lt, hpos, if_true]

/-- Witness for C10: the first sample category has two active equipment
documents. -/
theorem deleteCategory_blocked_witness :
    deleteCategory sampleRuntime 9 sampleStore sampleCategoryId =
      ({ status := 400
         message := some "Cannot delete category. It has 2 active equipment items." },
       sampleStore) :=
  deleteCategory_blocked sampleRuntime 9 sampleStore sampleCategoryId 2 (by decide)
    (by decide)

/-! ## Category deletion: the soft delete -/

theorem updateFirst_of_find {α : Type} (p : α → Bool) (f : α → α) (l : List α) (c : α)
    (h : l.find? p = some c) :
    ∃ before after, l = before ++ c :: after ∧ (∀ x ∈ before, p x = false) ∧
      updateFirst p f l = before ++ f c :: after := by
  induction l with
  | nil => simp at h
  | cons x xs ih =>
    by_cases hx : p x = true
    · have hc : x = c := by simpa [List.find?, hx] using h
      subst hc
      exact ⟨[], xs, rfl, by simp, by simp [updateFirst, hx]⟩
    · have hx2 : p x = false := by simpa using hx
      have h2 : xs.find? p = some c := by simpa [List.find?, hx2] using h
      obtain ⟨before, after, h1, h3, h4⟩ := ih h2
      refine ⟨x :: before, after, by simp [h1], ?_, by simp [updateFirst, hx2, h4]⟩
      intro y hy
      rcases List.mem_cons.mp hy with rfl | hy
      · exact hx2
      · exact h3 y hy

theorem countDocuments_byCategory (rt : Runtime) (st : Store) (id : String)
    (hcast : (rt.castObjectId id).isSome = true) :
    Equipment.countDocuments rt st [("categoryId", Cond.str id), ("isActive", Cond.bool true)] =
      .ok (st.equipment.filter
        (fun e => rt.castObjectId id == some e.categoryId && e.isActive)).length := by
  have hc : Filter.castable rt [("categoryId", Cond.str id), ("isActive", Cond.bool true)]
      = true := by
    simp [Filter.castable, hcast]
  have hfun : Equipment.matchesFilter rt
      [("categoryId", Cond.str id), ("isActive", Cond.bool true)] =
      fun e => rt.castObjectId id == some e.categoryId && e.isActive := by
    funext e
    simp [Equipment.matchesFilter, Equipment.satisfies]
  simp only [Equipment.countDocuments, hc, if_true, hfun]

/-- Counterexample to C11 as stated: deleting the category of `retiredStore`
(referenced by inactive equipment only) at time 9 succeeds, and the stored
category differs from the old one in `isActive` and also in `updatedAt`. -/
theorem deleteCategory_touches_updatedAt :
    (deleteCategory sampleRuntime 9 retiredStore "000000000000000000000003").1.success =
      some true ∧
    (deleteCategory sampleRuntime 9 retiredStore "000000000000000000000003").2.categories =
      [ { _id := 3, name := "Dental", sortOrder := 3, slug := "dental", isActive := false,
          updatedAt := 9 } ] ∧
    (deleteCategory sampleRuntime 9 retiredStore "000000000000000000000003").2.categories ≠
      retiredStore.categories.map (fun c => { c with isActive := false }) := by
  decide

/-- **C11 (amended).** For an existing category that no active equipment
references (inactive equipment may reference it), `DELETE /api/categories/:id`
succeeds; the category stays in the store at its place with `isActive` false
and `updatedAt` set to the time of the request, every other field of it as
before; every other category and every equipment document is unchanged. -/
theorem deleteCategory_soft_deletes (rt : Runtime) (now : Nat) (st : Store) (id : String)
    (o : ObjectId) (c : Category)
    (hid : rt.castObjectId id = some o)
    (hfind : st.categories.find? (fun x => x._id == o) = some c)
    (hzero : (st.equipment.filter
      (fun e => rt.castObjectId id == some e.categoryId && e.isActive)).length = 0) :
    (deleteCategory rt now st id).1 =
      { success := some true, message := some "Category deleted successfully" } ∧
    (deleteCategory rt now st id).2.equipment = st.equipment ∧
    ∃ before after, st.categories = before ++ c :: after ∧
      (∀ x ∈ before, x._id ≠ o) ∧ c._id = o ∧
      (deleteCategory rt now st id).2.categories =
        before ++ { c with isActive := false, updatedAt := now } :: after := by
  have hcount := countDocuments_byCategory rt st id (by rw [hid]; rfl)
  rw [hzero] at hcount
  obtain ⟨before, after, h1, h2, h3⟩ := updateFirst_of_find (fun x => x._id == o)
    (fun x => { x with isActive := false, updatedAt := now }) st.categories c hfind
  have hco : c._id = o := by
    have := List.find?_some hfind
    simpa using this
  have hres : deleteCategory rt now st id =
      ({ success := some true, message := some "Category deleted successfully" },
       { st with categories := (updateFirst (fun x => x._id == o)
          (fun x => { x with isActive := false, updatedAt := now }) st.categories) }) := by
    simp [deleteCategory, hcount, Category.deactivateById, hid, hfind]
  rw [hres]
  refine ⟨rfl, rfl, before, after, h1, ?_, hco, h3⟩
  intro x hx
  have := h2 x hx
  simpa using this

/-- Witness for C11 (amended): the category of `retiredStore`. -/
theorem deleteCategory_soft_deletes_witness :
    (deleteCategory sampleRuntime 9 retiredStore "000000000000000000000003").1 =
      { success := some true, message := some "Category deleted successfully" } ∧
    (deleteCategory sampleRuntime 9 retiredStore "000000000000000000000003").2.equipment =
      retiredStore.equipment :=
  have h := deleteCategory_soft_deletes sampleRuntime 9 retiredStore
    "000000000000000000000003" 3
    { _id := 3, name := "Dental", sortOrder := 3, slug := "dental" }
    (by decide) (by decide) (by decide)
  ⟨h.1, h.2.1⟩

/-! ## Error shaping of the write routes -/

theorem equipmentWriteError_eq {α : Type} (err : StoreError) :
    (equipmentWriteError err : Response α) =
      shapedError "Equipment with this name already exists" "Equipment name must be unique"
        err := by
  cases err <;> rfl

theorem categoryWriteError_eq {α : Type} (err : StoreError) :
    (categoryWriteError err : Response α) =
      shapedError "Category with this name already exists" "Category name must be unique"
        err := by
  cases err <;> rfl

theorem putEquipment_unfold (rt : Runtime) (now : Nat) (st : Store) (id : String)
    (data : EquipmentBody) :
    putEquipment rt now st id data =
      match categoryCheck rt st data with
      | .error err => (equipmentWriteError err, st)
      | .ok false => (invalidCategory, st)
      | .ok true =>
        match Equipment.findByIdAndUpdate rt now st id data with
        | .error err => (equipmentWriteError err, st)
        | .ok (none, st1) =>
          ({ status := 404, success := some false, message := some "Equipment not found" },
            st1)
        | .ok (some equipment, st1) =>
          ({ success := some true, data := some (populateName st1 equipment) }, st1) := rfl

/-- **C12.** Every storage error raised in the four write routes is shaped as
the spec says, and the store is left as it was: in `createEquipment` (POST
equipment) and the PUT equipment handler, whether the category lookup or the
write itself raised it, and in the POST and PUT category handlers. A validation
failure gives 400, `success: false` and exactly the error's field messages; a
uniqueness conflict gives 400, the fixed message and the single entry
`errors.name`; any other error gives 500 with the generic message. -/
theorem write_errors_shaped (rt : Runtime) (validators : CategoryValidators)
    (newId : ObjectId) (now : Nat) (st : Store) (err : StoreError) :
    (∀ (data : EquipmentBody) (imageUrl : Option String),
      (categoryCheck rt st (withImage data imageUrl) = .error err ∨
        (categoryCheck rt st (withImage data imageUrl) = .ok true ∧
          Equipment.create rt newId now st (withImage data imageUrl) = .error err)) →
      createEquipment rt newId now st data imageUrl =
        (shapedError "Equipment with this name already exists"
          "Equipment name must be unique" err, st)) ∧
    (∀ (id : String) (data : EquipmentBody),
      (categoryCheck rt st data = .error err ∨
        (categoryCheck rt st data = .ok true ∧
          Equipment.findByIdAndUpdate rt now st id data = .error err)) →
      putEquipment rt now st id data =
        (shapedError "Equipment with this name already exists"
          "Equipment name must be unique" err, st)) ∧
    (∀ (body : CategoryBody),
      Category.create rt validators newId now st body = .error err →
      postCategory rt validators newId now st body =
        (shapedError "Category with this name already exists"
          "Category name must be unique" err, st)) ∧
    (∀ (id : String) (body : CategoryBody),
      Category.findByIdAndUpdate rt validators now st id body = .error err →
      putCategory rt validators now st id body =
        (shapedError "Category with this name already exists"
          "Category name must be unique" err, st)) ∧
    (∀ (fixedMessage nameMessage : String),
      (∀ errors, err = .validation errors →
        (shapedError fixedMessage nameMessage err : Response Unit) =
          { status := 400, success := some false, message := some "Validation failed",
            errors := some errors }) ∧
      (err = .duplicateKey →
        (shapedError fixedMessage nameMessage err : Response Unit) =
          { status := 400, success := some false, message := some fixedMessage,
            errors := some [("name", nameMessage)] }) ∧
      ((∀ errors, err ≠ .validation errors) → err ≠ .duplicateKey →
        (shapedError fixedMessage nameMessage err : Response Unit) =
          { status := 500, success := some false, message := some "Server error" })) := by
  refine ⟨?_, ?_, ?_, ?_, ?_⟩
  · intro data imageUrl h
    unfold createEquipment
    rcases h with h | ⟨h1, h2⟩
    · simp only [h, equipmentWriteError_eq]
    · simp only [h1, h2, equipmentWriteError_eq]
  · intro id data h
    rw [putEquipment_unfold]
    rcases h with h | ⟨h1, h2⟩
    · simp only [h, equipmentWriteError_eq]
    · simp only [h1, h2, equipmentWriteError_eq]
  · intro body h
    simp only [postCategory, h, categoryWriteError_eq]
  · intro id body h
    simp only [putCategory, h, categoryWriteError_eq]
  · intro fixedMessage nameMessage
    refine ⟨?_, ?_, ?_⟩
    · rintro errors rfl
      rfl
    · rintro rfl
      rfl
    · intro h1 h2
      cases err with
      | validation errors => exact absurd rfl (h1 errors)
      | duplicateKey => exact absurd rfl h2
      | other m => rfl

/-- Witness for C12: on the sample store, a second "Forceps" is a uniqueness
conflict, a body without a description is a validation failure, and a
`categoryId` that is no ObjectId raises a cast error in the lookup. -/
theorem write_errors_shaped_witness :
    createEquipment sampleRuntime 33 9 sampleStore { sampleBody with name := some "Forceps" }
        none =
      ({ status := 400, success := some false,
         message := some "Equipment with this name already exists",
         errors := some [("name", "Equipment name must be unique")] }, sampleStore) ∧
    createEquipment sampleRuntime 33 9 sampleStore { sampleBody with description := none }
        none =
      ({ status := 400, success := some false, message := some "Validation failed",
         errors := some [("description", "Equipment description is required")] },
       sampleStore) ∧
    putEquipment sampleRuntime 9 sampleStore "000000000000000000000012"
        { categoryId := some "xyz" } =
      ({ status := 500, success := some false, message := some "Server error" },
       sampleStore) :=
  ⟨(write_errors_shaped sampleRuntime sampleValidators 33 9 sampleStore .duplicateKey).1
      { sampleBody with name := some "Forceps" } none (Or.inr ⟨rfl, rfl⟩),
   (write_errors_shaped sampleRuntime sampleValidators 33 9 sampleStore
      (.validation [("description", "Equipment description is required")])).1
      { sampleBody with description := none } none (Or.inr ⟨rfl, rfl⟩),
   (write_errors_shaped sampleRuntime sampleValidators 33 9 sampleStore
      (.other "Cast to ObjectId failed")).2.1
      "000000000000000000000012" { categoryId := some "xyz" } (Or.inl rfl)⟩

/-! ## The two 500 bodies of equipment creation -/

theorem shapedError_500 {α : Type} (fixedMessage nameMessage : String) (err : StoreError)
    (h : (shapedError fixedMessage nameMessage err : Response α).status = 500) :
    (shapedError fixedMessage nameMessage err : Response α) =
      { status := 500, success := some false, message := some "Server error" } := by
  cases err with
  | validation errors => simp [shapedError] at h
  | duplicateKey => simp [shapedError] at h
  | other m => rfl

theorem createEquipment_500 (rt : Runtime) (newId : ObjectId) (now : Nat) (st : Store)
    (data : EquipmentBody) (imageUrl : Option String)
    (h : (createEquipment rt newId now st data imageUrl).1.status = 500) :
    (createEquipment rt newId now st data imageUrl).1 =
      { status := 500, success := some false, message := some "Server error" } := by
  unfold createEquipment at h ⊢
  simp only at h ⊢
  split at h
  · rw [equipmentWriteError_eq] at h ⊢
    exact shapedError_500 _ _ _ h
  · simp [invalidCategory] at h
  · split at h
    · rw [equipmentWriteError_eq] at h ⊢
      exact shapedError_500 _ _ _ h
    · simp [createdResponse] at h

/-- Counterexample to C13 as stated: two requests to `POST /api/equipment` on
the sample store that both fail with an error that is neither a validation
failure nor a uniqueness conflict (a cast error inside `createEquipment`, a
`TypeError` before it) get different 500 bodies, and the second carries the
error's message in `error`. -/
theorem post_500_bodies_differ :
    (postEquipment sampleRuntime sampleHost 33 9 sampleStore
      { body := { sampleBody with categoryId := some "xyz" } }).1 =
      { status := 500, success := some false, message := some "Server error" } ∧
    (postEquipment sampleRuntime sampleHost 33 9 sampleStore
      { body := sampleBody, imageNotString := true }).1 =
      { status := 500, success := some false, message := some "Request failed",
        error := some "equipmentData.image.startsWith is not a function" } ∧
    (postEquipment sampleRuntime sampleHost 33 9 sampleStore
      { body := { sampleBody with categoryId := some "xyz" } }).1 ≠
    (postEquipment sampleRuntime sampleHost 33 9 sampleStore
      { body := sampleBody, imageNotString := true }).1 := by
  decide

/-- **C13 (amended).** A request to `POST /api/equipment` answered 500 gets one
of two bodies. When the failure is raised inside `createEquipment` (the image
value of the body is a string or absent), the body is the generic
`{ success: false, message: 'Server error' }`, the same for any two such
requests whatever the error was. Otherwise the outer `catch` answered: the
image value is not a string, and the body is `message: 'Request failed'`
together with the error's message under `error`. -/
theorem post_500_bodies (rt : Runtime) (host : MediaHost) (newId : ObjectId) (now : Nat)
    (st : Store) (req : CreateRequest) :
    (req.imageNotString = false →
      (postEquipment rt host newId now st req).1.status = 500 →
      (postEquipment rt host newId now st req).1 =
        { status := 500, success := some false, message := some "Server error" }) ∧
    (∀ (rt2 : Runtime) (host2 : MediaHost) (newId2 : ObjectId) (now2 : Nat) (st2 : Store)
        (req2 : CreateRequest),
      req.imageNotString = false → req2.imageNotString = false →
      (postEquipment rt host newId now st req).1.status = 500 →
      (postEquipment rt2 host2 newId2 now2 st2 req2).1.status = 500 →
      (postEquipment rt host newId now st req).1 =
        (postEquipment rt2 host2 newId2 now2 st2 req2).1) ∧
    ((postEquipment rt host newId now st req).1.status = 500 →
      (postEquipment rt host newId now st req).1 ≠
        { status := 500, success := some false, message := some "Server error" } →
      req.imageNotString = true ∧
      (postEquipment rt host newId now st req).1 =
        requestFailed "equipmentData.image.startsWith is not a function") := by
  have inner : ∀ (rt : Runtime) (host : MediaHost) (newId : ObjectId) (now : Nat)
      (st : Store) (req : CreateRequest),
      (postEquipment rt host newId now st req).1 =
          requestFailed "equipmentData.image.startsWith is not a function" ∧
        req.imageNotString = true ∨
      ∃ imageUrl, (postEquipment rt host newId now st req).1 =
        (createEquipment rt newId now st req.body imageUrl).1 := by
    intro rt host newId now st req
    unfold postEquipment
    simp only
    split
    · rename_i hcond
      left
      simp only [Bool.and_eq_true] at hcond
      exact ⟨rfl, hcond.2⟩
    · right
      exact ⟨_, rfl⟩
  have generic : ∀ (rt : Runtime) (host : MediaHost) (newId : ObjectId) (now : Nat)
      (st : Store) (req : CreateRequest), req.imageNotString = false →
      (postEquipment rt host newId now st req).1.status = 500 →
      (postEquipment rt host newId now st req).1 =
        { status := 500, success := some false, message := some "Server error" } := by
    intro rt host newId now st req hns h500
    rcases inner rt host newId now st req with ⟨_, h⟩ | ⟨imageUrl, h⟩
    · rw [hns] at h
      cases h
    · rw [h] at h500 ⊢
      exact createEquipment_500 rt newId now st req.body imageUrl h500
  refine ⟨generic rt host newId now st req, ?_, ?_⟩
  · intro rt2 host2 newId2 now2 st2 req2 h1 h2 h3 h4
    rw [generic rt host newId now st req h1 h3, generic rt2 host2 newId2 now2 st2 req2 h2 h4]
  · intro h500 hne
    rcases inner rt host newId now st req with ⟨h, hns⟩ | ⟨imageUrl, h⟩
    · exact ⟨hns, h⟩
    · exfalso
      apply hne
      rw [h] at h500 ⊢
      exact createEquipment_500 rt newId now st req.body imageUrl h500

/-- Witness for C13 (amended): the two failing requests of the sample store. -/
theorem post_500_bodies_witness :
    (postEquipment sampleRuntime sampleHost 33 9 sampleStore
      { body := { sampleBody with categoryId := some "xyz" } }).1 =
      { status := 500, success := some false, message := some "Server error" } ∧
    (postEquipment sampleRuntime sampleHost 33 9 sampleStore
      { body := sampleBody, imageNotString := true }).1 =
      requestFailed "equipmentData.image.startsWith is not a function" :=
  ⟨(post_500_bodies sampleRuntime sampleHost 33 9 sampleStore
      { body := { sampleBody with categoryId := some "xyz" } }).1 (by decide) (by decide),
   ((post_500_bodies sampleRuntime sampleHost 33 9 sampleStore
      { body := sampleBody, imageNotString := true }).2.2 (by decide) (by decide)).2⟩

/-! ## The success field -/

theorem plain_serverError {α : Type} : PlainFailures (serverError : Response α) := by
  simp [PlainFailures, serverError]

theorem plain_plainMessage {α : Type} (status : Nat) (message : String)
    (h : status ≠ 200 ∧ status ≠ 201) :
    PlainFailures (plainMessage status message : Response α) := by
  simp [PlainFailures, plainMessage, h.1, h.2]

theorem flagged_shapedError {α : Type} (fixedMessage nameMessage : String)
    (err : StoreError) :
    FlaggedFailures (shapedError fixedMessage nameMessage err : Response α) := by
  cases err <;> simp [FlaggedFailures, shapedError]

theorem flagged_createEquipment (rt : Runtime) (newId : ObjectId) (now : Nat) (st : Store)
    (data : EquipmentBody) (imageUrl : Option String) :
    FlaggedFailures (createEquipment rt newId now st data imageUrl).1 := by
  unfold createEquipment
  simp only
  split
  · rw [equipmentWriteError_eq]
    exact flagged_shapedError _ _ _
  · simp [FlaggedFailures, invalidCategory]
  · split
    · rw [equipmentWriteError_eq]
      exact flagged_shapedError _ _ _
    · simp [FlaggedFailures, createdResponse]

theorem flagged_postEquipment (rt : Runtime) (host : MediaHost) (newId : ObjectId)
    (now : Nat) (st : Store) (req : CreateRequest) :
    FlaggedFailures (postEquipment rt host newId now st req).1 := by
  unfold postEquipment
  simp only
  split
  · simp [FlaggedFailures, requestFailed]
  · exact flagged_createEquipment _ _ _ _ _ _

theorem flagged_putEquipment (rt : Runtime) (now : Nat) (st : Store) (id : String)
    (data : EquipmentBody) : FlaggedFailures (putEquipment rt now st id data).1 := by
  rw [putEquipment_unfold]
  split
  · rw [equipmentWriteError_eq]
    exact flagged_shapedError _ _ _
  · simp [FlaggedFailures, invalidCategory]
  · split
    · rw [equipmentWriteError_eq]
      exact flagged_shapedError _ _ _
    · simp [FlaggedFailures]
    · simp [FlaggedFailures]

theorem flagged_postTestUpload (host : MediaHost) (files : Option (List UploadedFile)) :
    FlaggedFailures (postTestUpload host files).1 := by
  unfold postTestUpload
  split
  · simp [FlaggedFailures]
  · simp [FlaggedFailures]
  · split
    · simp [FlaggedFailures]
    · simp only
      split
      · simp [FlaggedFailures]
      · simp [FlaggedFailures, requestFailed]

theorem flagged_postCategory (rt : Runtime) (validators : CategoryValidators)
    (newId : ObjectId) (now : Nat) (st : Store) (body : CategoryBody) :
    FlaggedFailures (postCategory rt validators newId now st body).1 := by
  unfold postCategory
  split
  · rw [categoryWriteError_eq]
    exact flagged_shapedError _ _ _
  · simp [FlaggedFailures]

theorem flagged_putCategory (rt : Runtime) (validators : CategoryValidators) (now : Nat)
    (st : Store) (id : String) (body : CategoryBody) :
    FlaggedFailures (putCategory rt validators now st id body).1 := by
  unfold putCategory
  split
  · rw [categoryWriteError_eq]
    exact flagged_shapedError _ _ _
  · simp [FlaggedFailures]
  · simp [FlaggedFailures]

theorem plain_getPublic (rt : Runtime) (st : Store) (req : Query) :
    PlainFailures (getPublic rt st req) := by
  unfold getPublic
  simp only
  split
  · exact plain_serverError
  · split
    · exact plain_serverError
    · simp [PlainFailures, listResponse]

theorem plain_getEquipmentList (rt : Runtime) (st : Store) (req : Query) :
    PlainFailures (getEquipmentList rt st req) := by
  unfold getEquipmentList
  simp only
  split
  · exact plain_serverError
  · split
    · exact plain_serverError
    · simp [PlainFailures, listResponse]

theorem plain_getFeatured (rt : Runtime) (st : Store) (req : Query) :
    PlainFailures (getFeatured rt st req) := by
  unfold getFeatured
  simp only
  split
  · exact plain_serverError
  · simp [PlainFailures]

theorem plain_getSearch (rt : Runtime) (st : Store) (req : Query) :
    PlainFailures (getSearch rt st req) := by
  unfold getSearch
  simp only
  split
  · simp [PlainFailures]
  · split
    · exact plain_serverError
    · simp [PlainFailures]

theorem plain_getPublicById (rt : Runtime) (st : Store) (id : String) :
    PlainFailures (getPublicById rt st id) := by
  unfold getPublicById
  split
  · exact plain_serverError
  · split
    · exact plain_plainMessage _ _ (by decide)
    · simp [PlainFailures]

theorem plain_getEquipmentById (rt : Runtime) (st : Store) (id : String) :
    PlainFailures (getEquipmentById rt st id) := by
  unfold getEquipmentById
  split
  · exact plain_serverError
  · split
    · exact plain_plainMessage _ _ (by decide)
    · simp [PlainFailures]

theorem plain_deleteEquipment (rt : Runtime) (now : Nat) (st : Store) (id : String) :
    PlainFailures (deleteEquipment rt now st id).1 := by
  unfold deleteEquipment
  split
  · exact plain_serverError
  · exact plain_plainMessage _ _ (by decide)
  · simp [PlainFailures]

theorem plain_getEquipmentStats (rt : Runtime) (st : Store) :
    PlainFailures (getEquipmentStats rt st) := by
  unfold getEquipmentStats
  simp only
  split
  · exact plain_serverError
  · simp [PlainFailures]

theorem plain_getCategoryById (rt : Runtime) (st : Store) (id : String) :
    PlainFailures (getCategoryById rt st id) := by
  unfold getCategoryById
  split
  · exact plain_serverError
  · exact plain_plainMessage _ _ (by decide)
  · simp [PlainFailures]

theorem plain_deleteCategory (rt : Runtime) (now : Nat) (st : Store) (id : String) :
    PlainFailures (deleteCategory rt now st id).1 := by
  unfold deleteCategory
  split
  · exact plain_serverError
  · split
    · simp [PlainFailures]
    · split
      · exact plain_serverError
      · simp [PlainFailures]
      · simp [PlainFailures]

theorem plain_getCategoryEquipment (rt : Runtime) (st : Store) (id : String)
    (req : Query) : PlainFailures (getCategoryEquipment rt st id req) := by
  unfold getCategoryEquipment
  simp only
  split
  · exact plain_serverError
  · simp [PlainFailures]
  · split
    · exact plain_serverError
    · split
      · exact plain_serverError
      · simp [PlainFailures]

theorem putEquipmentRoute_envelope (rt : Runtime) (host : MediaHost) (now : Nat) (st : Store)
    (id : String) (incoming : List UploadedFile) (body : EquipmentBody) :
    FlaggedFailures (putEquipmentRoute rt host now st id incoming body).1 ∨
      ((putEquipmentRoute rt host now st id incoming body).1.success = none ∧
        ((putEquipmentRoute rt host now st id incoming body).1.status = 400 ∨
          (putEquipmentRoute rt host now st id incoming body).1.status = 500)) := by
  unfold putEquipmentRoute
  split
  · rename_i err _
    right
    cases err <;> simp [handleUploadError, plainMessage]
  · left
    exact flagged_putEquipment _ _ _ _ _
  · simp only
    split
    · right
      simp [plainMessage]
    · left
      exact flagged_putEquipment _ _ _ _ _

/-- Counterexample to C14 as stated: four failure responses on the sample
store whose bodies have no `success` field: search without a query (400), a
public lookup of an inactive document (404), the blocked category deletion
(400), and a list request that the store rejects (500). -/
theorem failure_bodies_without_success :
    ((getSearch sampleRuntime sampleStore {}).status = 400 ∧
      (getSearch sampleRuntime sampleStore {}).success = none) ∧
    ((getPublicById sampleRuntime sampleStore "000000000000000000000014").status = 404 ∧
      (getPublicById sampleRuntime sampleStore "000000000000000000000014").success = none) ∧
    ((deleteCategory sampleRuntime 9 sampleStore sampleCategoryId).1.status = 400 ∧
      (deleteCategory sampleRuntime 9 sampleStore sampleCategoryId).1.success = none) ∧
    ((getPublic sampleRuntime sampleStore { page := some "-1" }).status = 500 ∧
      (getPublic sampleRuntime sampleStore { page := some "-1" }).success = none) := by
  decide

/-- **C14 (amended).** Every response with status 200 or 201 of the equipment
and category routers carries `success: true`. On every other status, the
create and update handlers (POST and PUT equipment, POST and PUT categories,
test-upload) carry `success: false`, while the read and delete routes carry no
`success` field at all, as do the two responses that the upload middleware of
PUT equipment sends itself. -/
theorem success_field (rt : Runtime) (host : MediaHost) (validators : CategoryValidators)
    (newId : ObjectId) (now : Nat) (st : Store) (req : Query) (id : String)
    (create : CreateRequest) (data : EquipmentBody) (body : CategoryBody)
    (files : Option (List UploadedFile)) (incoming : List UploadedFile) :
    (PlainFailures (getPublic rt st req) ∧
      PlainFailures (getFeatured rt st req) ∧
      PlainFailures (getPublicById rt st id) ∧
      PlainFailures (getSearch rt st req) ∧
      PlainFailures (getCategories st) ∧
      PlainFailures (getEquipmentList rt st req) ∧
      PlainFailures (getEquipmentById rt st id) ∧
      PlainFailures (deleteEquipment rt now st id).1 ∧
      PlainFailures (getEquipmentStats rt st) ∧
      PlainFailures (getCategoryList st) ∧
      PlainFailures (getCategoryById rt st id) ∧
      PlainFailures (deleteCategory rt now st id).1 ∧
      PlainFailures (getCategoryEquipment rt st id req) ∧
      PlainFailures (getCategoryStats st)) ∧
    (FlaggedFailures (postEquipment rt host newId now st create).1 ∧
      FlaggedFailures (putEquipment rt now st id data).1 ∧
      FlaggedFailures (postTestUpload host files).1 ∧
      FlaggedFailures (postCategory rt validators newId now st body).1 ∧
      FlaggedFailures (putCategory rt validators now st id body).1) ∧
    (FlaggedFailures (putEquipmentRoute rt host now st id incoming data).1 ∨
      ((putEquipmentRoute rt host now st id incoming data).1.success = none ∧
        ((putEquipmentRoute rt host now st id incoming data).1.status = 400 ∨
          (putEquipmentRoute rt host now st id incoming data).1.status = 500))) := by
  refine ⟨⟨plain_getPublic _ _ _, plain_getFeatured _ _ _, plain_getPublicById _ _ _,
    plain_getSearch _ _ _, ?_, plain_getEquipmentList _ _ _, plain_getEquipmentById _ _ _,
    plain_deleteEquipment _ _ _ _, plain_getEquipmentStats _ _, ?_,
    plain_getCategoryById _ _ _, plain_deleteCategory _ _ _ _,
    plain_getCategoryEquipment _ _ _ _, ?_⟩,
    ⟨flagged_postEquipment _ _ _ _ _ _, flagged_putEquipment _ _ _ _ _,
      flagged_postTestUpload _ _, flagged_postCategory _ _ _ _ _ _,
      flagged_putCategory _ _ _ _ _ _⟩,
    putEquipmentRoute_envelope _ _ _ _ _ _ _⟩
  · simp [PlainFailures, getCategories]
  · simp [PlainFailures, getCategoryList]
  · simp [PlainFailures, getCategoryStats]

/-! ## Images on creation -/

theorem create_image (rt : Runtime) (newId : ObjectId) (now : Nat) (st st1 : Store)
    (b : EquipmentBody) (doc : Equipment)
    (h : Equipment.create rt newId now st b = .ok (doc, st1)) :
    doc.image = b.image.getD "" ∧ st1.equipment = st.equipment ++ [doc] ∧
      st1.categories = st.categories ∧
      (∀ c, b.categoryId = some c → rt.castObjectId c = some doc.categoryId) := by
  unfold Equipment.create at h
  simp only at h
  split at h
  · cases h
  · rename_i herr
    split at h
    · cases h
    · simp only [Except.ok.injEq, Prod.mk.injEq] at h
      obtain ⟨hdoc, hst⟩ := h
      refine ⟨?_, ?_, ?_, ?_⟩
      · rw [← hdoc]
        simp [Equipment.preSave, Equipment.assign]
      · rw [← hst, ← hdoc]
      · rw [← hst]
      · intro c hc
        simp only [hc, ne_eq, List.append_eq_nil, not_and, Decidable.not_not] at herr
        have hcast : failIf (rt.castObjectId c).isNone "categoryId"
            "Cast to ObjectId failed" = [] := by
          by_contra hne
          have := herr
          simp_all
        have hsome : (rt.castObjectId c).isNone = false := by
          cases hv : (rt.castObjectId c).isNone
          · rfl
          · rw [hv] at hcast
            simp [failIf] at hcast
        obtain ⟨o, ho⟩ : ∃ o, rt.castObjectId c = some o := by
          cases hv : rt.castObjectId c with
          | none => rw [hv] at hsome; simp at hsome
          | some o => exact ⟨o, rfl⟩
        rw [← hdoc, ho]
        simp [Equipment.preSave, Equipment.assign, hc, ho]

theorem createEquipment_data (rt : Runtime) (newId : ObjectId) (now : Nat) (st : Store)
    (data : EquipmentBody) (imageUrl : Option String) (v : EquipmentView)
    (h : (createEquipment rt newId now st data imageUrl).1.data = some v) :
    (createEquipment rt newId now st data imageUrl).1.status = 201 ∧
      v.doc.image = (withImage data imageUrl).image.getD "" ∧
      (createEquipment rt newId now st data imageUrl).2.equipment = st.equipment ++ [v.doc] ∧
      categoryCheck rt st (withImage data imageUrl) = .ok true ∧
      (∀ c, (withImage data imageUrl).categoryId = some c →
        rt.castObjectId c = some v.doc.categoryId) := by
  unfold createEquipment at h ⊢
  simp only at h ⊢
  split at h
  · rename_i err _
    cases err <;> simp [equipmentWriteError] at h
  · simp [invalidCategory] at h
  · rename_i hcheck
    split at h
    · rename_i err _
      cases err <;> simp [equipmentWriteError] at h
    · rename_i equipment st1 hcreate
      simp only [createdResponse, Option.some.injEq] at h
      subst h
      obtain ⟨h1, h2, _, h4⟩ := create_image rt newId now st st1 _ equipment hcreate
      simp only [hcheck, hcreate]
      exact ⟨rfl, h1, h2, trivial, h4⟩

theorem postEquipment_calls (rt : Runtime) (host : MediaHost) (newId : ObjectId) (now : Nat)
    (st : Store) (req : CreateRequest) :
    (postEquipment rt host newId now st req).2.2 = (uploadFirstImage host req.files).2 := by
  unfold postEquipment
  simp only
  split <;> rfl

theorem uploadFirstImage_calls (host : MediaHost) (files : Option (List UploadedFile)) :
    (uploadFirstImage host files).2 =
      match files.bind (List.find? (fun file => startsWith file.mimetype "image/")) with
      | some imageFile => [{ file := imageFile, folder := "hafak-surgicals" }]
      | none => [] := by
  unfold uploadFirstImage
  cases files with
  | none => rfl
  | some files =>
    simp only [Option.bind]
    cases hfind : files.find? (fun file => startsWith file.mimetype "image/") with
    | none => rfl
    | some imageFile =>
      simp only
      split <;> rfl

theorem uploadFirstImage_failed (host : MediaHost) (files : List UploadedFile)
    (imageFile : UploadedFile) (e : String)
    (hfind : files.find? (fun file => startsWith file.mimetype "image/") = some imageFile)
    (hfail : host { file := imageFile, folder := "hafak-surgicals" } = .error e) :
    uploadFirstImage host (some files) =
      (none, [{ file := imageFile, folder := "hafak-surgicals" }]) := by
  simp only [uploadFirstImage, hfind, hfail]

theorem uploadFirstImage_ok (host : MediaHost) (files : List UploadedFile)
    (imageFile : UploadedFile) (url : String)
    (hfind : files.find? (fun file => startsWith file.mimetype "image/") = some imageFile)
    (hok : host { file := imageFile, folder := "hafak-surgicals" } = .ok url) :
    uploadFirstImage host (some files) =
      (some url, [{ file := imageFile, folder := "hafak-surgicals" }]) := by
  simp only [uploadFirstImage, hfind, hok]

theorem postEquipment_not_uploaded (rt : Runtime) (host : MediaHost) (newId : ObjectId)
    (now : Nat) (st : Store) (req : CreateRequest) (calls : List UploadCall)
    (h : uploadFirstImage host req.files = (none, calls)) :
    postEquipment rt host newId now st req =
      if req.imageNotString then
        (requestFailed "equipmentData.image.startsWith is not a function", st, calls)
      else
        ((createEquipment rt newId now st req.body
            (match req.body.image with
              | some image => if image ≠ "" && startsWith image "http" then some image else none
              | none => none)).1,
          (createEquipment rt newId now st req.body
            (match req.body.image with
              | some image => if image ≠ "" && startsWith image "http" then some image else none
              | none => none)).2, calls) := by
  unfold postEquipment
  simp only [h]
  cases req.imageNotString <;> simp

theorem postEquipment_uploaded (rt : Runtime) (host : MediaHost) (newId : ObjectId)
    (now : Nat) (st : Store) (req : CreateRequest) (url : String) (calls : List UploadCall)
    (h : uploadFirstImage host req.files = (some url, calls)) (hurl : url ≠ "") :
    postEquipment rt host newId now st req =
      ((createEquipment rt newId now st req.body (some url)).1,
        (createEquipment rt newId now st req.body (some url)).2, calls) := by
  unfold postEquipment
  simp only [h]
  simp [hurl]

theorem withImage_body (data : EquipmentBody) :
    (withImage data
      (match data.image with
        | some image => if image ≠ "" && startsWith image "http" then some image else none
        | none => none)).image = data.image := by
  cases himg : data.image with
  | none => simp [withImage, himg]
  | some image =>
    by_cases hne : image = ""
    · simp [withImage, hne, himg]
    · by_cases hst : startsWith image "http" = true
      · simp [withImage, hne, hst]
      · simp [withImage, hne, hst, himg]

/-- Counterexample to C15 as stated: on the sample store the upload of
`broken.png` fails, the body carries `image: "http://cdn.example/v.png"`, and
the equipment item is created with that image, not with the empty default. -/
theorem failed_upload_keeps_body_image :
    sampleHost { file := brokenImage, folder := "hafak-surgicals" } = .error "upload failed" ∧
    (postEquipment sampleRuntime sampleHost 33 9 sampleStore
      { files := some [brokenImage]
        body := { sampleBody with image := some "http://cdn.example/v.png" } }).1.status = 201 ∧
    (postEquipment sampleRuntime sampleHost 33 9 sampleStore
      { files := some [brokenImage]
        body := { sampleBody with image := some "http://cdn.example/v.png" } }).1.data.map
        (fun v => v.doc.image) = some "http://cdn.example/v.png" ∧
    (postEquipment sampleRuntime sampleHost 33 9 sampleStore
      { files := some [brokenImage]
        body := { sampleBody with image := some "http://cdn.example/v.png" } }).1.data.map
        (fun v => v.doc.image) ≠ some "" := by
  refine ⟨rfl, ?_, ?_, ?_⟩ <;> decide

/-- **C15 (amended).** On `POST /api/equipment`, when the upload of the request's
image file to the media host fails, the failure is swallowed: the response and
the store are exactly those of the same request without files, one upload call
was made, and an item that is created has as image the `image` string of the
payload when the payload carries one, otherwise the empty default. -/
theorem failed_upload_swallowed (rt : Runtime) (host : MediaHost) (newId : ObjectId)
    (now : Nat) (st : Store) (req : CreateRequest) (files : List UploadedFile)
    (imageFile : UploadedFile) (e : String)
    (hfiles : req.files = some files)
    (hfind : files.find? (fun file => startsWith file.mimetype "image/") = some imageFile)
    (hfail : host { file := imageFile, folder := "hafak-surgicals" } = .error e) :
    (postEquipment rt host newId now st req).1 =
      (postEquipment rt host newId now st { req with files := none }).1 ∧
    (postEquipment rt host newId now st req).2.1 =
      (postEquipment rt host newId now st { req with files := none }).2.1 ∧
    (postEquipment rt host newId now st req).2.2 =
      [{ file := imageFile, folder := "hafak-surgicals" }] ∧
    (∀ v, (postEquipment rt host newId now st req).1.data = some v →
      v.doc.image = req.body.image.getD "") := by
  have h1 := postEquipment_not_uploaded rt host newId now st req _
    (by rw [hfiles]; exact uploadFirstImage_failed host files imageFile e hfind hfail)
  have h2 := postEquipment_not_uploaded rt host newId now st { req with files := none } []
    rfl
  rw [h1, h2]
  cases hns : req.imageNotString
  · simp only [Bool.false_eq_true, if_false]
    refine ⟨trivial, trivial, trivial, ?_⟩
    intro v hv
    have := (createEquipment_data rt newId now st req.body _ v hv).2.1
    rw [this, withImage_body]
  · simp only [if_true]
    refine ⟨trivial, trivial, trivial, ?_⟩
    intro v hv
    simp [requestFailed] at hv

/-- Witness for C15 (amended): the failed upload of `broken.png` with no image
in the body creates the item with the empty image. -/
theorem failed_upload_swallowed_witness :
    (postEquipment sampleRuntime sampleHost 33 9 sampleStore
        { files := some [brokenImage], body := sampleBody }).1 =
      (postEquipment sampleRuntime sampleHost 33 9 sampleStore
        { files := none, body := sampleBody }).1 ∧
    (postEquipment sampleRuntime sampleHost 33 9 sampleStore
        { files := some [brokenImage], body := sampleBody }).1.data.map (fun v => v.doc.image) =
      some "" :=
  have h := failed_upload_swallowed sampleRuntime sampleHost 33 9 sampleStore
    { files := some [brokenImage], body := sampleBody } [brokenImage] brokenImage
    "upload failed" rfl (by decide) rfl
  ⟨h.1, by decide⟩

/-! ## The file filter -/

theorem uploadAny_rejects (incoming : List UploadedFile)
    (h : ∃ f ∈ incoming, startsWith f.mimetype "image/" = false) :
    ∃ err, uploadAny incoming = .error err := by
  induction incoming with
  | nil =>
    obtain ⟨f, hf, _⟩ := h
    cases hf
  | cons file more ih =>
    unfold uploadAny
    by_cases himg : startsWith file.mimetype "image/" = true
    · simp only [fileFilter, himg, if_true]
      by_cases hsize : fileSizeLimit < file.size
      · exact ⟨.limitFileSize, by simp [hsize]⟩
      · obtain ⟨f, hf, hfn⟩ := h
        rcases List.mem_cons.mp hf with rfl | hf
        · rw [himg] at hfn
          cases hfn
        · obtain ⟨err, herr⟩ := ih ⟨f, hf, hfn⟩
          exact ⟨err, by simp [hsize, herr]⟩
    · exact ⟨.filter "Only image files are allowed!", by simp [fileFilter, himg]⟩

theorem uploadAny_images (incoming files : List UploadedFile)
    (h : uploadAny incoming = .ok files) :
    files = incoming ∧ ∀ f ∈ incoming, startsWith f.mimetype "image/" = true := by
  induction incoming generalizing files with
  | nil =>
    simp only [uploadAny, Except.ok.injEq] at h
    subst h
    simp
  | cons file more ih =>
    unfold uploadAny at h
    by_cases himg : startsWith file.mimetype "image/" = true
    · simp only [fileFilter, himg, if_true] at h
      split at h
      · cases h
      · split at h
        · cases h
        · rename_i rest hrest
          simp only [if_true, Except.ok.injEq] at h
          obtain ⟨h1, h2⟩ := ih rest hrest
          subst h
          refine ⟨by rw [h1], ?_⟩
          intro f hf
          rcases List.mem_cons.mp hf with rfl | hf
          · exact himg
          · exact h2 f hf
    · simp [fileFilter, himg] at h

theorem uploadSingle_image (incoming : List UploadedFile) (file : UploadedFile)
    (h : uploadSingle incoming = .ok (some file)) :
    startsWith file.mimetype "image/" = true := by
  unfold uploadSingle at h
  split at h
  · cases h
  · rename_i first more
    split at h
    · cases h
    · by_cases himg : startsWith first.mimetype "image/" = true
      · simp only [fileFilter, himg, if_true] at h
        split at h
        · cases h
        · split at h
          · cases h
          · simp only [if_true, Except.ok.injEq, Option.some.injEq] at h
            subst h
            exact himg
      · simp [fileFilter, himg] at h

/-- **C16.** A file whose mime type does not start with `image/` is rejected by
the file filter with an error and never reaches the media host: `upload.any()`
rejects a request that has such a file, so the POST route makes no upload
call for it; the POST handler forwards exactly the first file of the request
whose mime type starts with `image/` and makes no call when there is none; and
every upload call of the POST route, the PUT route and the test-upload route
is for a file whose mime type starts with `image/`. -/
theorem only_images_uploaded (rt : Runtime) (host : MediaHost) (newId : ObjectId)
    (now : Nat) (st : Store) :
    (∀ file : UploadedFile, startsWith file.mimetype "image/" = false →
      fileFilter file = .error "Only image files are allowed!") ∧
    (∀ (incoming : List UploadedFile) (body : EquipmentBody) (imageNotString : Bool),
      (∃ f ∈ incoming, startsWith f.mimetype "image/" = false) →
      ∃ err, uploadAny incoming = .error err ∧
        postEquipmentRoute rt host newId now st (some incoming) body imageNotString =
          .error err) ∧
    (∀ req : CreateRequest,
      (postEquipment rt host newId now st req).2.2 =
        match req.files.bind (List.find? (fun file => startsWith file.mimetype "image/")) with
        | some imageFile => [{ file := imageFile, folder := "hafak-surgicals" }]
        | none => []) ∧
    (∀ (incoming : Option (List UploadedFile)) (body : EquipmentBody) (imageNotString : Bool)
        (result : Response EquipmentView × Store × List UploadCall),
      postEquipmentRoute rt host newId now st incoming body imageNotString = .ok result →
      ∀ call ∈ result.2.2, startsWith call.file.mimetype "image/" = true) ∧
    (∀ (id : String) (incoming : List UploadedFile) (body : EquipmentBody),
      ∀ call ∈ (putEquipmentRoute rt host now st id incoming body).2.2,
        startsWith call.file.mimetype "image/" = true) ∧
    (∀ (files : Option (List UploadedFile)),
      ∀ call ∈ (postTestUpload host files).2,
        startsWith call.file.mimetype "image/" = true) := by
  have hpost : ∀ req : CreateRequest,
      (postEquipment rt host newId now st req).2.2 =
        match req.files.bind (List.find? (fun file => startsWith file.mimetype "image/")) with
        | some imageFile => [{ file := imageFile, folder := "hafak-surgicals" }]
        | none => [] := by
    intro req
    rw [postEquipment_calls, uploadFirstImage_calls]
  have hpostimg : ∀ req : CreateRequest, ∀ call ∈ (postEquipment rt host newId now st req).2.2,
      startsWith call.file.mimetype "image/" = true := by
    intro req call hcall
    rw [hpost] at hcall
    split at hcall
    · rename_i imageFile hbind
      simp only [List.mem_singleton] at hcall
      subst hcall
      cases hfiles : req.files with
      | none => rw [hfiles] at hbind; cases hbind
      | some files =>
        rw [hfiles] at hbind
        have := List.find?_some (show files.find? _ = some imageFile from hbind)
        simpa using this
    · cases hcall
  refine ⟨?_, ?_, hpost, ?_, ?_, ?_⟩
  · intro file h
    simp [fileFilter, h]
  · intro incoming body imageNotString h
    obtain ⟨err, herr⟩ := uploadAny_rejects incoming h
    exact ⟨err, herr, by simp [postEquipmentRoute, herr]⟩
  · intro incoming body imageNotString result h
    unfold postEquipmentRoute at h
    split at h
    · simp only [Except.ok.injEq] at h
      subst h
      exact hpostimg _
    · split at h
      · cases h
      · simp only [Except.ok.injEq] at h
        subst h
        exact hpostimg _
  · intro id incoming body call hcall
    unfold putEquipmentRoute at hcall
    split at hcall
    · cases hcall
    · cases hcall
    · rename_i file hsingle
      have himg := uploadSingle_image incoming file hsingle
      simp only at hcall
      split at hcall <;>
        (simp only [List.mem_singleton] at hcall
         subst hcall
         exact himg)
  · intro files call hcall
    unfold postTestUpload at hcall
    split at hcall
    · cases hcall
    · cases hcall
    · rename_i file _
      split at hcall
      · cases hcall
      · rename_i himg
        simp only at hcall
        split at hcall <;>
          (simp only [List.mem_singleton] at hcall
           subst hcall
           simpa using himg)

/-- Witness for C16: a request with an image and a text file is rejected by
`upload.any()`; from files `[text, image]` the handler forwards the image
alone. -/
theorem only_images_uploaded_witness :
    (∃ err, uploadAny [sampleImage, sampleText] = .error err ∧
        postEquipmentRoute sampleRuntime sampleHost 33 9 sampleStore
          (some [sampleImage, sampleText]) sampleBody false = .error err) ∧
    (postEquipment sampleRuntime sampleHost 33 9 sampleStore
        { files := some [sampleText, sampleImage], body := sampleBody }).2.2 =
      [{ file := sampleImage, folder := "hafak-surgicals" }] :=
  ⟨(only_images_uploaded sampleRuntime sampleHost 33 9 sampleStore).2.1
      [sampleImage, sampleText] sampleBody false ⟨sampleText, by decide, by decide⟩,
   (only_images_uploaded sampleRuntime sampleHost 33 9 sampleStore).2.2.1
      { files := some [sampleText, sampleImage], body := sampleBody }⟩

/-! ## Image resolution on creation -/

/-- **C17.** On `POST /api/equipment`: when the request's image file is uploaded
and the media host returns a (non-empty) URL, one upload call is made and an
item that is created has that URL as image, whatever `image` the payload
holds; when no image file is present and the payload's `image` is a string
starting with `http`, no upload call is made and an item that is created has
that string as image. In both cases the created item is the one added to the
store. -/
theorem image_resolution (rt : Runtime) (host : MediaHost) (newId : ObjectId) (now : Nat)
    (st : Store) (req : CreateRequest) :
    (∀ (files : List UploadedFile) (imageFile : UploadedFile) (url : String),
      req.files = some files →
      files.find? (fun file => startsWith file.mimetype "image/") = some imageFile →
      host { file := imageFile, folder := "hafak-surgicals" } = .ok url → url ≠ "" →
      (postEquipment rt host newId now st req).2.2 =
        [{ file := imageFile, folder := "hafak-surgicals" }] ∧
      (postEquipment rt host newId now st req).1 =
        (createEquipment rt newId now st req.body (some url)).1 ∧
      ∀ v, (postEquipment rt host newId now st req).1.data = some v →
        v.doc.image = url ∧
        (postEquipment rt host newId now st req).2.1.equipment = st.equipment ++ [v.doc]) ∧
    (∀ (image : String),
      req.files.bind (List.find? (fun file => startsWith file.mimetype "image/")) = none →
      req.imageNotString = false → req.body.image = some image →
      startsWith image "http" = true →
      (postEquipment rt host newId now st req).2.2 = [] ∧
      ∀ v, (postEquipment rt host newId now st req).1.data = some v →
        v.doc.image = image ∧
        (postEquipment rt host newId now st req).2.1.equipment = st.equipment ++ [v.doc]) := by
  constructor
  · intro files imageFile url hfiles hfind hok hurl
    have h := postEquipment_uploaded rt host newId now st req url _
      (by rw [hfiles]; exact uploadFirstImage_ok host files imageFile url hfind hok) hurl
    rw [h]
    refine ⟨rfl, rfl, ?_⟩
    intro v hv
    have hd := createEquipment_data rt newId now st req.body (some url) v hv
    refine ⟨?_, hd.2.2.1⟩
    rw [hd.2.1]
    simp [withImage, hurl]
  · intro image hnone hns himg hstarts
    have hup : uploadFirstImage host req.files = (none, []) := by
      unfold uploadFirstImage
      cases hfiles : req.files with
      | none => rfl
      | some files =>
        rw [hfiles] at hnone
        have hfind : files.find? (fun file => startsWith file.mimetype "image/") = none :=
          hnone
        simp only [hfind]
    have h := postEquipment_not_uploaded rt host newId now st req [] hup
    rw [h, hns]
    simp only [Bool.false_eq_true, if_false]
    refine ⟨trivial, ?_⟩
    intro v hv
    have hd := createEquipment_data rt newId now st req.body _ v hv
    refine ⟨?_, hd.2.2.1⟩
    rw [hd.2.1, withImage_body, himg]
    rfl

/-- Witness for C17: on the sample store, an uploaded `viewer.png` gives the
host's URL although the body names another image, and a JSON request with an
`http` image keeps it without any upload call. -/
theorem image_resolution_witness :
    ((postEquipment sampleRuntime sampleHost 33 9 sampleStore
        { files := some [sampleImage]
          body := { sampleBody with image := some "http://cdn.example/v.png" } }).2.2 =
        [{ file := sampleImage, folder := "hafak-surgicals" }] ∧
      (postEquipment sampleRuntime sampleHost 33 9 sampleStore
        { files := some [sampleImage]
          body := { sampleBody with image := some "http://cdn.example/v.png" } }).1.data.map
          (fun v => v.doc.image) =
        some "https://media.example/hafak-surgicals/viewer.png") ∧
    ((postEquipment sampleRuntime sampleHost 33 9 sampleStore
        { body := { sampleBody with image := some "http://cdn.example/v.png" } }).2.2 = [] ∧
      (postEquipment sampleRuntime sampleHost 33 9 sampleStore
        { body := { sampleBody with image := some "http://cdn.example/v.png" } }).1.data.map
          (fun v => v.doc.image) = some "http://cdn.example/v.png") :=
  ⟨⟨((image_resolution sampleRuntime sampleHost 33 9 sampleStore
        { files := some [sampleImage]
          body := { sampleBody with image := some "http://cdn.example/v.png" } }).1
        [sampleImage] sampleImage "https://media.example/hafak-surgicals/viewer.png"
        rfl (by decide) rfl (by decide)).1, by decide⟩,
   ⟨((image_resolution sampleRuntime sampleHost 33 9 sampleStore
        { body := { sampleBody with image := some "http://cdn.example/v.png" } }).2
        "http://cdn.example/v.png" rfl rfl rfl (by decide)).1, by decide⟩⟩

/-! ## The category reference of equipment writes -/

theorem withImage_categoryId (data : EquipmentBody) (imageUrl : Option String) :
    (withImage data imageUrl).categoryId = data.categoryId := by
  unfold withImage
  split
  · split <;> rfl
  · rfl

theorem categoryCheck_cast (rt : Runtime) (st : Store) (data : EquipmentBody) (c : String)
    (o : ObjectId) (hc : data.categoryId = some c) (hne : c ≠ "")
    (hcast : rt.castObjectId c = some o) :
    categoryCheck rt st data = .ok (st.categories.find? (fun x => x._id == o)).isSome := by
  simp only [categoryCheck, hc, hne, if_false, Category.findById, hcast]
  rfl

theorem categoryCheck_nocast (rt : Runtime) (st : Store) (data : EquipmentBody) (c : String)
    (hc : data.categoryId = some c) (hne : c ≠ "") (hcast : rt.castObjectId c = none) :
    categoryCheck rt st data = .error (.other "Cast to ObjectId failed") := by
  simp only [categoryCheck, hc, hne, if_false, Category.findById, hcast]
  rfl

theorem categoryCheck_true (rt : Runtime) (st : Store) (data : EquipmentBody) (c : String)
    (hc : data.categoryId = some c) (hne : c ≠ "")
    (h : categoryCheck rt st data = .ok true) :
    ∃ o, rt.castObjectId c = some o ∧ ∃ cat ∈ st.categories, cat._id = o := by
  cases hcast : rt.castObjectId c with
  | none =>
    rw [categoryCheck_nocast rt st data c hc hne hcast] at h
    cases h
  | some o =>
    rw [categoryCheck_cast rt st data c o hc hne hcast] at h
    simp only [Except.ok.injEq] at h
    obtain ⟨cat, hcat⟩ := Option.isSome_iff_exists.mp h
    refine ⟨o, rfl, cat, List.mem_of_find?_eq_some hcat, ?_⟩
    have := List.find?_some hcat
    simpa using this

theorem update_categoryId (rt : Runtime) (now : Nat) (st st1 : Store) (id : String)
    (b : EquipmentBody) (doc : Equipment)
    (h : Equipment.findByIdAndUpdate rt now st id b = .ok (some doc, st1)) :
    ∀ c o, b.categoryId = some c → rt.castObjectId c = some o → doc.categoryId = o := by
  intro c o hc ho
  unfold Equipment.findByIdAndUpdate at h
  split at h
  · cases h
  · split at h
    · cases h
    · split at h
      · cases h
      · split at h
        · cases h
        · simp only at h
          split at h
          · cases h
          · simp only [Except.ok.injEq, Prod.mk.injEq, Option.some.injEq] at h
            rw [← h.1]
            simp [Equipment.assign, hc, ho]

theorem postEquipment_cases (rt : Runtime) (host : MediaHost) (newId : ObjectId) (now : Nat)
    (st : Store) (req : CreateRequest) :
    ((postEquipment rt host newId now st req).1 =
        requestFailed "equipmentData.image.startsWith is not a function" ∧
      (postEquipment rt host newId now st req).2.1 = st ∧ req.imageNotString = true) ∨
    ∃ imageUrl,
      (postEquipment rt host newId now st req).1 =
        (createEquipment rt newId now st req.body imageUrl).1 ∧
      (postEquipment rt host newId now st req).2.1 =
        (createEquipment rt newId now st req.body imageUrl).2 := by
  unfold postEquipment
  simp only
  split
  · rename_i hcond
    left
    simp only [Bool.and_eq_true] at hcond
    exact ⟨rfl, rfl, hcond.2⟩
  · right
    exact ⟨_, rfl, rfl⟩

/-- Counterexample to C18 as stated: on the sample store the `categoryId`
"xyz" matches no category, yet the create and the update request that carry
it are answered 500 'Server error', not 400 'Invalid category'. -/
theorem malformed_category_is_500 :
    (∀ cat ∈ sampleStore.categories, sampleRuntime.castObjectId "xyz" ≠ some cat._id) ∧
    (postEquipment sampleRuntime sampleHost 33 9 sampleStore
      { body := { sampleBody with categoryId := some "xyz" } }).1.status = 500 ∧
    (postEquipment sampleRuntime sampleHost 33 9 sampleStore
      { body := { sampleBody with categoryId := some "xyz" } }).1.message =
        some "Server error" ∧
    (putEquipment sampleRuntime 9 sampleStore "000000000000000000000012"
      { categoryId := some "xyz" }).1.status = 500 := by
  decide

/-- **C18 (amended).** For a create or update request carrying a non-empty
`categoryId`: if it is a well-formed id (it casts to an ObjectId) that no
category has, the response is 400 'Invalid category' with an
`errors.categoryId` entry; if it is not a well-formed id, the lookup throws
and the response is 500 'Server error'; in both cases the store is unchanged.
(On the create route this is for a request that reaches `createEquipment`: its
`image` value is a string or absent.) Consequently every equipment item
created or updated with a non-empty `categoryId` references a category of the
store. -/
theorem unknown_category_rejected (rt : Runtime) (newId : ObjectId) (now : Nat) (st : Store)
    (c : String) (hne : c ≠ "") :
    (∀ o, rt.castObjectId c = some o → (∀ cat ∈ st.categories, cat._id ≠ o) →
      (∀ data imageUrl, data.categoryId = some c →
        createEquipment rt newId now st data imageUrl = (invalidCategory, st)) ∧
      (∀ (host : MediaHost) (req : CreateRequest), req.body.categoryId = some c →
        req.imageNotString = false →
        (postEquipment rt host newId now st req).1 = invalidCategory ∧
        (postEquipment rt host newId now st req).2.1 = st) ∧
      (∀ id data, data.categoryId = some c →
        putEquipment rt now st id data = (invalidCategory, st))) ∧
    (rt.castObjectId c = none →
      (∀ data imageUrl, data.categoryId = some c →
        createEquipment rt newId now st data imageUrl =
          ({ status := 500, success := some false, message := some "Server error" }, st)) ∧
      (∀ id data, data.categoryId = some c →
        putEquipment rt now st id data =
          ({ status := 500, success := some false, message := some "Server error" }, st))) ∧
    (∀ data imageUrl v, data.categoryId = some c →
      (createEquipment rt newId now st data imageUrl).1.data = some v →
      ∃ cat ∈ st.categories, cat._id = v.doc.categoryId) ∧
    (∀ id data v, data.categoryId = some c →
      (putEquipment rt now st id data).1.data = some v →
      ∃ cat ∈ st.categories, cat._id = v.doc.categoryId) := by
  refine ⟨?_, ?_, ?_, ?_⟩
  · intro o hcast hnone
    have hfind : st.categories.find? (fun x => x._id == o) = none := by
      rw [List.find?_eq_none]
      intro x hx
      simpa using hnone x hx
    have hcreate : ∀ data imageUrl, data.categoryId = some c →
        createEquipment rt newId now st data imageUrl = (invalidCategory, st) := by
      intro data imageUrl hc
      have := categoryCheck_cast rt st (withImage data imageUrl) c o
        (by rw [withImage_categoryId]; exact hc) hne hcast
      rw [hfind] at this
      simp only [createEquipment, this]
      rfl
    refine ⟨hcreate, ?_, ?_⟩
    · intro host req hc hns
      rcases postEquipment_cases rt host newId now st req with ⟨_, _, h⟩ | ⟨imageUrl, h1, h2⟩
      · rw [hns] at h
        cases h
      · rw [h1, h2, hcreate req.body imageUrl hc]
        exact ⟨rfl, rfl⟩
    · intro id data hc
      have := categoryCheck_cast rt st data c o hc hne hcast
      rw [hfind] at this
      rw [putEquipment_unfold]
      simp only [this]
      rfl
  · intro hcast
    constructor
    · intro data imageUrl hc
      have := categoryCheck_nocast rt st (withImage data imageUrl) c
        (by rw [withImage_categoryId]; exact hc) hne hcast
      simp only [createEquipment, this]
      rfl
    · intro id data hc
      have := categoryCheck_nocast rt st data c hc hne hcast
      rw [putEquipment_unfold]
      simp only [this]
      rfl
  · intro data imageUrl v hc hv
    have hd := createEquipment_data rt newId now st data imageUrl v hv
    have hc2 : (withImage data imageUrl).categoryId = some c := by
      rw [withImage_categoryId]; exact hc
    obtain ⟨o, ho, cat, hcat, hid⟩ := categoryCheck_true rt st _ c hc2 hne hd.2.2.2.1
    have := hd.2.2.2.2 c hc2
    rw [ho] at this
    simp only [Option.some.injEq] at this
    exact ⟨cat, hcat, by rw [hid, this]⟩
  · intro id data v hc hv
    rw [putEquipment_unfold] at hv
    split at hv
    · rename_i err _
      cases err <;> simp [equipmentWriteError] at hv
    · simp [invalidCategory] at hv
    · rename_i hcheck
      obtain ⟨o, ho, cat, hcat, hid⟩ := categoryCheck_true rt st data c hc hne hcheck
      split at hv
      · rename_i err _
        cases err <;> simp [equipmentWriteError] at hv
      · simp at hv
      · rename_i equipment st1 hupd
        simp only [Option.some.injEq] at hv
        subst hv
        have := update_categoryId rt now st st1 id data equipment hupd c o hc ho
        exact ⟨cat, hcat, by rw [hid]; simp [populateName, this]⟩

/-- Witness for C18 (amended): on the sample store the well-formed id
`...09` names no category. -/
theorem unknown_category_rejected_witness :
    createEquipment sampleRuntime 33 9 sampleStore
        { sampleBody with categoryId := some "000000000000000000000009" } none =
      (invalidCategory, sampleStore) ∧
    putEquipment sampleRuntime 9 sampleStore "000000000000000000000012"
        { categoryId := some "000000000000000000000009" } = (invalidCategory, sampleStore) :=
  have h := (unknown_category_rejected sampleRuntime 33 9 sampleStore
    "000000000000000000000009" (by decide)).1 9 (by decide) (by decide)
  ⟨h.1 _ none rfl, h.2.2 "000000000000000000000012" _ rfl⟩

/-! ## Categories with public listings -/

/-- **C19.** The pipeline of `GET /api/equipment/categories` counts every
equipment document that references a category, and keeps a category as soon
as some referencing document is public and some is active. On the sample
store it reports 2 for "Diagnostic Equipment" and 3 for "Surgical
Instruments", whose public and active documents number 1 and 2; on
`mixedStore` it returns "Imaging" with count 2 although no document of it is
both public and active. -/
theorem getCategories_counts_all :
    (getCategories sampleStore).data =
      some [ { _id := 2, name := "Diagnostic Equipment", description := "", icon := "",
               equipmentCount := 2 },
             { _id := 1, name := "Surgical Instruments", description := "", icon := "",
               equipmentCount := 3 } ] ∧
    (sampleStore.equipment.filter
      (fun e => e.categoryId == 2 && e.isPublic && e.isActive)).length = 1 ∧
    (sampleStore.equipment.filter
      (fun e => e.categoryId == 1 && e.isPublic && e.isActive)).length = 2 ∧
    (getCategories mixedStore).data =
      some [ { _id := 4, name := "Imaging", description := "", icon := "",
               equipmentCount := 2 } ] ∧
    (mixedStore.equipment.filter
      (fun e => e.categoryId == 4 && e.isPublic && e.isActive)).length = 0 := by
  decide

/-! ## Single-equipment lookups -/

/-- Counterexample to C20 as stated: the sample document `...14` ("Retractor")
has `isActive = false`; the protected lookup `GET /api/equipment/:id` answers
200 with the document, while the public lookup answers 404. -/
theorem inactive_found_by_id :
    (sampleStore.equipment.filter (fun e => e._id == 20)).map (fun e => e.isActive) =
      [false] ∧
    (getEquipmentById sampleRuntime sampleStore "000000000000000000000014").status = 200 ∧
    ((getEquipmentById sampleRuntime sampleStore "000000000000000000000014").data.map
      fun v => (v.doc.name, v.doc.isActive)) = some ("Retractor", false) ∧
    (getPublicById sampleRuntime sampleStore "000000000000000000000014").status = 404 := by
  decide

/-- **C20 (amended).** For a well-formed identifier: the public lookup
`GET /api/equipment/public/:id` answers 404 with the plain message and no
data exactly when no record with the id is both active and public; the
protected lookup `GET /api/equipment/:id` answers 404 with the plain message
and no data exactly when no record has the id, and otherwise answers 200 with
the record, whether it is active or not. -/
theorem lookup_not_found (rt : Runtime) (st : Store) (id : String) (o : ObjectId)
    (hid : rt.castObjectId id = some o) :
    ((∀ e ∈ st.equipment, ¬ (e._id = o ∧ e.isActive = true ∧ e.isPublic = true)) →
      getPublicById rt st id = { status := 404, message := some "Equipment not found" }) ∧
    ((∃ e ∈ st.equipment, e._id = o ∧ e.isActive = true ∧ e.isPublic = true) →
      ∃ e ∈ st.equipment, e._id = o ∧ e.isActive = true ∧ e.isPublic = true ∧
        getPublicById rt st id =
          { success := some true, data := some (populateNameDescription st e) }) ∧
    ((∀ e ∈ st.equipment, e._id ≠ o) →
      getEquipmentById rt st id = { status := 404, message := some "Equipment not found" }) ∧
    ((∃ e ∈ st.equipment, e._id = o) →
      ∃ e ∈ st.equipment, e._id = o ∧
        getEquipmentById rt st id =
          { success := some true, data := some (populateNameDescription st e) }) := by
  refine ⟨?_, ?_, ?_, ?_⟩
  · intro h
    have hfind : st.equipment.find? (fun e => e._id == o && e.isActive && e.isPublic) = none := by
      rw [List.find?_eq_none]
      intro e he
      have := h e he
      simpa [and_assoc] using this
    simp only [getPublicById, hid, hfind]
    rfl
  · rintro ⟨e, he, h1, h2, h3⟩
    have hsome : (st.equipment.find?
        (fun e => e._id == o && e.isActive && e.isPublic)).isSome = true := by
      rw [List.find?_isSome]
      exact ⟨e, he, by simp [h1, h2, h3]⟩
    obtain ⟨d, hd⟩ := Option.isSome_iff_exists.mp hsome
    have hp := List.find?_some hd
    simp only [Bool.and_eq_true, beq_iff_eq] at hp
    refine ⟨d, List.mem_of_find?_eq_some hd, hp.1.1, hp.1.2, hp.2, ?_⟩
    simp only [getPublicById, hid, hd]
  · intro h
    have hfind : st.equipment.find? (fun e => e._id == o) = none := by
      rw [List.find?_eq_none]
      intro e he
      simpa using h e he
    simp only [getEquipmentById, hid, hfind]
    rfl
  · rintro ⟨e, he, h1⟩
    have hsome : (st.equipment.find? (fun e => e._id == o)).isSome = true := by
      rw [List.find?_isSome]
      exact ⟨e, he, by simp [h1]⟩
    obtain ⟨d, hd⟩ := Option.isSome_iff_exists.mp hsome
    have hp := List.find?_some hd
    simp only [beq_iff_eq] at hp
    refine ⟨d, List.mem_of_find?_eq_some hd, hp, ?_⟩
    simp only [getEquipmentById, hid, hd]

/-- Witness for C20 (amended): on the sample store no record has the id
`...09`, and the record `...14` is inactive. -/
theorem lookup_not_found_witness :
    getPublicById sampleRuntime sampleStore "000000000000000000000014" =
      { status := 404, message := some "Equipment not found" } ∧
    getEquipmentById sampleRuntime sampleStore "000000000000000000000009" =
      { status := 404, message := some "Equipment not found" } :=
  ⟨(lookup_not_found sampleRuntime sampleStore "000000000000000000000014" 20
      (by decide)).1 (by decide),
   (lookup_not_found sampleRuntime sampleStore "000000000000000000000009" 9
      (by decide)).2.2.1 (by decide)⟩

/-! ## Category order -/

theorem strLe_total (a b : List Char) : strLe a b = true ∨ strLe b a = true := by
  induction a generalizing b with
  | nil => left; cases b <;> rfl
  | cons x xs ih =>
    cases b with
    | nil => right; rfl
    | cons y ys =>
      unfold strLe
      by_cases h1 : x.toNat < y.toNat
      · left; simp [h1]
      · by_cases h2 : y.toNat < x.toNat
        · right; simp [h2]
        · simp only [h1, h2, if_false]
          exact ih ys

theorem strLe_trans (a b c : List Char) (h1 : strLe a b = true) (h2 : strLe b c = true) :
    strLe a c = true := by
  induction a generalizing b c with
  | nil => cases c <;> rfl
  | cons x xs ih =>
    cases b with
    | nil => simp [strLe] at h1
    | cons y ys =>
      cases c with
      | nil => simp [strLe] at h2
      | cons z zs =>
        unfold strLe at h1 h2 ⊢
        by_cases hxy : x.toNat < y.toNat
        · by_cases hyz : y.toNat < z.toNat
          · have : x.toNat < z.toNat := by omega
            simp [this]
          · by_cases hzy : z.toNat < y.toNat
            · simp [hyz, hzy] at h2
            · have : x.toNat < z.toNat := by omega
              simp [this]
        · by_cases hyx : y.toNat < x.toNat
          · simp [hxy, hyx] at h1
          · simp only [hxy, hyx, if_false] at h1
            by_cases hyz : y.toNat < z.toNat
            · have : x.toNat < z.toNat := by omega
              simp [this]
            · by_cases hzy : z.toNat < y.toNat
              · simp [hyz, hzy] at h2
              · simp only [hyz, hzy, if_false] at h2
                have e1 : ¬ x.toNat < z.toNat := by omega
                have e2 : ¬ z.toNat < x.toNat := by omega
                simp only [e1, e2, if_false]
                exact ih ys zs h1 h2

theorem getCategoryList_sorted (st : Store) :
    ∃ categories, (getCategoryList st).data = some categories ∧
      (∀ c ∈ categories, c ∈ st.categories ∧ c.isActive = true) ∧
      List.Chain' (fun a b : Category => a.sortOrder < b.sortOrder ∨
        (a.sortOrder = b.sortOrder ∧ strLe a.name.data b.name.data = true)) categories := by
  have hrel : ∀ a b : Category,
      bySortOrderThenName (some a.sortOrder) a.name (some b.sortOrder) b.name = true ↔
        (a.sortOrder < b.sortOrder ∨
          (a.sortOrder = b.sortOrder ∧ strLe a.name.data b.name.data = true)) := by
    intro a b
    simp [bySortOrderThenName]
  haveI : IsTotal Category (fun a b =>
      bySortOrderThenName (some a.sortOrder) a.name (some b.sortOrder) b.name = true) :=
    ⟨fun a b => by
      rw [hrel, hrel]
      rcases lt_trichotomy a.sortOrder b.sortOrder with h | h | h
      · exact Or.inl (Or.inl h)
      · rcases strLe_total a.name.data b.name.data with hs | hs
        · exact Or.inl (Or.inr ⟨h, hs⟩)
        · exact Or.inr (Or.inr ⟨h.symm, hs⟩)
      · exact Or.inr (Or.inl h)⟩
  haveI : IsTrans Category (fun a b =>
      bySortOrderThenName (some a.sortOrder) a.name (some b.sortOrder) b.name = true) :=
    ⟨fun a b c hab hbc => by
      rw [hrel] at hab hbc ⊢
      rcases hab with h1 | ⟨h1, s1⟩ <;> rcases hbc with h2 | ⟨h2, s2⟩
      · exact Or.inl (by omega)
      · exact Or.inl (by omega)
      · exact Or.inl (by omega)
      · exact Or.inr ⟨by omega, strLe_trans _ _ _ s1 s2⟩⟩
  refine ⟨_, rfl, ?_, ?_⟩
  · intro c hc
    have := (List.perm_insertionSort _ _).mem_iff.mp hc
    simpa using List.mem_filter.mp this
  · have hsorted := List.sorted_insertionSort (fun a b : Category =>
      bySortOrderThenName (some a.sortOrder) a.name (some b.sortOrder) b.name = true)
      (st.categories.filter (fun c => c.isActive))
    have hchain := List.Pairwise.chain' hsorted
    exact List.Chain'.imp (fun a b h => (hrel a b).mp h) hchain

/-- **C21.** The category statistics overview is not ordered by `sortOrder`:
its `$sort` runs after the `$project` that drops `sortOrder`, so only the name
orders the output. On the sample store "Surgical Instruments" has sortOrder 1
and "Diagnostic Equipment" sortOrder 2; the category list returns them in
that order, the statistics return "Diagnostic Equipment" first. -/
theorem getCategoryStats_ignores_sortOrder :
    sampleStore.categories.map (fun c => (c.name, c.sortOrder, c.isActive)) =
      [("Surgical Instruments", 1, true), ("Diagnostic Equipment", 2, true)] ∧
    (getCategoryList sampleStore).data.map (List.map fun c => (c.name, c.sortOrder)) =
      some [("Surgical Instruments", 1), ("Diagnostic Equipment", 2)] ∧
    (getCategoryStats sampleStore).data.map (List.map fun c => c.name) =
      some ["Diagnostic Equipment", "Surgical Instruments"] := by
  decide

theorem getCategoryStats_sorted_by_name (st : Store) :
    ∃ categories, (getCategoryStats st).data = some categories ∧
      List.Chain' (fun a b : CategoryOverview => strLe a.name.data b.name.data = true)
        categories := by
  haveI : IsTotal CategoryOverview (fun a b =>
      bySortOrderThenName none a.name none b.name = true) :=
    ⟨fun a b => strLe_total a.name.data b.name.data⟩
  haveI : IsTrans CategoryOverview (fun a b =>
      bySortOrderThenName none a.name none b.name = true) :=
    ⟨fun a b c hab hbc => strLe_trans a.name.data b.name.data c.name.data hab hbc⟩
  refine ⟨_, rfl, ?_⟩
  have hsorted := List.sorted_insertionSort (fun a b : CategoryOverview =>
    bySortOrderThenName none a.name none b.name = true)
    ((st.categories.filter (fun c => c.isActive)).map (fun c =>
      ({ _id := c._id, name := c.name, description := c.description, icon := c.icon,
         equipmentCount := (equipmentOf st c).length
         createdAt := c.createdAt, updatedAt := c.updatedAt } : CategoryOverview)))
  exact List.Pairwise.chain' hsorted

/-! ## Equipment statistics -/

theorem mem_distinctIds (l : List ObjectId) (y : ObjectId) : y ∈ distinctIds l ↔ y ∈ l := by
  induction l with
  | nil => simp [distinctIds]
  | cons x xs ih =>
    simp only [distinctIds, List.mem_cons, List.mem_filter, ih, bne_iff_ne, ne_eq]
    constructor
    · rintro (h | ⟨h, _⟩)
      · exact Or.inl h
      · exact Or.inr h
    · rintro (h | h)
      · exact Or.inl h
      · by_cases hyx : y = x
        · exact Or.inl hyx
        · exact Or.inr ⟨h, hyx⟩

theorem nodup_distinctIds (l : List ObjectId) : (distinctIds l).Nodup := by
  induction l with
  | nil => simp [distinctIds]
  | cons x xs ih =>
    simp only [distinctIds, List.nodup_cons, List.mem_filter, bne_iff_ne, ne_eq,
      not_true_eq_false, and_false, not_false_eq_true, true_and]
    exact ih.filter _

theorem sum_indicator (D : List ObjectId) (x : ObjectId) :
    (D.map (fun y => if y = x then 1 else 0)).sum = D.count x := by
  induction D with
  | nil => rfl
  | cons d ds ih =>
    simp only [List.map_cons, List.sum_cons, ih, List.count_cons, beq_iff_eq]
    omega

theorem sum_count_eq_length (D l : List ObjectId) (hnd : D.Nodup) (hsub : ∀ x ∈ l, x ∈ D) :
    (D.map (fun y => l.count y)).sum = l.length := by
  induction l with
  | nil => simp
  | cons x xs ih =>
    have hx : x ∈ D := hsub x (List.mem_cons_self _ _)
    have hsub2 : ∀ y ∈ xs, y ∈ D := fun y hy => hsub y (List.mem_cons_of_mem _ hy)
    have hfun : (fun y => (x :: xs).count y) =
        fun y => xs.count y + (if y = x then 1 else 0) := by
      funext y
      simp only [List.count_cons, beq_iff_eq]
      by_cases h : x = y
      · simp [h]
      · have h2 : ¬ y = x := fun e => h e.symm
        simp [h, h2]
    rw [hfun, List.sum_map_add, ih hsub2, sum_indicator, List.count_eq_one_of_mem hnd hx]
    rfl

theorem length_by_availability (l : List Equipment)
    (h : ∀ e ∈ l, e.isActive = true →
      e.availability = "In Stock" ∨ e.availability = "Out of Stock" ∨
        e.availability = "Low Stock") :
    (l.filter (fun e => e.isActive)).length =
      (l.filter (fun e => e.isActive && e.availability == "In Stock")).length +
      (l.filter (fun e => e.isActive && e.availability == "Out of Stock")).length +
      (l.filter (fun e => e.isActive && e.availability == "Low Stock")).length := by
  induction l with
  | nil => rfl
  | cons x xs ih =>
    have ih2 := ih (fun e he => h e (List.mem_cons_of_mem _ he))
    by_cases ha : x.isActive = true
    · rcases h x (List.mem_cons_self _ _) ha with hv | hv | hv <;>
        simp [List.filter_cons, ha, hv, ih2] <;> omega
    · have ha2 : x.isActive = false := by simpa using ha
      simp [List.filter_cons, ha2, ih2]

theorem countDocuments_active (rt : Runtime) (st : Store) :
    Equipment.countDocuments rt st [("isActive", Cond.bool true)] =
      .ok (st.equipment.filter (fun e => e.isActive)).length := by
  have hfun : Equipment.matchesFilter rt [("isActive", Cond.bool true)] =
      fun e => e.isActive := by
    funext e
    simp [Equipment.matchesFilter, Equipment.satisfies]
  simp [Equipment.countDocuments, Filter.castable, hfun]

theorem countDocuments_availability (rt : Runtime) (st : Store) (a : String) :
    Equipment.countDocuments rt st
        [("isActive", Cond.bool true), ("availability", Cond.str a)] =
      .ok (st.equipment.filter (fun e => e.isActive && e.availability == a)).length := by
  have hfun : Equipment.matchesFilter rt
      [("isActive", Cond.bool true), ("availability", Cond.str a)] =
      fun e => e.isActive && e.availability == a := by
    funext e
    simp [Equipment.matchesFilter, Equipment.satisfies]
  simp [Equipment.countDocuments, Filter.castable, hfun]

theorem getEquipmentStats_eq (rt : Runtime) (st : Store) :
    getEquipmentStats rt st =
      { success := some true
        data := some
          { totalEquipment := (st.equipment.filter (fun e => e.isActive)).length
            inStock := (st.equipment.filter
              (fun e => e.isActive && e.availability == "In Stock")).length
            outOfStock := (st.equipment.filter
              (fun e => e.isActive && e.availability == "Out of Stock")).length
            lowStock := (st.equipment.filter
              (fun e => e.isActive && e.availability == "Low Stock")).length
            categoryStats :=
              (distinctIds ((st.equipment.filter (fun e => e.isActive)).map
                (fun e => e.categoryId))).map (fun id =>
                  { _id := id
                    count := ((st.equipment.filter (fun e => e.isActive)).filter
                      (fun e => e.categoryId == id)).length
                    categoryName := (st.categories.find? (fun c => c._id == id)).map
                      (fun c => c.name) }) } } := by
  unfold getEquipmentStats
  simp only [countDocuments_active, countDocuments_availability]
  rfl

/-- **C22.** For every store in which each active equipment item's availability
is 'In Stock', 'Out of Stock' or 'Low Stock', the equipment statistics are a
success with `totalEquipment` the number of active items,
`totalEquipment = inStock + outOfStock + lowStock`, the counts of
`categoryStats` summing to `totalEquipment`, and exactly one entry of
`categoryStats` for each `categoryId` that occurs among the active items, its
count being the number of active items with that `categoryId`. -/
theorem equipment_stats_partition (rt : Runtime) (st : Store)
    (henum : ∀ e ∈ st.equipment, e.isActive = true →
      e.availability = "In Stock" ∨ e.availability = "Out of Stock" ∨
        e.availability = "Low Stock") :
    ∃ d : EquipmentStats,
      getEquipmentStats rt st = { success := some true, data := some d } ∧
      d.totalEquipment = (st.equipment.filter (fun e => e.isActive)).length ∧
      d.totalEquipment = d.inStock + d.outOfStock + d.lowStock ∧
      (d.categoryStats.map (fun s => s.count)).sum = d.totalEquipment ∧
      (d.categoryStats.map (fun s => s._id)).Nodup ∧
      (∀ id, id ∈ d.categoryStats.map (fun s => s._id) ↔
        ∃ e ∈ st.equipment, e.isActive = true ∧ e.categoryId = id) ∧
      (∀ s ∈ d.categoryStats, s.count =
        (st.equipment.filter (fun e => e.isActive && e.categoryId == s._id)).length) := by
  refine ⟨_, getEquipmentStats_eq rt st, rfl, length_by_availability st.equipment henum,
    ?_, ?_, ?_, ?_⟩
  · simp only [List.map_map]
    have hfun : ((fun s : CategoryStat => s.count) ∘ fun id =>
        ({ _id := id
           count := ((st.equipment.filter (fun e => e.isActive)).filter
             (fun e => e.categoryId == id)).length
           categoryName := (st.categories.find? (fun c => c._id == id)).map
             (fun c => c.name) } : CategoryStat)) =
        fun id => ((st.equipment.filter (fun e => e.isActive)).map
          (fun e => e.categoryId)).count id := by
      funext id
      simp only [Function.comp, List.count, List.countP_eq_length_filter, List.filter_map,
        List.length_map]
      rfl
    rw [hfun, sum_count_eq_length _ _ (nodup_distinctIds _)
      (fun x hx => (mem_distinctIds _ x).mpr hx), List.length_map]
  · simp only [List.map_map]
    have hfun : ((fun s : CategoryStat => s._id) ∘ fun id =>
        ({ _id := id
           count := ((st.equipment.filter (fun e => e.isActive)).filter
             (fun e => e.categoryId == id)).length
           categoryName := (st.categories.find? (fun c => c._id == id)).map
             (fun c => c.name) } : CategoryStat)) = id := by
      funext id
      rfl
    rw [hfun, List.map_id]
    exact nodup_distinctIds _
  · intro id
    simp only [List.map_map, List.mem_map, Function.comp, mem_distinctIds, List.mem_filter]
    constructor
    · rintro ⟨x, ⟨e, ⟨he, ha⟩, hx⟩, hid⟩
      exact ⟨e, he, ha, by rw [hx, hid]⟩
    · rintro ⟨e, he, ha, hid⟩
      exact ⟨id, ⟨e, ⟨he, ha⟩, hid⟩, rfl⟩
  · intro s hs
    simp only [List.mem_map] at hs
    obtain ⟨id, _, rfl⟩ := hs
    simp only [List.filter_filter]
    congr 2
    funext e
    exact Bool.and_comm _ _

/-- Witness for C22: the sample store has four active items, three in stock and
one low in stock, two in each category. -/
theorem equipment_stats_partition_witness :
    (∃ d : EquipmentStats,
      getEquipmentStats sampleRuntime sampleStore = { success := some true, data := some d } ∧
      d.totalEquipment = d.inStock + d.outOfStock + d.lowStock ∧
      (d.categoryStats.map (fun s => s.count)).sum = d.totalEquipment) ∧
    (getEquipmentStats sampleRuntime sampleStore).data.map
        (fun d => (d.totalEquipment, d.inStock, d.outOfStock, d.lowStock,
          d.categoryStats.map (fun s => (s._id, s.count)))) =
      some (4, 3, 0, 1, [(1, 2), (2, 2)]) :=
  ⟨match equipment_stats_partition sampleRuntime sampleStore (by decide) with
    | ⟨d, h1, _, h3, h4, _⟩ => ⟨d, h1, h3, h4⟩,
   rfl⟩

end Hafak
